import Mathlib

/-!
# Popup placement, visibility state machine and close policy

A shallow embedding of `src/quicktemplates2/qquickpopup.cpp`.

Conventions of the embedding:

* `qreal` is the field `ℚ`: coordinates are exact, rounding is not modelled.
* The Qt value classes the source computes with (`QPointF`, `QRectF`,
  `QMarginsF`) are embedded with the members the source calls; each member
  follows the Qt 5 implementation of the same name.
* Items are untransformed: an item is placed in the scene by a translation,
  so `mapRectToScene` and `mapToItem` add and subtract scene offsets.
* Stateful members take the private object and return the new one; emitted
  signals are appended to the `emitted` log of the object.
-/

/-! ## Qt value classes -/

/-- A point with `qreal` coordinates. -/
structure QPointF where
  xp : ℚ
  yp : ℚ
deriving DecidableEq

/-- Margins in the order of the Qt constructor: left, top, right, bottom. -/
structure QMarginsF where
  left : ℚ
  top : ℚ
  right : ℚ
  bottom : ℚ
deriving DecidableEq

/-- A rectangle stored as top-left corner and size, as in Qt. -/
structure QRectF where
  xp : ℚ
  yp : ℚ
  w : ℚ
  h : ℚ
deriving DecidableEq

namespace QRectF

/-- The default constructed (null) rectangle of Qt. -/
def null : QRectF := ⟨0, 0, 0, 0⟩

def x (r : QRectF) : ℚ := r.xp

def y (r : QRectF) : ℚ := r.yp

def width (r : QRectF) : ℚ := r.w

def height (r : QRectF) : ℚ := r.h

def left (r : QRectF) : ℚ := r.xp

def top (r : QRectF) : ℚ := r.yp

def right (r : QRectF) : ℚ := r.xp + r.w

def bottom (r : QRectF) : ℚ := r.yp + r.h

def topLeft (r : QRectF) : QPointF := ⟨r.xp, r.yp⟩

/-- Moves the rectangle vertically, leaving its top edge at `pos`; the size is kept. -/
def moveTop (r : QRectF) (pos : ℚ) : QRectF := { r with yp := pos }

/-- Moves the rectangle vertically, leaving its bottom edge at `pos`; the size is kept. -/
def moveBottom (r : QRectF) (pos : ℚ) : QRectF := { r with yp := pos - r.h }

/-- Moves the rectangle horizontally, leaving its left edge at `pos`; the size is kept. -/
def moveLeft (r : QRectF) (pos : ℚ) : QRectF := { r with xp := pos }

/-- Moves the rectangle horizontally, leaving its right edge at `pos`; the size is kept. -/
def moveRight (r : QRectF) (pos : ℚ) : QRectF := { r with xp := pos - r.w }

/-- Qt: `setY` is `setTop`; the top edge moves to `pos` and the bottom edge stays,
so the height changes by the distance moved. -/
def setY (r : QRectF) (pos : ℚ) : QRectF := { r with yp := pos, h := r.h - (pos - r.yp) }

def setHeight (r : QRectF) (height : ℚ) : QRectF := { r with h := height }

/-- Qt: `marginsRemoved` shrinks the rectangle by the margins on each side. -/
def marginsRemoved (r : QRectF) (m : QMarginsF) : QRectF :=
  ⟨r.xp + m.left, r.yp + m.top, r.w - m.left - m.right, r.h - m.top - m.bottom⟩

def translated (r : QRectF) (dx dy : ℚ) : QRectF := { r with xp := r.xp + dx, yp := r.yp + dy }

/-- Qt: `intersected` (operator `&`). Both rectangles are normalised; when either
is empty along an axis, or they do not overlap, the null rectangle is returned. -/
def intersected (a b : QRectF) : QRectF :=
  let l1 := if a.w < 0 then a.xp + a.w else a.xp
  let r1 := if a.w < 0 then a.xp else a.xp + a.w
  if l1 = r1 then null else
  let l2 := if b.w < 0 then b.xp + b.w else b.xp
  let r2 := if b.w < 0 then b.xp else b.xp + b.w
  if l2 = r2 then null else
  if l1 ≥ r2 ∨ l2 ≥ r1 then null else
  let t1 := if a.h < 0 then a.yp + a.h else a.yp
  let b1 := if a.h < 0 then a.yp else a.yp + a.h
  if t1 = b1 then null else
  let t2 := if b.h < 0 then b.yp + b.h else b.yp
  let b2 := if b.h < 0 then b.yp else b.yp + b.h
  if t2 = b2 then null else
  if t1 ≥ b2 ∨ t2 ≥ b1 then null else
  ⟨max l1 l2, max t1 t2, min r1 r2 - max l1 l2, min b1 b2 - max t1 t2⟩

/-- Qt: `contains(QPointF)`. Edges are inside; a rectangle that is empty along an
axis contains nothing. -/
def contains (r : QRectF) (p : QPointF) : Bool :=
  let l := if r.w < 0 then r.xp + r.w else r.xp
  let rr := if r.w < 0 then r.xp else r.xp + r.w
  if l = rr then false else
  if p.xp < l ∨ p.xp > rr then false else
  let t := if r.h < 0 then r.yp + r.h else r.yp
  let b := if r.h < 0 then r.yp else r.yp + r.h
  if t = b then false else
  if p.yp < t ∨ p.yp > b then false else
  true

end QRectF

/-- Qt: `qFuzzyCompare(double, double)`:
`qAbs(p1 - p2) * 1000000000000. <= qMin(qAbs(p1), qAbs(p2))`. -/
def qFuzzyCompare (p1 p2 : ℚ) : Bool :=
  decide (|p1 - p2| * 1000000000000 ≤ min |p1| |p2|)

/-! ## Windows and items -/

/-- A window: its size, and whether `qobject_cast<QQuickApplicationWindow *>`
succeeds on it (an application window owns an overlay item). -/
structure QQuickWindow where
  id : Nat
  applicationWindow : Bool
  width : ℚ
  height : ℚ
deriving DecidableEq

/-- An item of the scene as the popup sees it: identity, scene offset of its
origin, size, and the window it belongs to (if any). -/
structure QQuickItem where
  id : Nat
  sceneX : ℚ
  sceneY : ℚ
  width : ℚ
  height : ℚ
  window : Option QQuickWindow
deriving DecidableEq

namespace QQuickItem

def mapRectToScene (i : QQuickItem) (r : QRectF) : QRectF := r.translated i.sceneX i.sceneY

def mapToScene (i : QQuickItem) (p : QPointF) : QPointF := ⟨p.xp + i.sceneX, p.yp + i.sceneY⟩

/-- Qt: `QQuickItem::contains` tests the point against `QRectF(0, 0, width, height)`. -/
def contains (i : QQuickItem) (p : QPointF) : Bool :=
  QRectF.contains ⟨0, 0, i.width, i.height⟩ p

end QQuickItem

/-! ## The popup object -/

/-- Signals of `QQuickPopup` emitted by the members embedded here. -/
inductive Signal where
  | aboutToShow
  | aboutToHide
  | visibleChanged
  | parentChanged
  | windowChanged
  | marginsChanged
  | topMarginChanged
  | leftMarginChanged
  | rightMarginChanged
  | bottomMarginChanged
  | modalChanged
  | dimChanged
deriving DecidableEq

/-- Modelled from the spec: the flags of `QQuickPopup::ClosePolicy`, declared in
the header `qquickpopup_p.h`; a close policy is a bit-set over these flags and
`NoAutoClose` is the empty set. -/
inductive ClosePolicyFlag where
  | OnPressOutside
  | OnPressOutsideParent
  | OnReleaseOutside
  | OnReleaseOutsideParent
  | OnEscape
deriving DecidableEq

/-- A close policy: one bit per flag. -/
structure ClosePolicy where
  onPressOutside : Bool
  onPressOutsideParent : Bool
  onReleaseOutside : Bool
  onReleaseOutsideParent : Bool
  onEscape : Bool
deriving DecidableEq

namespace ClosePolicy

def NoAutoClose : ClosePolicy := ⟨false, false, false, false, false⟩

def testFlag (p : ClosePolicy) : ClosePolicyFlag → Bool
  | .OnPressOutside => p.onPressOutside
  | .OnPressOutsideParent => p.onPressOutsideParent
  | .OnReleaseOutside => p.onReleaseOutside
  | .OnReleaseOutsideParent => p.onReleaseOutsideParent
  | .OnEscape => p.onEscape

end ClosePolicy

/-- The item a popup item is parented to while the popup is shown. -/
inductive PopupItemParent where
  | overlay (window : QQuickWindow)
  | contentItem (window : QQuickWindow)
deriving DecidableEq

/-- The popup's own item: position in its parent (which sits at the scene
origin), size, implicit size, and the item flags the popup sets. -/
structure QQuickPopupItem where
  x : ℚ
  y : ℚ
  width : ℚ
  height : ℚ
  implicitWidth : ℚ
  implicitHeight : ℚ
  z : ℚ
  visible : Bool
  focus : Bool
  parentItem : Option PopupItemParent
deriving DecidableEq

namespace QQuickPopupItem

def setPosition (i : QQuickPopupItem) (p : QPointF) : QQuickPopupItem := { i with x := p.xp, y := p.yp }

def setHeight (i : QQuickPopupItem) (height : ℚ) : QQuickPopupItem := { i with height := height }

def setZ (i : QQuickPopupItem) (z : ℚ) : QQuickPopupItem := { i with z := z }

def setVisible (i : QQuickPopupItem) (v : Bool) : QQuickPopupItem := { i with visible := v }

def setFocus (i : QQuickPopupItem) (f : Bool) : QQuickPopupItem := { i with focus := f }

def setParentItem (i : QQuickPopupItem) (p : Option PopupItemParent) : QQuickPopupItem :=
  { i with parentItem := p }

/-- The ancestors of a shown popup item (overlay, content item) are taken to be visible. -/
def isVisible (i : QQuickPopupItem) : Bool := i.visible

/-- Qt: `QQuickItem::contains` tests the point against `QRectF(0, 0, width, height)`. -/
def contains (i : QQuickPopupItem) (p : QPointF) : Bool :=
  QRectF.contains ⟨0, 0, i.width, i.height⟩ p

end QQuickPopupItem

/-- Maps a point of `item` into the coordinates of the popup item. -/
def QQuickItem.mapToPopupItem (item : QQuickItem) (popupItem : QQuickPopupItem) (p : QPointF) : QPointF :=
  ⟨p.xp + item.sceneX - popupItem.x, p.yp + item.sceneY - popupItem.y⟩

/-- Maps a point of `item` into the coordinates of `target`. -/
def QQuickItem.mapToItem (item target : QQuickItem) (p : QPointF) : QPointF :=
  ⟨p.xp + item.sceneX - target.sceneX, p.yp + item.sceneY - target.sceneY⟩

/-- A transition object set as `enter` or `exit`. -/
structure QQuickTransition where
  id : Nat
deriving DecidableEq

/-- States of `QQuickPopupTransitionManager`. -/
inductive TransitionState where
  | Off
  | Enter
  | Exit
deriving DecidableEq

/-- The transition manager: its own `state`, and `running`, the value of the
base class `QQuickTransitionManager::isRunning()`. -/
structure QQuickPopupTransitionManager where
  state : TransitionState
  running : Bool
deriving DecidableEq

/-- The positioner: the anchor item it tracks. -/
structure QQuickPopupPositioner where
  m_parentItem : Option QQuickItem
deriving DecidableEq

/-- The private object of a popup. `parent` is the `QObject` parent cast to an
item, `eventFilter` tells whether the popup is installed as event filter of its
window, `emitted` is the log of emitted signals (oldest first). -/
structure QQuickPopupPrivate where
  focus : Bool
  modal : Bool
  visible : Bool
  complete : Bool
  hasTopMargin : Bool
  hasLeftMargin : Bool
  hasRightMargin : Bool
  hasBottomMargin : Bool
  x : ℚ
  y : ℚ
  margins : ℚ
  topMargin : ℚ
  leftMargin : ℚ
  rightMargin : ℚ
  bottomMargin : ℚ
  contentWidth : ℚ
  contentHeight : ℚ
  closePolicy : ClosePolicy
  parentItem : Option QQuickItem
  enter : Option QQuickTransition
  exit : Option QQuickTransition
  popupItem : QQuickPopupItem
  positioner : QQuickPopupPositioner
  transitionManager : QQuickPopupTransitionManager
  parent : Option QQuickItem
  eventFilter : Bool
  emitted : List Signal
deriving DecidableEq

namespace QQuickPopupPrivate

def emit (d : QQuickPopupPrivate) (s : Signal) : QQuickPopupPrivate :=
  { d with emitted := d.emitted ++ [s] }

end QQuickPopupPrivate

namespace QQuickPopup

/-- The popup item made by `QQuickPopupItem::QQuickPopupItem`: hidden, unparented. -/
def newPopupItem : QQuickPopupItem :=
  { x := 0, y := 0, width := 0, height := 0, implicitWidth := 0, implicitHeight := 0, z := 0,
    visible := false, focus := false, parentItem := none }

/-- The object made by `QQuickPopupPrivate::QQuickPopupPrivate` and `init`, for
a popup whose `QObject` parent is `parent`; `init` makes the parent the anchor
item. The log starts empty: signals emitted during construction are not recorded. -/
def create (parent : Option QQuickItem) : QQuickPopupPrivate :=
  { focus := false, modal := false, visible := false, complete := false,
    hasTopMargin := false, hasLeftMargin := false, hasRightMargin := false, hasBottomMargin := false,
    x := 0, y := 0, margins := 0, topMargin := 0, leftMargin := 0, rightMargin := 0, bottomMargin := 0,
    contentWidth := 0, contentHeight := 0,
    closePolicy := { ClosePolicy.NoAutoClose with onEscape := true, onPressOutside := true },
    parentItem := parent, enter := none, exit := none, popupItem := newPopupItem,
    positioner := ⟨none⟩, transitionManager := ⟨.Off, false⟩,
    parent := parent, eventFilter := false, emitted := [] }

def margins (d : QQuickPopupPrivate) : ℚ := d.margins

def topMargin (d : QQuickPopupPrivate) : ℚ := if d.hasTopMargin then d.topMargin else d.margins

def leftMargin (d : QQuickPopupPrivate) : ℚ := if d.hasLeftMargin then d.leftMargin else d.margins

def rightMargin (d : QQuickPopupPrivate) : ℚ := if d.hasRightMargin then d.rightMargin else d.margins

def bottomMargin (d : QQuickPopupPrivate) : ℚ := if d.hasBottomMargin then d.bottomMargin else d.margins

def window (d : QQuickPopupPrivate) : Option QQuickWindow :=
  match d.parentItem with
  | none => none
  | some parentItem => parentItem.window

def isVisible (d : QQuickPopupPrivate) : Bool := d.visible && d.popupItem.isVisible

end QQuickPopup

namespace QQuickPopupPrivate

def getMargins (d : QQuickPopupPrivate) : QMarginsF :=
  ⟨QQuickPopup.leftMargin d, QQuickPopup.topMargin d, QQuickPopup.rightMargin d, QQuickPopup.bottomMargin d⟩

/-- The candidate rectangle of `reposition` in anchor coordinates:
`QRectF(x, y, iw > 0 ? iw : w, ih > 0 ? ih : h)`. -/
def candidateRect (d : QQuickPopupPrivate) : QRectF :=
  ⟨d.x, d.y,
   if d.popupItem.implicitWidth > 0 then d.popupItem.implicitWidth else d.popupItem.width,
   if d.popupItem.implicitHeight > 0 then d.popupItem.implicitHeight else d.popupItem.height⟩

/-- The window bounds shrunk by the margins, as computed in `reposition`. -/
def marginBounds (window : QQuickWindow) (margins : QMarginsF) : QRectF :=
  QRectF.marginsRemoved ⟨0, 0, window.width, window.height⟩ margins

/-- The block "push inside the margins" of `reposition`. -/
def pushInside (margins : QMarginsF) (bounds rect : QRectF) : QRectF :=
  let rect := if margins.top > 0 ∧ rect.top < bounds.top then rect.moveTop margins.top else rect
  let rect := if margins.bottom > 0 ∧ rect.bottom > bounds.bottom then rect.moveBottom bounds.bottom else rect
  let rect := if margins.left > 0 ∧ rect.left < bounds.left then rect.moveLeft margins.left else rect
  if margins.right > 0 ∧ rect.right > bounds.right then rect.moveRight bounds.right else rect

/-- The rectangle `flipped` of `reposition`, for the pushed rectangle `rect`. -/
def flippedRect (d : QQuickPopupPrivate) (parentItem : QQuickItem) (rect : QRectF) : QRectF :=
  parentItem.mapRectToScene ⟨d.x, parentItem.height - d.y - rect.height, rect.width, rect.height⟩

/-- The statement `if (rect.top() < bounds.top() || rect.bottom() > bounds.bottom())`
of `reposition` with its body: the values of `rect` and `adjusted` after it. -/
def flipOrShrink (d : QQuickPopupPrivate) (parentItem : QQuickItem) (bounds rect : QRectF) : QRectF × Bool :=
  if rect.top < bounds.top ∨ rect.bottom > bounds.bottom then
    let flipped := flippedRect d parentItem rect
    if flipped.top ≥ bounds.top ∧ flipped.bottom < bounds.bottom then
      (flipped, true)
    else if d.popupItem.implicitHeight > 0 then
      let primary := rect.intersected bounds
      let secondary := flipped.intersected bounds
      if primary.height > secondary.height then
        ((rect.setY primary.y).setHeight primary.height, true)
      else
        ((rect.setY secondary.y).setHeight secondary.height, true)
    else
      (rect, false)
  else
    (rect, false)

/-- The values of the locals `rect` and `adjusted` of `reposition` when it
reaches `popupItem->setPosition`. -/
def repositionRect (d : QQuickPopupPrivate) : QRectF × Bool :=
  match d.parentItem with
  | none => (candidateRect d, false)
  | some parentItem =>
    let rect := parentItem.mapRectToScene (candidateRect d)
    match QQuickPopup.window d with
    | none => (rect, false)
    | some window =>
      let margins := getMargins d
      let bounds := marginBounds window margins
      flipOrShrink d parentItem bounds (pushInside margins bounds rect)

/-- `QQuickPopupPrivate::reposition`. -/
def reposition (d : QQuickPopupPrivate) : QQuickPopupPrivate :=
  let ra := repositionRect d
  let item := d.popupItem.setPosition ra.1.topLeft
  let item := if ra.2 ∧ d.popupItem.implicitHeight > 0 then item.setHeight ra.1.height else item
  { d with popupItem := item }

end QQuickPopupPrivate

/-! ## Positioner and transition hooks -/

/-- `QQuickPopupPositioner::setParentItem`. The listeners it removes from and
adds to the anchor and its ancestors only schedule later calls; they are not
part of the state. -/
def QQuickPopupPositioner.setParentItem (d : QQuickPopupPrivate) (parent : Option QQuickItem) :
    QQuickPopupPrivate :=
  if d.positioner.m_parentItem = parent then d
  else
    let d := { d with positioner := ⟨parent⟩ }
    match parent with
    | none => d
    | some _ => if d.popupItem.isVisible then d.reposition else d

/-- Modelled from the spec: the default argument of `prepareEnterTransition(bool notify)`,
declared in the header `qquickpopup_p_p.h`; the spec has `open()` mark the popup
visible and emit the "about to show" notification. -/
def prepareEnterTransitionDefaultNotify : Bool := true

/-- Modelled from the spec: the default argument of `finalizeExitTransition(bool hide)`,
declared in the header `qquickpopup_p_p.h`; the spec has the completion of the exit
transition detach the surface and mark it invisible. -/
def finalizeExitTransitionDefaultHide : Bool := true

namespace QQuickPopupPrivate

/-- `QQuickPopupPrivate::prepareEnterTransition`. Without a window it only prints
the `qmlInfo` message, which is not part of the state. -/
def prepareEnterTransition (d : QQuickPopupPrivate) (notify : Bool) : QQuickPopupPrivate :=
  match QQuickPopup.window d with
  | none => d
  | some quickWindow =>
    let d :=
      if quickWindow.applicationWindow then
        { d with popupItem := d.popupItem.setParentItem (some (.overlay quickWindow)) }
      else
        { d with
          eventFilter := true
          popupItem := (d.popupItem.setZ 10001).setParentItem (some (.contentItem quickWindow)) }
    let d := if notify then d.emit .aboutToShow else d
    let d := { d with visible := notify }
    let d := { d with popupItem := d.popupItem.setVisible true }
    let d := QQuickPopupPositioner.setParentItem d d.parentItem
    d.emit .visibleChanged

/-- `QQuickPopupPrivate::prepareExitTransition`. -/
def prepareExitTransition (d : QQuickPopupPrivate) : QQuickPopupPrivate :=
  let d :=
    match QQuickPopup.window d with
    | some quickWindow => if quickWindow.applicationWindow then d else { d with eventFilter := false }
    | none => d
  let d := if d.focus then { d with popupItem := d.popupItem.setFocus false } else d
  d.emit .aboutToHide

/-- `QQuickPopupPrivate::finalizeEnterTransition`. -/
def finalizeEnterTransition (d : QQuickPopupPrivate) : QQuickPopupPrivate :=
  if d.focus then { d with popupItem := d.popupItem.setFocus true } else d

/-- `QQuickPopupPrivate::finalizeExitTransition`. -/
def finalizeExitTransition (d : QQuickPopupPrivate) (hide : Bool) : QQuickPopupPrivate :=
  let d := QQuickPopupPositioner.setParentItem d none
  let d :=
    if hide then { d with popupItem := (d.popupItem.setParentItem none).setVisible false } else d
  let d := { d with visible := false }
  d.emit .visibleChanged

end QQuickPopupPrivate

/-! ## Transition manager -/

namespace QQuickPopupTransitionManager

/-- `QQuickPopupTransitionManager::finished`. -/
def finished (d : QQuickPopupPrivate) : QQuickPopupPrivate :=
  let d :=
    if d.transitionManager.state = .Enter then d.finalizeEnterTransition
    else if d.transitionManager.state = .Exit then d.finalizeExitTransition finalizeExitTransitionDefaultHide
    else d
  { d with transitionManager := { d.transitionManager with state := .Off } }

/-- Qt: `QQuickTransitionManager::complete`, run when the started transition has
played to its end: the manager is no longer running and `finished` is called. -/
def complete (d : QQuickPopupPrivate) : QQuickPopupPrivate :=
  finished { d with transitionManager := { d.transitionManager with running := false } }

/-- Qt: `QQuickTransitionManager::transition`. It cancels what is running; given
a transition object it starts it and returns while it runs, and given none it
calls `complete` at once. -/
def transition (d : QQuickPopupPrivate) (t : Option QQuickTransition) : QQuickPopupPrivate :=
  let d := { d with transitionManager := { d.transitionManager with running := false } }
  match t with
  | some _ => { d with transitionManager := { d.transitionManager with running := true } }
  | none => complete d

/-- The running transition reaches its end (the animation calls `complete`);
nothing happens when no transition is running. -/
def transitionCompleted (d : QQuickPopupPrivate) : QQuickPopupPrivate :=
  if d.transitionManager.running then complete d else d

def isRunning (d : QQuickPopupPrivate) : Bool := d.transitionManager.running

/-- `QQuickPopupTransitionManager::transitionEnter`. -/
def transitionEnter (d : QQuickPopupPrivate) : QQuickPopupPrivate :=
  if d.transitionManager.state = .Enter ∧ isRunning d then d
  else
    let d := { d with transitionManager := { d.transitionManager with state := .Enter } }
    let d := d.prepareEnterTransition prepareEnterTransitionDefaultNotify
    transition d d.enter

/-- `QQuickPopupTransitionManager::transitionExit`. -/
def transitionExit (d : QQuickPopupPrivate) : QQuickPopupPrivate :=
  if d.transitionManager.state = .Exit ∧ isRunning d then d
  else
    let d := { d with transitionManager := { d.transitionManager with state := .Exit } }
    let d := d.prepareExitTransition
    transition d d.exit

end QQuickPopupTransitionManager

/-! ## Public members of the popup -/

/-- `QQuickPopup::open`. -/
def QQuickPopup.open (d : QQuickPopupPrivate) : QQuickPopupPrivate :=
  if d.visible then d
  else if d.complete then QQuickPopupTransitionManager.transitionEnter d
  else d

namespace QQuickPopup

/-- `QQuickPopup::close`. -/
def close (d : QQuickPopupPrivate) : QQuickPopupPrivate :=
  if !d.visible then d
  else if d.complete then QQuickPopupTransitionManager.transitionExit d
  else d

/-- `QQuickPopup::setVisible`. -/
def setVisible (d : QQuickPopupPrivate) (visible : Bool) : QQuickPopupPrivate :=
  if d.visible = visible then d
  else
    let d := { d with visible := visible }
    if d.complete then
      if visible then QQuickPopupTransitionManager.transitionEnter d
      else QQuickPopupTransitionManager.transitionExit d
    else d

/-- `QQuickPopup::setParentItem`. Font and locale resolution are not part of the state. -/
def setParentItem (d : QQuickPopupPrivate) (parent : Option QQuickItem) : QQuickPopupPrivate :=
  if d.parentItem = parent then d
  else
    let oldWindow := window d
    let d := { d with parentItem := parent }
    let d := if d.positioner.m_parentItem.isSome then QQuickPopupPositioner.setParentItem d parent else d
    let d := d.emit .parentChanged
    let newWindow := window d
    if oldWindow ≠ newWindow then d.emit .windowChanged else d

/-- `QQuickPopup::componentComplete`. -/
def componentComplete (d : QQuickPopupPrivate) : QQuickPopupPrivate :=
  let d := { d with complete := true }
  let d := if d.parentItem.isNone then setParentItem d d.parent else d
  if d.visible then QQuickPopupTransitionManager.transitionEnter d else d

/-- `QQuickPopup::marginsChange`. -/
def marginsChange (d : QQuickPopupPrivate) : QQuickPopupPrivate := d.reposition

/-- `QQuickPopup::setMargins`. -/
def setMargins (d : QQuickPopupPrivate) (margins : ℚ) : QQuickPopupPrivate :=
  if qFuzzyCompare d.margins margins then d
  else
    let oldMargins := d.getMargins
    let d := { d with margins := margins }
    let d := d.emit .marginsChanged
    let newMargins := d.getMargins
    let d := if !qFuzzyCompare newMargins.top oldMargins.top then d.emit .topMarginChanged else d
    let d := if !qFuzzyCompare newMargins.left oldMargins.left then d.emit .leftMarginChanged else d
    let d := if !qFuzzyCompare newMargins.right oldMargins.right then d.emit .rightMarginChanged else d
    let d := if !qFuzzyCompare newMargins.bottom oldMargins.bottom then d.emit .bottomMarginChanged else d
    marginsChange d

/-- `QQuickPopup::resetMargins`. -/
def resetMargins (d : QQuickPopupPrivate) : QQuickPopupPrivate := setMargins d 0

end QQuickPopup

namespace QQuickPopupPrivate

/-- `QQuickPopupPrivate::setTopMargin`. -/
def setTopMargin (d : QQuickPopupPrivate) (value : ℚ) (reset : Bool) : QQuickPopupPrivate :=
  let oldMargin := QQuickPopup.topMargin d
  let d := { d with topMargin := value, hasTopMargin := !reset }
  if (!reset && !qFuzzyCompare oldMargin value) || (reset && !qFuzzyCompare oldMargin d.margins) then
    QQuickPopup.marginsChange (d.emit .topMarginChanged)
  else d

/-- `QQuickPopupPrivate::setLeftMargin`. -/
def setLeftMargin (d : QQuickPopupPrivate) (value : ℚ) (reset : Bool) : QQuickPopupPrivate :=
  let oldMargin := QQuickPopup.leftMargin d
  let d := { d with leftMargin := value, hasLeftMargin := !reset }
  if (!reset && !qFuzzyCompare oldMargin value) || (reset && !qFuzzyCompare oldMargin d.margins) then
    QQuickPopup.marginsChange (d.emit .leftMarginChanged)
  else d

/-- `QQuickPopupPrivate::setRightMargin`. -/
def setRightMargin (d : QQuickPopupPrivate) (value : ℚ) (reset : Bool) : QQuickPopupPrivate :=
  let oldMargin := QQuickPopup.rightMargin d
  let d := { d with rightMargin := value, hasRightMargin := !reset }
  if (!reset && !qFuzzyCompare oldMargin value) || (reset && !qFuzzyCompare oldMargin d.margins) then
    QQuickPopup.marginsChange (d.emit .rightMarginChanged)
  else d

/-- `QQuickPopupPrivate::setBottomMargin`. -/
def setBottomMargin (d : QQuickPopupPrivate) (value : ℚ) (reset : Bool) : QQuickPopupPrivate :=
  let oldMargin := QQuickPopup.bottomMargin d
  let d := { d with bottomMargin := value, hasBottomMargin := !reset }
  if (!reset && !qFuzzyCompare oldMargin value) || (reset && !qFuzzyCompare oldMargin d.margins) then
    QQuickPopup.marginsChange (d.emit .bottomMarginChanged)
  else d

end QQuickPopupPrivate

namespace QQuickPopup

def setTopMargin (d : QQuickPopupPrivate) (margin : ℚ) : QQuickPopupPrivate := d.setTopMargin margin false

def resetTopMargin (d : QQuickPopupPrivate) : QQuickPopupPrivate := d.setTopMargin 0 true

def setLeftMargin (d : QQuickPopupPrivate) (margin : ℚ) : QQuickPopupPrivate := d.setLeftMargin margin false

def resetLeftMargin (d : QQuickPopupPrivate) : QQuickPopupPrivate := d.setLeftMargin 0 true

def setRightMargin (d : QQuickPopupPrivate) (margin : ℚ) : QQuickPopupPrivate := d.setRightMargin margin false

def resetRightMargin (d : QQuickPopupPrivate) : QQuickPopupPrivate := d.setRightMargin 0 true

def setBottomMargin (d : QQuickPopupPrivate) (margin : ℚ) : QQuickPopupPrivate := d.setBottomMargin margin false

def resetBottomMargin (d : QQuickPopupPrivate) : QQuickPopupPrivate := d.setBottomMargin 0 true

end QQuickPopup

/-! ## Events and the close policy -/

/-- The event types `overlayEvent` distinguishes; `Other` stands for every other type. -/
inductive QEventType where
  | KeyPress
  | KeyRelease
  | MouseMove
  | Wheel
  | MouseButtonPress
  | MouseButtonRelease
  | Other
deriving DecidableEq

/-- An event: its type, its position (for a mouse event, in the coordinates of
the item it is delivered to) and its accepted flag. -/
structure QEvent where
  type : QEventType
  pos : QPointF
  accepted : Bool
deriving DecidableEq

def QEvent.accept (e : QEvent) : QEvent := { e with accepted := true }

/-- `QQuickPopupPrivate::tryClose`: the popup after the call and the returned value. -/
def QQuickPopupPrivate.tryClose (d : QQuickPopupPrivate) (item : QQuickItem) (event : QEvent) :
    QQuickPopupPrivate × Bool :=
  let isPress := event.type = QEventType.MouseButtonPress
  let onOutside := d.closePolicy.testFlag (if isPress then .OnPressOutside else .OnReleaseOutside)
  let onOutsideParent :=
    d.closePolicy.testFlag (if isPress then .OnPressOutsideParent else .OnReleaseOutsideParent)
  if onOutside || onOutsideParent then
    if !d.popupItem.contains (item.mapToPopupItem d.popupItem event.pos) then
      if !onOutsideParent ||
          (match d.parentItem with
           | none => true
           | some parentItem => !parentItem.contains (item.mapToItem parentItem event.pos)) then
        (QQuickPopup.close d, true)
      else (d, false)
    else (d, false)
  else (d, false)

/-- `QQuickPopup::overlayEvent`: the popup and the event after the call, and the
returned value. -/
def QQuickPopup.overlayEvent (d : QQuickPopupPrivate) (item : QQuickItem) (event : QEvent) :
    QQuickPopupPrivate × QEvent × Bool :=
  match event.type with
  | .KeyPress | .KeyRelease | .MouseMove | .Wheel =>
    (d, if d.modal then event.accept else event, d.modal)
  | .MouseButtonPress | .MouseButtonRelease =>
    let event := if d.modal then event.accept else event
    let d' := (d.tryClose item event).1
    (d', event, d'.modal)
  | .Other => (d, event, false)

/-- The value of `rect` in `reposition` after the block "push inside the margins",
for a popup anchored to `parentItem` in `window`. -/
def QQuickPopupPrivate.pushedRect (d : QQuickPopupPrivate) (parentItem : QQuickItem)
    (window : QQuickWindow) : QRectF :=
  QQuickPopupPrivate.pushInside d.getMargins (QQuickPopupPrivate.marginBounds window d.getMargins)
    (parentItem.mapRectToScene d.candidateRect)

/-! ## Key events -/

/-- The keys `keyPressEvent` distinguishes; `Other` stands for every other key. -/
inductive QtKey where
  | Key_Tab
  | Key_Backtab
  | Key_Escape
  | Other (code : Nat)
deriving DecidableEq

/-- A key event: its key and its accepted flag. -/
structure QKeyEvent where
  key : QtKey
  accepted : Bool
deriving DecidableEq

def QKeyEvent.accept (e : QKeyEvent) : QKeyEvent := { e with accepted := true }

/-- `QQuickPopup::keyPressEvent`: the popup and the event after the call, and the
call of `QQuickItemPrivate::focusNextPrev` it made, if any, given by its `forward`
argument. `activeFocus` is the value of `hasActiveFocus()` when the event arrives. -/
def QQuickPopup.keyPressEvent (d : QQuickPopupPrivate) (activeFocus : Bool) (event : QKeyEvent) :
    QQuickPopupPrivate × QKeyEvent × Option Bool :=
  let event := event.accept
  let focusNextPrev : Option Bool :=
    if activeFocus ∧ (event.key = QtKey.Key_Tab ∨ event.key = QtKey.Key_Backtab) then
      some (decide (event.key = QtKey.Key_Tab))
    else none
  if event.key ≠ QtKey.Key_Escape then (d, event, focusNextPrev)
  else if d.closePolicy.testFlag ClosePolicyFlag.OnEscape then (QQuickPopup.close d, event, focusNextPrev)
  else (d, event, focusNextPrev)

/-! ## The overlay

A shallow embedding of `src/quicktemplates2/qquickoverlay.cpp`. Pointers to popups
are numbers; the popup objects they point to are kept beside the overlay in an
`OverlayScene`. Popup objects are not destroyed, and an item occurs at most once
among the children of the overlay. -/

/-- `QQuickPopup::setModal`. -/
def QQuickPopup.setModal (d : QQuickPopupPrivate) (modal : Bool) : QQuickPopupPrivate :=
  if d.modal = modal then d else ({ d with modal := modal }).emit Signal.modalChanged

/-- A component set as the `modal` or `modeless` template of the overlay;
`createsItem` tells whether `beginCreate` yields an object that is an item, and
`acceptHoverEvents` is the hover setting of the item it yields. -/
structure QQmlComponent where
  id : Nat
  createsItem : Bool
  acceptHoverEvents : Bool
deriving DecidableEq

/-- The item `createDimmer` makes: the template it was created from (none for the
plain `new QQuickItem`) and the properties the overlay sets on it. -/
structure Dimmer where
  component : Option QQmlComponent
  opacity : ℚ
  z : ℚ
  width : ℚ
  height : ℚ
  acceptHoverEvents : Bool
deriving DecidableEq

/-- Modelled from the spec: the members `dim` and `dimmer` of a popup, which the
overlay source reads and writes and the popup source does not declare; the spec
gives a popup a `dim` configuration and an optional dimmer surface it owns. The
popup object as the overlay uses it: its private part `d`, `drawer` (whether
`qobject_cast<QQuickDrawer *>` succeeds on it), and these two members. -/
structure QQuickPopup where
  d : QQuickPopupPrivate
  drawer : Bool
  dim : Bool
  dimmer : Option Dimmer
deriving DecidableEq

/-- A child item of the overlay: the popup item of a popup (the item whose
`QObject` parent is that popup), the dimmer of a popup, or another item with
its z value. -/
inductive OverlayChild where
  | popupItem (popup : Nat)
  | dimmer (popup : Nat)
  | other (id : Nat) (z : ℚ)
deriving DecidableEq

/-- Signals of `QQuickOverlay`. -/
inductive OverlaySignal where
  | pressed
  | released
deriving DecidableEq

/-- The private object of the overlay with the item state it inherits from
`QQuickItemPrivate`: the child items in child order, the visible flag and the size. -/
structure QQuickOverlayPrivate where
  modal : Option QQmlComponent
  modeless : Option QQmlComponent
  drawers : List Nat
  popups : List Nat
  mouseGrabberPopup : Option Nat
  modalPopups : Int
  childItems : List OverlayChild
  visible : Bool
  width : ℚ
  height : ℚ
  emitted : List OverlaySignal
deriving DecidableEq

/-- One call of `overlayEvent` made by the overlay: the popup called, the type of
the event, and the grab holder at that moment. -/
structure Offer where
  popup : Nat
  type : QEventType
  grabber : Option Nat
deriving DecidableEq

/-- The overlay, the popup objects its pointers refer to, and the log of the
`overlayEvent` calls the overlay has made (oldest first). -/
structure OverlayScene where
  popup : Nat → QQuickPopup
  overlay : QQuickOverlayPrivate
  offered : List Offer

namespace OverlayScene

/-- Writes the popup object `o` at the pointer `p`. -/
def setPopup (s : OverlayScene) (p : Nat) (o : QQuickPopup) : OverlayScene :=
  { s with popup := fun q => if q = p then o else s.popup q }

/-- Qt: `QQuickItem::z()` of a child of the overlay. -/
def childZ (s : OverlayScene) : OverlayChild → ℚ
  | .popupItem p => (s.popup p).d.popupItem.z
  | .dimmer p =>
    match (s.popup p).dimmer with
    | some dimmer => dimmer.z
    | none => 0
  | .other _ z => z

/-- Qt: `QQuickItemPrivate::paintOrderChildItems`: the children sorted by z with
`std::stable_sort` (children of equal z keep their child order). -/
def paintOrderChildItems (s : OverlayScene) : List OverlayChild :=
  s.overlay.childItems.insertionSort (fun a b => s.childZ a ≤ s.childZ b)

/-- The overlay as the item `this` handed to `overlayEvent`: it fills the window
from the scene origin. -/
def overlayItem (s : OverlayScene) : QQuickItem := ⟨0, 0, 0, s.overlay.width, s.overlay.height, none⟩

/-- A child of the overlay as the item handed to `overlayEvent`. -/
def childItem (s : OverlayScene) : OverlayChild → QQuickItem
  | .popupItem p =>
    ⟨0, (s.popup p).d.popupItem.x, (s.popup p).d.popupItem.y, (s.popup p).d.popupItem.width,
      (s.popup p).d.popupItem.height, none⟩
  | .dimmer p =>
    match (s.popup p).dimmer with
    | some dimmer => ⟨0, 0, 0, dimmer.width, dimmer.height, none⟩
    | none => ⟨0, 0, 0, 0, 0, none⟩
  | .other _ _ => ⟨0, 0, 0, 0, 0, none⟩

end OverlayScene

/-- Qt: the effect of `QQuickItem::stackBefore` on the child list of the parent:
`me` is moved right before `sibling`; nothing happens when one of them is no child. -/
def stackBefore (l : List OverlayChild) (me sibling : OverlayChild) : List OverlayChild :=
  if sibling = me ∨ me ∉ l ∨ sibling ∉ l then l
  else
    (l.erase me).takeWhile (fun c => decide (c ≠ sibling)) ++
      me :: (l.erase me).dropWhile (fun c => decide (c ≠ sibling))

namespace QQuickOverlayPrivate

/-- `QQuickOverlayPrivate::stackingOrderPopups`. -/
def stackingOrderPopups (s : OverlayScene) : List Nat :=
  s.paintOrderChildItems.reverse.filterMap fun c =>
    match c with
    | .popupItem p => some p
    | _ => none

/-- `QQuickOverlay::itemChange` for a child added or removed that is no popup item
(`qobject_cast<QQuickPopup *>(data.item->parent())` is null): the visible flag is
set from the child list and the function returns at `if (!popup) return;`. -/
def childItemsChanged (s : OverlayScene) : OverlayScene :=
  { s with overlay := { s.overlay with visible := !s.overlay.childItems.isEmpty } }

/-- `createDimmer` of qquickoverlay.cpp, with the overlay as `parent`: the scene
after the call (the dimmer is a child of the overlay, stacked before the popup
item) and the item returned. An item starts with opacity 1, z 0 and size 0,
which the overlay overwrites; the hover setting of an item from a template is
the one of the template, and a plain `new QQuickItem` accepts no hover events. -/
def createDimmer (s : OverlayScene) (component : Option QQmlComponent) (popup : Nat) :
    OverlayScene × Option Dimmer :=
  let item : Option Dimmer :=
    match component with
    | some c => if c.createsItem then some ⟨some c, 1, 0, 0, 0, c.acceptHoverEvents⟩ else none
    | none => none
  let item : Option Dimmer :=
    if item.isNone ∧ (s.popup popup).d.modal then some ⟨none, 1, 0, 0, 0, false⟩ else item
  match item with
  | none => (s, none)
  | some item =>
    let item := { item with opacity := if QQuickPopup.isVisible (s.popup popup).d then 1 else 0 }
    let s := childItemsChanged
      { s with overlay := { s.overlay with childItems := s.overlay.childItems ++ [.dimmer popup] } }
    let s :=
      { s with
        overlay :=
          { s.overlay with
            childItems := stackBefore s.overlay.childItems (.dimmer popup) (.popupItem popup) } }
    let item := { item with z := (s.popup popup).d.popupItem.z }
    let item :=
      if (s.popup popup).d.modal ∧ !(s.popup popup).drawer then { item with acceptHoverEvents := true }
      else item
    (s, some item)

/-- `QQuickOverlayPrivate::resizeOverlay`. -/
def resizeOverlay (s : OverlayScene) (popup : Nat) : OverlayScene :=
  match (s.popup popup).dimmer with
  | some dimmer =>
    s.setPopup popup
      { s.popup popup with
        dimmer := some { dimmer with width := s.overlay.width, height := s.overlay.height } }
  | none => s

/-- `QQuickOverlayPrivate::createOverlay`. -/
def createOverlay (s : OverlayScene) (popup : Nat) : OverlayScene :=
  let s :=
    match (s.popup popup).dimmer with
    | some _ => s
    | none =>
      let r := createDimmer s (if (s.popup popup).d.modal then s.overlay.modal else s.overlay.modeless)
        popup
      r.1.setPopup popup { r.1.popup popup with dimmer := r.2 }
  resizeOverlay s popup

/-- `QQuickOverlayPrivate::destroyOverlay`. Unparenting the dimmer removes it from
the children of the overlay and runs `itemChange` for a child that is no popup item. -/
def destroyOverlay (s : OverlayScene) (popup : Nat) : OverlayScene :=
  match (s.popup popup).dimmer with
  | some _ =>
    let s := childItemsChanged
      { s with
        overlay := { s.overlay with childItems := s.overlay.childItems.erase (.dimmer popup) } }
    s.setPopup popup { s.popup popup with dimmer := none }
  | none => s

/-- `QQuickOverlayPrivate::toggleOverlay`; `sender` is the popup that emitted the
signal, if the sender is a popup. -/
def toggleOverlay (s : OverlayScene) (sender : Option Nat) : OverlayScene :=
  match sender with
  | none => s
  | some popup =>
    let s := destroyOverlay s popup
    if (s.popup popup).dim then createOverlay s popup else s

/-- `QQuickOverlayPrivate::popupAboutToShow`. -/
def popupAboutToShow (s : OverlayScene) (sender : Option Nat) : OverlayScene :=
  match sender with
  | none => s
  | some popup =>
    if !(s.popup popup).dim then s
    else
      match (s.popup popup).dimmer with
      | some dimmer => s.setPopup popup { s.popup popup with dimmer := some { dimmer with opacity := 1 } }
      | none => s

/-- `QQuickOverlayPrivate::popupAboutToHide`. -/
def popupAboutToHide (s : OverlayScene) (sender : Option Nat) : OverlayScene :=
  match sender with
  | none => s
  | some popup =>
    if !(s.popup popup).dim then s
    else
      match (s.popup popup).dimmer with
      | some dimmer => s.setPopup popup { s.popup popup with dimmer := some { dimmer with opacity := 0 } }
      | none => s

end QQuickOverlayPrivate

/-- The kinds of item change `QQuickOverlay::itemChange` distinguishes. -/
inductive ItemChange where
  | ItemChildAddedChange
  | ItemChildRemovedChange
  | Other
deriving DecidableEq

namespace QQuickOverlay

/-- The object made by `QQuickOverlay::QQuickOverlay` for a parent of the given size. -/
def create (width height : ℚ) : QQuickOverlayPrivate :=
  { modal := none, modeless := none, drawers := [], popups := [], mouseGrabberPopup := none,
    modalPopups := 0, childItems := [], visible := false, width := width, height := height,
    emitted := [] }

/-- `QQuickOverlay::itemChange`, called with the child list already updated. The
connections it makes and removes go with the entries of `popups`: a popup is
connected to the slots of the overlay exactly while it is in that list. -/
def itemChange (s : OverlayScene) (change : ItemChange) (item : OverlayChild) : OverlayScene :=
  if change = ItemChange.ItemChildAddedChange ∨ change = ItemChange.ItemChildRemovedChange then
    let s := QQuickOverlayPrivate.childItemsChanged s
    match item with
    | .popupItem popup =>
      if change = ItemChange.ItemChildAddedChange then
        let s := { s with overlay := { s.overlay with popups := s.overlay.popups ++ [popup] } }
        let s := if (s.popup popup).dim then QQuickOverlayPrivate.createOverlay s popup else s
        if (s.popup popup).drawer then
          { s with overlay := { s.overlay with drawers := s.overlay.drawers ++ [popup] } }
        else if (s.popup popup).d.modal then
          { s with overlay := { s.overlay with modalPopups := s.overlay.modalPopups + 1 } }
        else s
      else
        let s := { s with overlay := { s.overlay with popups := s.overlay.popups.erase popup } }
        let s := QQuickOverlayPrivate.destroyOverlay s popup
        if (s.popup popup).drawer then
          { s with overlay := { s.overlay with drawers := s.overlay.drawers.erase popup } }
        else if (s.popup popup).d.modal then
          { s with overlay := { s.overlay with modalPopups := s.overlay.modalPopups - 1 } }
        else s
    | _ => s
  else s

/-- Qt: `QQuickItemPrivate::addChild` on the overlay: the item is appended to the
children and `itemChange(ItemChildAddedChange)` runs. -/
def addChild (s : OverlayScene) (item : OverlayChild) : OverlayScene :=
  itemChange { s with overlay := { s.overlay with childItems := s.overlay.childItems ++ [item] } }
    ItemChange.ItemChildAddedChange item

/-- Qt: `QQuickItemPrivate::removeChild` on the overlay: the item is removed from the
children and `itemChange(ItemChildRemovedChange)` runs. -/
def removeChild (s : OverlayScene) (item : OverlayChild) : OverlayScene :=
  itemChange { s with overlay := { s.overlay with childItems := s.overlay.childItems.erase item } }
    ItemChange.ItemChildRemovedChange item

end QQuickOverlay

namespace OverlayScene

/-- One call `popup->overlayEvent(item, event)` made by the overlay, with what the
call brings back to the overlay before it returns. When the popup emitted
`aboutToHide` and is a connected popup that is no drawer, the slot
`popupAboutToHide` runs. When the call finished the exit transition (the popup
was visible before the call and is not after it), `finalizeExitTransition` has
called `popupItem->setParentItem(nullptr)`, and a popup item that is a child of
the overlay leaves its children; a call that does not close the popup leaves the
children as they are. The function called is `QQuickPopup::overlayEvent` for
every popup, a drawer included. The result is the scene, the event, and the
value returned by `overlayEvent`. -/
def offer (s : OverlayScene) (popup : Nat) (item : QQuickItem) (event : QEvent) :
    OverlayScene × QEvent × Bool :=
  let r := QQuickPopup.overlayEvent (s.popup popup).d item event
  let hides :=
    (r.1.emitted.drop (s.popup popup).d.emitted.length).contains Signal.aboutToHide
  let unparented := (s.popup popup).d.visible && !r.1.visible
  let s := { s with offered := s.offered ++ [Offer.mk popup event.type s.overlay.mouseGrabberPopup] }
  let s := s.setPopup popup { s.popup popup with d := r.1 }
  let s :=
    if hides ∧ popup ∈ s.overlay.popups ∧ !(s.popup popup).drawer then
      QQuickOverlayPrivate.popupAboutToHide s (some popup)
    else s
  let s :=
    if unparented ∧ OverlayChild.popupItem popup ∈ s.overlay.childItems then
      QQuickOverlay.removeChild s (.popupItem popup)
    else s
  (s, r.2.1, r.2.2)

/-- The loop `for (QQuickPopup *popup : popups) if (popup->overlayEvent(this, event)) ...`
of `QQuickOverlay::event` over the list `popups`: the scene and the event after
it, and the popup whose `overlayEvent` returned true, if any. -/
def offerInOrder (s : OverlayScene) (item : QQuickItem) (event : QEvent) :
    List Nat → OverlayScene × QEvent × Option Nat
  | [] => (s, event, none)
  | popup :: popups =>
    let r := s.offer popup item event
    if r.2.2 then (r.1, r.2.1, some popup) else offerInOrder r.1 item r.2.1 popups

/-- The loop of `QQuickOverlay::childMouseEventFilter` over the list `popups`: it
stops without result at the popup whose popup item is `child`. -/
def filterInOrder (s : OverlayScene) (child : OverlayChild) (item : QQuickItem) (event : QEvent) :
    List Nat → OverlayScene × QEvent × Bool
  | [] => (s, event, false)
  | popup :: popups =>
    if OverlayChild.popupItem popup = child then (s, event, false)
    else
      let r := s.offer popup item event
      if r.2.2 then (r.1, r.2.1, true) else filterInOrder r.1 child item r.2.1 popups

/-- The call `popup->setModal(modal)` in the scene: `QQuickPopup::setModal`, and
the slot `toggleOverlay` of the overlay when the popup is connected. -/
def setModal (s : OverlayScene) (popup : Nat) (modal : Bool) : OverlayScene :=
  if (s.popup popup).d.modal = modal then s
  else
    let s := s.setPopup popup { s.popup popup with d := QQuickPopup.setModal (s.popup popup).d modal }
    if popup ∈ s.overlay.popups then QQuickOverlayPrivate.toggleOverlay s (some popup) else s

/-- Modelled from the spec: `QQuickPopup::setDim`, which the popup source does not
contain; the spec has `dim` toggled like the other properties: the flag is
stored and `dimChanged` is emitted when the value changes. The call in the
scene runs the slot `toggleOverlay` of the overlay when the popup is connected. -/
def setDim (s : OverlayScene) (popup : Nat) (dim : Bool) : OverlayScene :=
  if (s.popup popup).dim = dim then s
  else
    let s := s.setPopup popup
      { s.popup popup with dim := dim, d := (s.popup popup).d.emit Signal.dimChanged }
    if popup ∈ s.overlay.popups then QQuickOverlayPrivate.toggleOverlay s (some popup) else s

/-- The popup item of `popup` is given the overlay as parent item
(`popupItem->setParentItem(overlay)`); nothing happens when it is a child already. -/
def attach (s : OverlayScene) (popup : Nat) : OverlayScene :=
  if OverlayChild.popupItem popup ∈ s.overlay.childItems then s
  else QQuickOverlay.addChild s (.popupItem popup)

/-- The popup item of `popup` is unparented (`popupItem->setParentItem(nullptr)`);
nothing happens when it is no child of the overlay. -/
def detach (s : OverlayScene) (popup : Nat) : OverlayScene :=
  if OverlayChild.popupItem popup ∈ s.overlay.childItems then QQuickOverlay.removeChild s (.popupItem popup)
  else s

end OverlayScene

namespace QQuickOverlay

/-- `QQuickOverlay::event`; `inherited` is the value `QQuickItem::event(event)`
returns. The result is the scene, the event, and the returned value. -/
def event (s : OverlayScene) (event : QEvent) (inherited : Bool) : OverlayScene × QEvent × Bool :=
  match event.type with
  | .MouseButtonPress =>
    let s := { s with overlay := { s.overlay with emitted := s.overlay.emitted ++ [OverlaySignal.pressed] } }
    let r := s.offerInOrder s.overlayItem event (QQuickOverlayPrivate.stackingOrderPopups s)
    match r.2.2 with
    | some popup =>
      ({ r.1 with overlay := { r.1.overlay with mouseGrabberPopup := some popup } }, r.2.1, true)
    | none => (r.1, r.2.1, inherited)
  | .MouseMove =>
    match s.overlay.mouseGrabberPopup with
    | some grabber =>
      let r := s.offer grabber s.overlayItem event
      if r.2.2 then (r.1, r.2.1, true) else (r.1, r.2.1, inherited)
    | none =>
      let r := s.offerInOrder s.overlayItem event (QQuickOverlayPrivate.stackingOrderPopups s)
      match r.2.2 with
      | some _ => (r.1, r.2.1, true)
      | none => (r.1, r.2.1, inherited)
  | .MouseButtonRelease =>
    let s := { s with overlay := { s.overlay with emitted := s.overlay.emitted ++ [OverlaySignal.released] } }
    match s.overlay.mouseGrabberPopup with
    | some grabber =>
      let s := { s with overlay := { s.overlay with mouseGrabberPopup := none } }
      let r := s.offer grabber s.overlayItem event
      if r.2.2 then (r.1, r.2.1, true) else (r.1, r.2.1, inherited)
    | none =>
      let r := s.offerInOrder s.overlayItem event (QQuickOverlayPrivate.stackingOrderPopups s)
      match r.2.2 with
      | some _ => (r.1, r.2.1, true)
      | none => (r.1, r.2.1, inherited)
  | _ => (s, event, inherited)

/-- `QQuickOverlay::childMouseEventFilter`; `child` is the direct child of the
overlay that the loop `while (item->parentItem() != this)` reaches from the item
the event is for. -/
def childMouseEventFilter (s : OverlayScene) (child : OverlayChild) (event : QEvent) :
    OverlayScene × QEvent × Bool :=
  if s.overlay.modalPopups = 0 then (s, event, false)
  else if event.type ≠ QEventType.MouseButtonPress then (s, event, false)
  else s.filterInOrder child (s.childItem child) event (QQuickOverlayPrivate.stackingOrderPopups s)

end QQuickOverlay

/-! ## Operations on the scene -/

/-- The operations that attach and detach popups and change their flags. -/
inductive OverlayOp where
  | attach (popup : Nat)
  | detach (popup : Nat)
  | setModal (popup : Nat) (modal : Bool)
  | setDim (popup : Nat) (dim : Bool)
deriving DecidableEq

namespace OverlayScene

/-- Runs one operation. -/
def run (s : OverlayScene) : OverlayOp → OverlayScene
  | .attach popup => s.attach popup
  | .detach popup => s.detach popup
  | .setModal popup modal => s.setModal popup modal
  | .setDim popup dim => s.setDim popup dim

/-- Runs the operations in order. -/
def runAll (s : OverlayScene) : List OverlayOp → OverlayScene
  | [] => s
  | op :: ops => runAll (s.run op) ops

/-- No operation of the list changes the modal flag of a popup while its popup
item is a child of the overlay. -/
def modalKeptWhileAttached (s : OverlayScene) : List OverlayOp → Prop
  | [] => True
  | op :: ops =>
    (match op with
      | .setModal popup modal =>
        OverlayChild.popupItem popup ∈ s.overlay.childItems → (s.popup popup).d.modal = modal
      | _ => True) ∧
    modalKeptWhileAttached (s.run op) ops

/-- A scene with a new overlay of the given size and templates, in which no popup
is attached and no popup has a dimmer. -/
def initial (popup : Nat → QQuickPopup) (width height : ℚ) (modal modeless : Option QQmlComponent) :
    OverlayScene :=
  { popup := fun p => { popup p with dimmer := none }
    overlay := { QQuickOverlay.create width height with modal := modal, modeless := modeless }
    offered := [] }

/-- The popups whose popup item is a child of the overlay, in child order. -/
def attachedPopups (s : OverlayScene) : List Nat :=
  s.overlay.childItems.filterMap fun c =>
    match c with
    | .popupItem p => some p
    | _ => none

/-- The number of attached popups that are no drawers and whose modal flag is set. -/
def attachedModalCount (s : OverlayScene) : Nat :=
  (s.attachedPopups.filter fun p => (s.popup p).d.modal && !(s.popup p).drawer).length

/-- A dimmer can be made for the popup: the template chosen by its modal flag
yields an item, or the popup is modal. -/
def dimmerAvailable (s : OverlayScene) (popup : Nat) : Bool :=
  (match (if (s.popup popup).d.modal then s.overlay.modal else s.overlay.modeless) with
    | some c => c.createsItem
    | none => false) || (s.popup popup).d.modal

end OverlayScene

/-- The popup whose `overlayEvent` returned true in the loop of the case
`MouseButtonPress` of `QQuickOverlay::event`, if any: the popup that consumed the
press. -/
def QQuickOverlay.pressConsumer (s : OverlayScene) (event : QEvent) : Option Nat :=
  let s := { s with overlay := { s.overlay with emitted := s.overlay.emitted ++ [OverlaySignal.pressed] } }
  (s.offerInOrder s.overlayItem event (QQuickOverlayPrivate.stackingOrderPopups s)).2.2

namespace OverlayScene

end OverlayScene

/-! ## Auxiliary notions for the overlay proofs -/

/-- The popups among the children, in child order. -/
def popupsOf (l : List OverlayChild) : List Nat :=
  l.filterMap fun c =>
    match c with
    | .popupItem p => some p
    | _ => none

/-- The scene `t` differs from `s` at most in the dimmers of the popups, the
places of the dimmers among the children, and the visible flag of the overlay. -/
structure OverlayScene.SameButDimmers (s t : OverlayScene) : Prop where
  modal : t.overlay.modal = s.overlay.modal
  modeless : t.overlay.modeless = s.overlay.modeless
  drawers : t.overlay.drawers = s.overlay.drawers
  popups : t.overlay.popups = s.overlay.popups
  mouseGrabberPopup : t.overlay.mouseGrabberPopup = s.overlay.mouseGrabberPopup
  modalPopups : t.overlay.modalPopups = s.overlay.modalPopups
  width : t.overlay.width = s.overlay.width
  height : t.overlay.height = s.overlay.height
  emitted : t.overlay.emitted = s.overlay.emitted
  offered : t.offered = s.offered
  d : ∀ q, (t.popup q).d = (s.popup q).d
  drawer : ∀ q, (t.popup q).drawer = (s.popup q).drawer
  dim : ∀ q, (t.popup q).dim = (s.popup q).dim
  attached : popupsOf t.overlay.childItems = popupsOf s.overlay.childItems

/-- The scene after the child-added change for the popup item of `popup`, dimmers
apart. -/
def OverlayScene.addedBase (s : OverlayScene) (popup : Nat) : OverlayScene :=
  { s with
    overlay :=
      { s.overlay with
        visible := !s.overlay.childItems.isEmpty
        popups := s.overlay.popups ++ [popup]
        drawers := if (s.popup popup).drawer then s.overlay.drawers ++ [popup] else s.overlay.drawers
        modalPopups :=
          if !(s.popup popup).drawer && (s.popup popup).d.modal then s.overlay.modalPopups + 1
          else s.overlay.modalPopups } }

/-- The scene after the child-removed change for the popup item of `popup`,
dimmers apart. -/
def OverlayScene.removedBase (s : OverlayScene) (popup : Nat) : OverlayScene :=
  { s with
    overlay :=
      { s.overlay with
        visible := !s.overlay.childItems.isEmpty
        popups := s.overlay.popups.erase popup
        drawers := if (s.popup popup).drawer then s.overlay.drawers.erase popup else s.overlay.drawers
        modalPopups :=
          if !(s.popup popup).drawer && (s.popup popup).d.modal then s.overlay.modalPopups - 1
          else s.overlay.modalPopups } }

/-- The scene after `addChild` for the popup item of `popup`, dimmers apart. -/
def OverlayScene.attachBase (s : OverlayScene) (popup : Nat) : OverlayScene :=
  OverlayScene.addedBase
    { s with overlay := { s.overlay with childItems := s.overlay.childItems ++ [.popupItem popup] } }
    popup

/-- The scene after `removeChild` for the popup item of `popup`, dimmers apart. -/
def OverlayScene.detachBase (s : OverlayScene) (popup : Nat) : OverlayScene :=
  OverlayScene.removedBase
    { s with
      overlay := { s.overlay with childItems := s.overlay.childItems.erase (.popupItem popup) } }
    popup

/-- The bookkeeping of the overlay is consistent: a popup is in `popups` as often
as its popup item is among the children, which is at most once; the dimmer of a
popup is among the children once if the popup has one and not at all otherwise;
and the popup has a dimmer exactly when it is attached, its `dim` flag is set,
and a dimmer can be made for it. -/
def OverlayScene.dimmersConsistent (s : OverlayScene) : Prop :=
  ∀ p,
    s.overlay.popups.count p = s.attachedPopups.count p ∧
    s.attachedPopups.count p ≤ 1 ∧
    s.overlay.childItems.count (.dimmer p) = (if (s.popup p).dimmer.isSome then 1 else 0) ∧
    (s.popup p).dimmer.isSome =
      (decide (p ∈ s.attachedPopups) && (s.popup p).dim && s.dimmerAvailable p)

/-! ## The close rule of `tryClose` in words -/

/-- The condition under which `tryClose` calls `close()`: a flag for the type of
the event is set, the point lies outside the popup item, and, when the
`OutsideParent` flag for the type is set and an anchor exists, outside the
anchor as well. -/
def QQuickPopupPrivate.closesOn (d : QQuickPopupPrivate) (item : QQuickItem) (event : QEvent) : Bool :=
  let outside := if event.type = QEventType.MouseButtonPress then ClosePolicyFlag.OnPressOutside
    else ClosePolicyFlag.OnReleaseOutside
  let outsideParent :=
    if event.type = QEventType.MouseButtonPress then ClosePolicyFlag.OnPressOutsideParent
    else ClosePolicyFlag.OnReleaseOutsideParent
  (d.closePolicy.testFlag outside || d.closePolicy.testFlag outsideParent) &&
    !d.popupItem.contains (item.mapToPopupItem d.popupItem event.pos) &&
    (match d.parentItem with
      | some parentItem =>
        if d.closePolicy.testFlag outsideParent then
          !parentItem.contains (item.mapToItem parentItem event.pos)
        else true
      | none => true)

/-! ## The dimmer of a popup in words -/

/-- The dimmer that is to be made for `popup` in the scene `s`, in words: it comes
from the template for the modal flag of the popup if that yields an item, and is
a plain item if not and the popup is modal; its opacity is 1 if the popup is
visible and 0 otherwise, it has the z value of the popup and the size of the
overlay, and it accepts hover events if the popup is modal and no drawer, and
else as its template says. -/
def OverlayScene.dimmerFor (s : OverlayScene) (popup : Nat) : Option Dimmer :=
  let plain : Dimmer :=
    { component := none
      opacity := if QQuickPopup.isVisible (s.popup popup).d then 1 else 0
      z := (s.popup popup).d.popupItem.z
      width := s.overlay.width
      height := s.overlay.height
      acceptHoverEvents := (s.popup popup).d.modal && !(s.popup popup).drawer }
  match (if (s.popup popup).d.modal then s.overlay.modal else s.overlay.modeless) with
  | some c =>
    if c.createsItem then
      some { plain with
        component := some c
        acceptHoverEvents := c.acceptHoverEvents || ((s.popup popup).d.modal && !(s.popup popup).drawer) }
    else if (s.popup popup).d.modal then some plain
    else none
  | none => if (s.popup popup).d.modal then some plain else none

/-! ## Predicates used in the statements -/

/-- The rectangle `r` lies entirely inside `b`: every edge of `r` is within the
corresponding edge of `b`. -/
def QRectF.inside (r b : QRectF) : Prop :=
  b.left ≤ r.left ∧ r.right ≤ b.right ∧ b.top ≤ r.top ∧ r.bottom ≤ b.bottom

instance (r b : QRectF) : Decidable (r.inside b) := by
  unfold QRectF.inside; infer_instance

/-- Every edge of `r` on a side whose margin is positive lies within the
corresponding edge of `b`. -/
def QRectF.respectsMargins (r : QRectF) (m : QMarginsF) (b : QRectF) : Prop :=
  (m.left > 0 → b.left ≤ r.left) ∧ (m.top > 0 → b.top ≤ r.top) ∧
  (m.right > 0 → r.right ≤ b.right) ∧ (m.bottom > 0 → r.bottom ≤ b.bottom)

instance (r : QRectF) (m : QMarginsF) (b : QRectF) : Decidable (r.respectsMargins m b) := by
  unfold QRectF.respectsMargins; infer_instance

/-- The four sides a margin can be set for. -/
inductive Side where
  | top
  | left
  | right
  | bottom
deriving DecidableEq

namespace QQuickPopup

/-- The getter of the side: `topMargin()`, `leftMargin()`, `rightMargin()` or `bottomMargin()`. -/
def sideMargin (d : QQuickPopupPrivate) : Side → ℚ
  | .top => topMargin d
  | .left => leftMargin d
  | .right => rightMargin d
  | .bottom => bottomMargin d

/-- The setter of the side: `setTopMargin(v)`, ..., `setBottomMargin(v)`. -/
def setSideMargin (d : QQuickPopupPrivate) (s : Side) (v : ℚ) : QQuickPopupPrivate :=
  match s with
  | .top => setTopMargin d v
  | .left => setLeftMargin d v
  | .right => setRightMargin d v
  | .bottom => setBottomMargin d v

/-- The reset member of the side: `resetTopMargin()`, ..., `resetBottomMargin()`. -/
def resetSideMargin (d : QQuickPopupPrivate) (s : Side) : QQuickPopupPrivate :=
  match s with
  | .top => resetTopMargin d
  | .left => resetLeftMargin d
  | .right => resetRightMargin d
  | .bottom => resetBottomMargin d

/-- The override flag of the side: `hasTopMargin`, ..., `hasBottomMargin`. -/
def hasSideMargin (d : QQuickPopupPrivate) : Side → Bool
  | .top => d.hasTopMargin
  | .left => d.hasLeftMargin
  | .right => d.hasRightMargin
  | .bottom => d.hasBottomMargin

end QQuickPopup

/-! ## Configurations used in examples -/

namespace Scene

/-- An application window of the given size. -/
def window (width height : ℚ) : QQuickWindow := ⟨1, true, width, height⟩

/-- An anchor item at the scene origin, of size 400 x 400, in the window `win`. -/
def anchor (win : QQuickWindow) : QQuickItem := ⟨1, 0, 0, 400, 400, some win⟩

/-- A constructed, closed popup of the anchor: x = 100, y = 100, size 200 x 300,
implicit size `iw` x `ih`, default margins 10 (no side overridden). -/
def popup (win : QQuickWindow) (iw ih : ℚ) : QQuickPopupPrivate :=
  { QQuickPopup.create (some (anchor win)) with
    complete := true
    x := 100
    y := 100
    margins := 10
    popupItem :=
      { QQuickPopup.newPopupItem with width := 200, height := 300, implicitWidth := iw, implicitHeight := ih } }

/-- The example popup with current and implicit size 200 x 300 in the 250 x 250 window. -/
def popup250 : QQuickPopupPrivate := popup (window 250 250) 200 300

/-- The bounds of the 250 x 250 window shrunk by the margins of `popup250`. -/
def bounds250 : QRectF := QQuickPopupPrivate.marginBounds (window 250 250) popup250.getMargins

/-- An anchor item at the scene origin, of size 500 x 500, in the window `win`. -/
def tallAnchor (win : QQuickWindow) : QQuickItem := ⟨2, 0, 0, 500, 500, some win⟩

/-- A constructed, closed popup of `tallAnchor` in a 300 x 200 window: x = 100,
y = 300, width `w` (no implicit width), height and implicit height 100, default
margins 10 with the bottom margin overridden to 0. -/
def lowPopup (w : ℚ) : QQuickPopupPrivate :=
  { QQuickPopup.create (some (tallAnchor (window 300 200))) with
    complete := true
    x := 100
    y := 300
    margins := 10
    hasBottomMargin := true
    bottomMargin := 0
    popupItem :=
      { QQuickPopup.newPopupItem with width := w, height := 100, implicitWidth := 0, implicitHeight := 100 } }

/-- The example popup in the 400 x 400 window with an enter and an exit transition set. -/
def animatedPopup : QQuickPopupPrivate :=
  { popup (window 400 400) 0 0 with enter := some ⟨1⟩, exit := some ⟨2⟩ }

/-- A freshly created popup of the anchor in the 400 x 400 window with an enter
transition set; `componentComplete` has not run yet. -/
def pendingPopup : QQuickPopupPrivate :=
  { QQuickPopup.create (some (anchor (window 400 400))) with enter := some ⟨1⟩ }

/-- A completed, closed popup without anchor item. -/
def orphanPopup : QQuickPopupPrivate := { QQuickPopup.create none with complete := true }

/-- The overlay item of the 400 x 400 window: it fills the window from the scene origin. -/
def overlayItem : QQuickItem := ⟨0, 0, 0, 400, 400, some (window 400 400)⟩

/-- The example popup once shown, with the given close policy: its item lies at
(100, 90) with size 200 x 300 inside the anchor, which covers (0,0)-(400,400). -/
def shownPopup (policy : ClosePolicy) : QQuickPopupPrivate :=
  { QQuickPopup.open (popup (window 400 400) 0 0) with closePolicy := policy }

/-- A mouse press at (50, 50) of the overlay: outside the popup item, inside the anchor. -/
def pressBesidePopup : QEvent := ⟨QEventType.MouseButtonPress, ⟨50, 50⟩, false⟩

/-- A popup whose default margins are 10^12 and no side is overridden. -/
def wideMarginPopup : QQuickPopupPrivate :=
  { QQuickPopup.create none with margins := 1000000000000 }

/-- The close policy `OnPressOutside | OnPressOutsideParent`. -/
def pressOutsideBoth : ClosePolicy :=
  { ClosePolicy.NoAutoClose with onPressOutside := true, onPressOutsideParent := true }

/-- The popup `lowPopup 50` without implicit size: width 50, height 100. Its
flipped rectangle (100,100,50,100) ends at the bottom bound 200. -/
def lowPlainPopup : QQuickPopupPrivate :=
  { lowPopup 50 with
    popupItem :=
      { QQuickPopup.newPopupItem with width := 50, height := 100, implicitWidth := 0, implicitHeight := 0 } }

/-- Popup objects for the overlay examples: popup 2 is a modal drawer, popup 3 is
not modal and has `dim` set, popup 4 is modal and has `dim` set, every other
popup is a plain popup that is not modal; none is attached. -/
def popups : Nat → QQuickPopup
  | 2 => ⟨{ QQuickPopup.create none with modal := true }, true, false, none⟩
  | 3 => ⟨QQuickPopup.create none, false, true, none⟩
  | 4 => ⟨{ QQuickPopup.create none with modal := true }, false, true, none⟩
  | _ => ⟨QQuickPopup.create none, false, false, none⟩

/-- A new overlay of size 400 x 400 without templates, with the example popups. -/
def overlayScene : OverlayScene := OverlayScene.initial popups 400 400 none none

/-- The popup `lowPlainPopup` moved to x = -50, y = 310: its left edge is left of
the left bound 10, and its flipped rectangle (-50, 90, 50, 100) lies between the
top bound 10 and the bottom bound 200. -/
def leftOverhangPopup : QQuickPopupPrivate := { lowPlainPopup with x := -50, y := 310 }

/-- A constructed, closed popup of `tallAnchor` in the 300 x 200 window, far left
of the window: x = -500, y = 300, width 50, height and implicit height 300,
default margins 10 with the left margin overridden to 0. -/
def farLeftPopup : QQuickPopupPrivate :=
  { QQuickPopup.create (some (tallAnchor (window 300 200))) with
    complete := true
    x := -500
    y := 300
    margins := 10
    hasLeftMargin := true
    leftMargin := 0
    popupItem :=
      { QQuickPopup.newPopupItem with width := 50, height := 300, implicitWidth := 0, implicitHeight := 300 } }

/-- A template for dimmers of modal popups: it yields an item that accepts no
hover events. -/
def modalTemplate : QQmlComponent := ⟨1, true, false⟩

/-- A template for dimmers of popups that are not modal: it yields an item that
accepts no hover events. -/
def modelessTemplate : QQmlComponent := ⟨2, true, false⟩

/-- A template that yields an item accepting hover events. -/
def hoverTemplate : QQmlComponent := ⟨3, true, true⟩

/-- A new overlay of size 400 x 400 with both templates, with the example popups. -/
def templatedScene : OverlayScene :=
  OverlayScene.initial popups 400 400 (some modalTemplate) (some modelessTemplate)

/-- A new overlay of size 400 x 400 whose template for popups that are not modal is
`hoverTemplate`, with the example popups. -/
def hoverScene : OverlayScene := OverlayScene.initial popups 400 400 none (some hoverTemplate)

end Scene

/-! ## Placement: end-to-end examples -/

/-- C1 (as stated, refuted): in the 400 x 400 window the popup at (100,100) of
size 200 x 300 with margins 10 is not left at (100,100): its bottom edge 400
lies below the bound 390, so it is pulled up. -/
theorem reposition_window400_not_at_100_100 :
    ¬ (((Scene.popup (Scene.window 400 400) 0 0).reposition.popupItem.x = 100 ∧
        (Scene.popup (Scene.window 400 400) 0 0).reposition.popupItem.y = 100) ∧
       (Scene.popup (Scene.window 400 400) 0 0).reposition.popupItem.height = 300) := by
  decide!

/-- C1 (amended): in the 400 x 400 window, for every implicit size that leaves the
candidate rectangle at 200 x 300, `reposition` puts the popup item at (100, 90)
and changes neither its height nor its width. -/
theorem reposition_window400 (iw ih : ℚ) (hiw : iw ≤ 0 ∨ iw = 200) (hih : ih ≤ 0 ∨ ih = 300) :
    (Scene.popup (Scene.window 400 400) iw ih).reposition.popupItem.x = 100 ∧
    (Scene.popup (Scene.window 400 400) iw ih).reposition.popupItem.y = 90 ∧
    (Scene.popup (Scene.window 400 400) iw ih).reposition.popupItem.height = 300 ∧
    (Scene.popup (Scene.window 400 400) iw ih).reposition.popupItem.width = 200 := by
  have hw : (if iw > 0 then iw else (200 : ℚ)) = 200 := by
    rcases hiw with h | h
    · rw [if_neg (not_lt.mpr h)]
    · simp [h]
  have hh : (if ih > 0 then ih else (300 : ℚ)) = 300 := by
    rcases hih with h | h
    · rw [if_neg (not_lt.mpr h)]
    · simp [h]
  have hr : (Scene.popup (Scene.window 400 400) iw ih).repositionRect = (⟨100, 90, 200, 300⟩, false) := by
    simp only [QQuickPopupPrivate.repositionRect, Scene.popup, Scene.anchor, Scene.window,
      QQuickPopup.create, QQuickPopup.newPopupItem, QQuickPopup.window,
      QQuickPopupPrivate.candidateRect, hw, hh, QQuickPopupPrivate.getMargins,
      QQuickPopup.leftMargin, QQuickPopup.topMargin, QQuickPopup.rightMargin, QQuickPopup.bottomMargin,
      QQuickItem.mapRectToScene, QRectF.translated, QQuickPopupPrivate.marginBounds,
      QRectF.marginsRemoved, QQuickPopupPrivate.pushInside, QQuickPopupPrivate.flipOrShrink,
      QRectF.top, QRectF.bottom, QRectF.left, QRectF.right, QRectF.moveTop, QRectF.moveBottom,
      QRectF.moveLeft, QRectF.moveRight]
    norm_num
  simp only [QQuickPopupPrivate.reposition, hr, QRectF.topLeft, QQuickPopupItem.setPosition]
  simp [Scene.popup, QQuickPopup.create, QQuickPopup.newPopupItem]

/-- Witness of `reposition_window400`: the popup without implicit size. -/
theorem reposition_window400_witness :
    (Scene.popup (Scene.window 400 400) 0 0).reposition.popupItem.x = 100 ∧
    (Scene.popup (Scene.window 400 400) 0 0).reposition.popupItem.y = 90 ∧
    (Scene.popup (Scene.window 400 400) 0 0).reposition.popupItem.height = 300 ∧
    (Scene.popup (Scene.window 400 400) 0 0).reposition.popupItem.width = 200 :=
  reposition_window400 0 0 (Or.inl le_rfl) (Or.inl le_rfl)

/-- C2: in the 250 x 250 window the popup at (100,100) of current and implicit
size 200 x 300 with margins 10 takes the flip/shrink branch: after being pushed
inside the margins it still overflows the bounds, its flipped rectangle does not
fit, the implicit height is positive and `adjusted` is set; the popup item ends at
(40, 10) with height 230, which is at most 230. -/
theorem reposition_window250 :
    (((QQuickPopupPrivate.pushInside Scene.popup250.getMargins Scene.bounds250
          ((Scene.anchor (Scene.window 250 250)).mapRectToScene Scene.popup250.candidateRect)).top <
        Scene.bounds250.top ∨
      (QQuickPopupPrivate.pushInside Scene.popup250.getMargins Scene.bounds250
          ((Scene.anchor (Scene.window 250 250)).mapRectToScene Scene.popup250.candidateRect)).bottom >
        Scene.bounds250.bottom) ∧
     ¬ ((Scene.popup250.flippedRect (Scene.anchor (Scene.window 250 250))
          ((Scene.anchor (Scene.window 250 250)).mapRectToScene Scene.popup250.candidateRect)).top ≥
          Scene.bounds250.top ∧
        (Scene.popup250.flippedRect (Scene.anchor (Scene.window 250 250))
          ((Scene.anchor (Scene.window 250 250)).mapRectToScene Scene.popup250.candidateRect)).bottom <
          Scene.bounds250.bottom) ∧
     Scene.popup250.popupItem.implicitHeight > 0 ∧
     Scene.popup250.repositionRect.2 = true) ∧
    Scene.popup250.reposition.popupItem.height ≤ 230 ∧
    Scene.popup250.reposition.popupItem.height = 230 ∧
    Scene.popup250.reposition.popupItem.x = 40 ∧
    Scene.popup250.reposition.popupItem.y = 10 := by
  decide!

/-! ## Placement: margin containment -/

/-- The intersection with another rectangle is never taller than the rectangle. -/
theorem QRectF.intersected_height_le (a b : QRectF) (ha : 0 ≤ a.h) :
    (a.intersected b).height ≤ a.h := by
  obtain ⟨ax, ay, aw, ah⟩ := a
  obtain ⟨bx, b_y, bw, bh⟩ := b
  simp only at ha
  unfold QRectF.intersected QRectF.height QRectF.null
  simp only [if_neg (not_lt.mpr ha)]
  generalize (if aw < 0 then ax + aw else ax) = l1
  generalize (if aw < 0 then ax else ax + aw) = r1
  generalize (if bw < 0 then bx + bw else bx) = l2
  generalize (if bw < 0 then bx else bx + bw) = r2
  generalize (if bh < 0 then b_y + bh else b_y) = t2
  generalize (if bh < 0 then b_y else b_y + bh) = b2
  have h1 := min_le_left (ay + ah) b2
  have h2 := le_max_left ay t2
  split_ifs <;> simp only <;> linarith

/-- A rectangle of positive size inside another one is its own intersection with it. -/
theorem QRectF.intersected_eq_self_of_inside (a b : QRectF) (hw : 0 < a.w) (hh : 0 < a.h)
    (hin : a.inside b) : a.intersected b = a := by
  obtain ⟨ax, ay, aw, ah⟩ := a
  obtain ⟨bx, b_y, bw, bh⟩ := b
  simp only [QRectF.inside, QRectF.left, QRectF.right, QRectF.top, QRectF.bottom] at hin hw hh
  obtain ⟨h1, h2, h3, h4⟩ := hin
  have hbw : ¬ bw < 0 := by intro h; linarith
  have hbh : ¬ bh < 0 := by intro h; linarith
  unfold QRectF.intersected QRectF.null
  simp only [if_neg (not_lt.mpr hw.le), if_neg (not_lt.mpr hh.le), if_neg hbw, if_neg hbh]
  rw [if_neg (by intro h; linarith), if_neg (by intro h; linarith),
    if_neg (by rintro (h | h) <;> simp only [ge_iff_le] at h <;> linarith),
    if_neg (by intro h; linarith), if_neg (by intro h; linarith),
    if_neg (by rintro (h | h) <;> simp only [ge_iff_le] at h <;> linarith)]
  rw [max_eq_left h1, max_eq_left h3, min_eq_left h2, min_eq_left h4]
  simp

/-- A rectangle inside the bounds respects every margin. -/
theorem QRectF.respectsMargins_of_inside (r b : QRectF) (m : QMarginsF) (h : r.inside b) :
    r.respectsMargins m b :=
  ⟨fun _ => h.1, fun _ => h.2.2.1, fun _ => h.2.1, fun _ => h.2.2.2⟩

/-- A rectangle already inside the bounds is not moved by the push. -/
theorem QQuickPopupPrivate.pushInside_of_inside (m : QMarginsF) (b r : QRectF) (h : r.inside b) :
    QQuickPopupPrivate.pushInside m b r = r := by
  obtain ⟨h1, h2, h3, h4⟩ := h
  unfold QQuickPopupPrivate.pushInside
  simp only [if_neg (fun c : m.top > 0 ∧ r.top < b.top => absurd h3 (not_le.mpr c.2)),
    if_neg (fun c : m.bottom > 0 ∧ r.bottom > b.bottom => absurd h4 (not_le.mpr c.2)),
    if_neg (fun c : m.left > 0 ∧ r.left < b.left => absurd h1 (not_le.mpr c.2)),
    if_neg (fun c : m.right > 0 ∧ r.right > b.right => absurd h2 (not_le.mpr c.2))]

/-- Pushing inside the margins keeps the size; when the rectangle is within the
bounds horizontally and not taller than the bounds, it keeps the horizontal
position and leaves the top and bottom edges with a positive margin within the bounds. -/
theorem QQuickPopupPrivate.pushInside_vertical (m : QMarginsF) (b r : QRectF)
    (hbt : b.top = m.top) (hl : b.left ≤ r.left) (hr : r.right ≤ b.right)
    (hh : r.h ≤ b.bottom - b.top) :
    (QQuickPopupPrivate.pushInside m b r).xp = r.xp ∧
    (QQuickPopupPrivate.pushInside m b r).w = r.w ∧
    (QQuickPopupPrivate.pushInside m b r).h = r.h ∧
    (m.top > 0 → b.top ≤ (QQuickPopupPrivate.pushInside m b r).top) ∧
    (m.bottom > 0 → (QQuickPopupPrivate.pushInside m b r).bottom ≤ b.bottom) := by
  obtain ⟨rx, ry, rw, rh⟩ := r
  obtain ⟨bx, b_y, bw, bh⟩ := b
  obtain ⟨ml, mt, mr, mb⟩ := m
  simp only [QRectF.top, QRectF.left, QRectF.right, QRectF.bottom] at hbt hl hr hh
  subst hbt
  have hl' : ¬ rx < bx := not_lt.mpr hl
  have hr' : ¬ bx + bw < rx + rw := not_lt.mpr hr
  unfold QQuickPopupPrivate.pushInside
  simp only [QRectF.top, QRectF.left, QRectF.right, QRectF.bottom, QRectF.moveTop, QRectF.moveBottom,
    QRectF.moveLeft, QRectF.moveRight, gt_iff_lt]
  by_cases c1 : 0 < b_y ∧ ry < b_y
  · simp only [c1, and_self, if_true]
    by_cases c2 : 0 < mb ∧ b_y + bh < b_y + rh
    · exfalso; linarith [c2.2]
    · simp only [c2, if_false, hl', hr', and_false]
      refine ⟨trivial, trivial, trivial, fun _ => le_rfl, fun hmb => ?_⟩
      linarith
  · simp only [c1, if_false]
    by_cases c2 : 0 < mb ∧ b_y + bh < ry + rh
    · simp only [c2, and_self, if_true, hl', hr', and_false, if_false]
      refine ⟨trivial, trivial, trivial, fun _ => ?_, fun _ => ?_⟩ <;> linarith
    · simp only [c2, if_false, hl', hr', and_false]
      refine ⟨trivial, trivial, trivial, fun hmt => ?_, fun hmb => ?_⟩
      · exact not_lt.mp (fun h => c1 ⟨hmt, h⟩)
      · exact not_lt.mp (fun h => c2 ⟨hmb, h⟩)

/-- The decision of `reposition` after the push, for a candidate `r0` of positive
width whose flipped rectangle shares its horizontal extent: when `r0` or its
flipped rectangle lies inside the bounds, the chosen rectangle respects every
positive margin. -/
theorem QQuickPopupPrivate.flipOrShrink_respectsMargins (d : QQuickPopupPrivate)
    (parentItem : QQuickItem) (m : QMarginsF) (b r0 : QRectF)
    (hbt : b.top = m.top) (hw : 0 < r0.w)
    (hh : 0 < d.popupItem.implicitHeight → 0 < r0.h)
    (hfx : (d.flippedRect parentItem r0).xp = r0.xp)
    (hfit : r0.inside b ∨ (d.flippedRect parentItem r0).inside b) :
    (d.flipOrShrink parentItem b (QQuickPopupPrivate.pushInside m b r0)).1.respectsMargins m b := by
  rcases hfit with hin | hin
  · rw [QQuickPopupPrivate.pushInside_of_inside m b r0 hin]
    unfold QQuickPopupPrivate.flipOrShrink
    rw [if_neg (by
      rintro (c | c)
      · exact absurd hin.2.2.1 (not_le.mpr c)
      · exact absurd hin.2.2.2 (not_le.mpr c))]
    exact QRectF.respectsMargins_of_inside _ _ _ hin
  · have hfw : (d.flippedRect parentItem r0).w = r0.w := rfl
    have hfh : (d.flippedRect parentItem r0).h = r0.h := rfl
    obtain ⟨f1, f2, f3, f4⟩ := hin
    simp only [QRectF.left, QRectF.right, QRectF.top, QRectF.bottom] at f1 f2 f3 f4
    obtain ⟨px, pw, ph, ptop, pbot⟩ := QQuickPopupPrivate.pushInside_vertical m b r0 hbt
      (by simp only [QRectF.left]; linarith) (by simp only [QRectF.right]; linarith)
      (by simp only [QRectF.top, QRectF.bottom]; linarith)
    have hf : d.flippedRect parentItem (QQuickPopupPrivate.pushInside m b r0) =
        d.flippedRect parentItem r0 := by
      unfold QQuickPopupPrivate.flippedRect QRectF.height QRectF.width
      rw [pw, ph]
    have hleft : b.left ≤ (QQuickPopupPrivate.pushInside m b r0).xp := by
      simp only [QRectF.left]; linarith
    have hright : (QQuickPopupPrivate.pushInside m b r0).xp + (QQuickPopupPrivate.pushInside m b r0).w ≤
        b.xp + b.w := by linarith
    unfold QQuickPopupPrivate.flipOrShrink
    rw [hf]
    simp only [QRectF.top, QRectF.bottom] at ptop pbot ⊢
    split_ifs with c1 c2 c3 c4
    · exact QRectF.respectsMargins_of_inside _ _ _ ⟨f1, f2, f3, f4⟩
    · exfalso
      have hpos : 0 < r0.h := hh c3
      have hsec : (d.flippedRect parentItem r0).intersected b = d.flippedRect parentItem r0 :=
        QRectF.intersected_eq_self_of_inside _ _ (by rw [hfw]; exact hw) (by rw [hfh]; exact hpos)
          ⟨f1, f2, f3, f4⟩
      have hprim := QRectF.intersected_height_le (QQuickPopupPrivate.pushInside m b r0) b
        (by rw [ph]; exact hpos.le)
      rw [hsec] at c4
      simp only [QRectF.height] at c4 hprim
      linarith
    · have hpos : 0 < r0.h := hh c3
      have hsec : (d.flippedRect parentItem r0).intersected b = d.flippedRect parentItem r0 :=
        QRectF.intersected_eq_self_of_inside _ _ (by rw [hfw]; exact hw) (by rw [hfh]; exact hpos)
          ⟨f1, f2, f3, f4⟩
      rw [hsec]
      simp only [QRectF.respectsMargins, QRectF.setY, QRectF.setHeight, QRectF.left, QRectF.right,
        QRectF.top, QRectF.bottom, QRectF.y, QRectF.height]
      refine ⟨fun _ => hleft, fun _ => f3, fun _ => hright, fun _ => f4⟩
    · exact ⟨fun _ => hleft, ptop, fun _ => hright, pbot⟩
    · exact ⟨fun _ => hleft, ptop, fun _ => hright, pbot⟩

/-- `reposition` gives the popup item the left edge of the final rectangle as x. -/
theorem QQuickPopupPrivate.reposition_popupItem_x (d : QQuickPopupPrivate) :
    d.reposition.popupItem.x = d.repositionRect.1.left := by
  unfold QQuickPopupPrivate.reposition
  dsimp only
  split_ifs <;> rfl

/-- `reposition` gives the popup item the top edge of the final rectangle as y. -/
theorem QQuickPopupPrivate.reposition_popupItem_y (d : QQuickPopupPrivate) :
    d.reposition.popupItem.y = d.repositionRect.1.top := by
  unfold QQuickPopupPrivate.reposition
  dsimp only
  split_ifs <;> rfl

/-- C3 (evaluated at the failing input): a popup of width 0 with top, left and
right margins 10 whose flipped rectangle (100,100,0,100) lies inside the bounds
(10,10)-(290,200). The flipped rectangle is not taken, because its bottom edge
equals the bottom bound and the test is strict; both intersections are null, and
`reposition` puts the popup item at y = 0, above the top bound 10, although the
top margin is positive. -/
theorem reposition_zero_width_leaves_top_margin :
    ((Scene.lowPopup 0).getMargins.top > 0 ∧
     ((Scene.lowPopup 0).flippedRect (Scene.tallAnchor (Scene.window 300 200))
        ((Scene.tallAnchor (Scene.window 300 200)).mapRectToScene (Scene.lowPopup 0).candidateRect)).inside
       (QQuickPopupPrivate.marginBounds (Scene.window 300 200) (Scene.lowPopup 0).getMargins)) ∧
    ¬ (Scene.lowPopup 0).repositionRect.1.respectsMargins (Scene.lowPopup 0).getMargins
        (QQuickPopupPrivate.marginBounds (Scene.window 300 200) (Scene.lowPopup 0).getMargins) ∧
    (Scene.lowPopup 0).reposition.popupItem.y = 0 ∧
    (QQuickPopupPrivate.marginBounds (Scene.window 300 200) (Scene.lowPopup 0).getMargins).top = 10 := by
  decide!

/-- Margin containment for popups of positive width (the part of C3 the code
meets): for an anchored popup in a window (anchor placed by a translation) whose
candidate rectangle has positive width, if the candidate at (x,y) or its flipped
counterpart lies entirely inside the window bounds shrunk by the margins, then
the rectangle `reposition` ends with has every edge whose margin is positive
within the corresponding bound, and its top-left corner is the position given to
the popup item. -/
theorem reposition_margin_containment (d : QQuickPopupPrivate) (parentItem : QQuickItem)
    (window : QQuickWindow) (hp : d.parentItem = some parentItem)
    (hwin : parentItem.window = some window) (hwidth : 0 < d.candidateRect.width)
    (hfit : (parentItem.mapRectToScene d.candidateRect).inside
        (QQuickPopupPrivate.marginBounds window d.getMargins) ∨
      (d.flippedRect parentItem (parentItem.mapRectToScene d.candidateRect)).inside
        (QQuickPopupPrivate.marginBounds window d.getMargins)) :
    d.repositionRect.1.respectsMargins d.getMargins
      (QQuickPopupPrivate.marginBounds window d.getMargins) ∧
    d.reposition.popupItem.x = d.repositionRect.1.left ∧
    d.reposition.popupItem.y = d.repositionRect.1.top := by
  refine ⟨?_, ?_, ?_⟩
  · have hrr : d.repositionRect =
        d.flipOrShrink parentItem (QQuickPopupPrivate.marginBounds window d.getMargins)
          (QQuickPopupPrivate.pushInside d.getMargins
            (QQuickPopupPrivate.marginBounds window d.getMargins)
            (parentItem.mapRectToScene d.candidateRect)) := by
      simp only [QQuickPopupPrivate.repositionRect, hp, QQuickPopup.window, hwin]
    rw [hrr]
    apply QQuickPopupPrivate.flipOrShrink_respectsMargins
    · simp [QQuickPopupPrivate.marginBounds, QRectF.marginsRemoved, QRectF.top]
    · exact hwidth
    · intro hih
      simp only [QQuickItem.mapRectToScene, QRectF.translated, QQuickPopupPrivate.candidateRect,
        if_pos hih]
      exact hih
    · rfl
    · exact hfit
  · exact QQuickPopupPrivate.reposition_popupItem_x d
  · exact QQuickPopupPrivate.reposition_popupItem_y d

/-- Witness of `reposition_margin_containment`: the popup of width 50 whose
flipped rectangle (100,100,50,100) lies inside the bounds (10,10)-(290,200). -/
theorem reposition_margin_containment_witness :
    (Scene.lowPopup 50).repositionRect.1.respectsMargins (Scene.lowPopup 50).getMargins
      (QQuickPopupPrivate.marginBounds (Scene.window 300 200) (Scene.lowPopup 50).getMargins) ∧
    (Scene.lowPopup 50).reposition.popupItem.x = (Scene.lowPopup 50).repositionRect.1.left ∧
    (Scene.lowPopup 50).reposition.popupItem.y = (Scene.lowPopup 50).repositionRect.1.top :=
  reposition_margin_containment (Scene.lowPopup 50) (Scene.tallAnchor (Scene.window 300 200))
    (Scene.window 300 200) rfl rfl (by decide!) (Or.inr (by decide!))

/-! ## Visibility state machine -/

/-- What `reposition` changes: the position of the popup item, and its height when
the rectangle was adjusted and the implicit height is positive. -/
theorem QQuickPopupPrivate.reposition_eq (d : QQuickPopupPrivate) :
    d.reposition =
      { d with
        popupItem :=
          { d.popupItem with
            x := d.repositionRect.1.xp
            y := d.repositionRect.1.yp
            height :=
              if d.repositionRect.2 = true ∧ d.popupItem.implicitHeight > 0 then d.repositionRect.1.h
              else d.popupItem.height } } := by
  unfold QQuickPopupPrivate.reposition
  dsimp only
  split_ifs <;> rfl

/-- What the positioner's `setParentItem` changes: the tracked anchor, and the
geometry of the popup item through `reposition`. -/
theorem QQuickPopupPositioner.setParentItem_eq (d : QQuickPopupPrivate) (parent : Option QQuickItem) :
    ∃ x y height : ℚ,
      QQuickPopupPositioner.setParentItem d parent =
        { d with
          positioner := ⟨parent⟩
          popupItem := { d.popupItem with x := x, y := y, height := height } } := by
  unfold QQuickPopupPositioner.setParentItem
  split_ifs with h
  · exact ⟨d.popupItem.x, d.popupItem.y, d.popupItem.height, by rw [← h]⟩
  · cases parent with
    | none => exact ⟨d.popupItem.x, d.popupItem.y, d.popupItem.height, rfl⟩
    | some p =>
      dsimp only
      split_ifs
      · rw [QQuickPopupPrivate.reposition_eq]
        exact ⟨_, _, _, rfl⟩
      · exact ⟨d.popupItem.x, d.popupItem.y, d.popupItem.height, rfl⟩

/-- The item a popup item is attached to when its popup is shown in `window`. -/
theorem QQuickPopupPrivate.prepareEnterTransition_eq (d : QQuickPopupPrivate) (parentItem : QQuickItem)
    (window : QQuickWindow) (hp : d.parentItem = some parentItem)
    (hwin : parentItem.window = some window) (notify : Bool) :
    ∃ x y height : ℚ,
      d.prepareEnterTransition notify =
        { d with
          eventFilter := if window.applicationWindow then d.eventFilter else true
          visible := notify
          positioner := ⟨some parentItem⟩
          emitted := (if notify then d.emitted ++ [Signal.aboutToShow] else d.emitted) ++ [Signal.visibleChanged]
          popupItem :=
            { d.popupItem with
              x := x
              y := y
              height := height
              z := if window.applicationWindow then d.popupItem.z else 10001
              visible := true
              parentItem :=
                some (if window.applicationWindow then PopupItemParent.overlay window
                  else PopupItemParent.contentItem window) } } := by
  unfold QQuickPopupPrivate.prepareEnterTransition
  simp only [QQuickPopup.window, hp, hwin]
  cases hn : notify <;> cases ha : window.applicationWindow <;>
    simp only [if_true, if_false, Bool.false_eq_true, QQuickPopupPrivate.emit] <;>
    (obtain ⟨x, y, height, h⟩ := QQuickPopupPositioner.setParentItem_eq _ _
     rw [h]
     exact ⟨x, y, height, rfl⟩)

/-- `transitionEnter` on a popup whose anchor is in a window, when the guard
(state Enter and running) does not hold: the popup item is attached and shown,
`aboutToShow` and `visibleChanged` are emitted, and the manager is left in
state Enter and running when an enter transition is set, while without one the
transition completes at once. -/
theorem QQuickPopupTransitionManager.transitionEnter_eq (d : QQuickPopupPrivate)
    (parentItem : QQuickItem) (window : QQuickWindow) (hp : d.parentItem = some parentItem)
    (hwin : parentItem.window = some window)
    (hguard : ¬ (d.transitionManager.state = .Enter ∧ d.transitionManager.running = true)) :
    ∃ x y height : ℚ,
      QQuickPopupTransitionManager.transitionEnter d =
        { d with
          eventFilter := if window.applicationWindow then d.eventFilter else true
          visible := true
          positioner := ⟨some parentItem⟩
          emitted := d.emitted ++ [Signal.aboutToShow, Signal.visibleChanged]
          transitionManager := if d.enter.isSome then ⟨.Enter, true⟩ else ⟨.Off, false⟩
          popupItem :=
            { d.popupItem with
              x := x
              y := y
              height := height
              z := if window.applicationWindow then d.popupItem.z else 10001
              visible := true
              focus := if d.enter.isNone ∧ d.focus = true then true else d.popupItem.focus
              parentItem :=
                some (if window.applicationWindow then PopupItemParent.overlay window
                  else PopupItemParent.contentItem window) } } := by
  unfold QQuickPopupTransitionManager.transitionEnter
  rw [if_neg (by simpa [QQuickPopupTransitionManager.isRunning] using hguard)]
  dsimp only
  obtain ⟨x, y, height, h⟩ := QQuickPopupPrivate.prepareEnterTransition_eq
    { d with transitionManager := { d.transitionManager with state := .Enter } } parentItem window hp hwin
    prepareEnterTransitionDefaultNotify
  rw [h]
  refine ⟨x, y, height, ?_⟩
  cases he : d.enter with
  | none =>
    cases hf : d.focus <;>
      simp [QQuickPopupTransitionManager.transition, QQuickPopupTransitionManager.complete,
        QQuickPopupTransitionManager.finished, QQuickPopupPrivate.finalizeEnterTransition,
        prepareEnterTransitionDefaultNotify, he, hf, QQuickPopupItem.setFocus]
  | some t =>
    simp [QQuickPopupTransitionManager.transition, prepareEnterTransitionDefaultNotify, he]

/-- `open()` on a popup whose visible flag is set returns at once. -/
theorem QQuickPopup.open_of_visible (d : QQuickPopupPrivate) (h : d.visible = true) :
    QQuickPopup.open d = d := by
  unfold QQuickPopup.open
  rw [if_pos h]

/-- `transitionEnter` on a popup without a window, when the guard does not hold:
nothing is attached, shown or emitted; the manager is left in state Enter and
running when an enter transition is set, while without one the transition
completes at once. -/
theorem QQuickPopupTransitionManager.transitionEnter_without_window_eq (d : QQuickPopupPrivate)
    (hw : QQuickPopup.window d = none)
    (hguard : ¬ (d.transitionManager.state = .Enter ∧ d.transitionManager.running = true)) :
    QQuickPopupTransitionManager.transitionEnter d =
      { d with
        transitionManager := if d.enter.isSome then ⟨.Enter, true⟩ else ⟨.Off, false⟩
        popupItem :=
          { d.popupItem with
            focus := if d.enter.isNone ∧ d.focus = true then true else d.popupItem.focus } } := by
  unfold QQuickPopupTransitionManager.transitionEnter
  rw [if_neg (by simpa [QQuickPopupTransitionManager.isRunning] using hguard)]
  have hw' : QQuickPopup.window
      { d with transitionManager := { d.transitionManager with state := .Enter } } = none := hw
  simp only [QQuickPopupPrivate.prepareEnterTransition, hw']
  cases he : d.enter with
  | some t => simp [QQuickPopupTransitionManager.transition, he]
  | none =>
    cases hf : d.focus <;>
      simp [QQuickPopupTransitionManager.transition, QQuickPopupTransitionManager.complete,
        QQuickPopupTransitionManager.finished, QQuickPopupPrivate.finalizeEnterTransition, he, hf,
        QQuickPopupItem.setFocus]

/-- C7: for a completed, closed popup with no anchor item, or whose anchor is in
no window, `open()` emits nothing (neither `aboutToShow` nor `visibleChanged`),
leaves the parent of the popup item as it was, and leaves the popup not
visible: the visible flag stays false and `isVisible()` is false. -/
theorem open_without_window_aborts (d : QQuickPopupPrivate) (hc : d.complete = true)
    (hv : d.visible = false) (hw : QQuickPopup.window d = none) :
    (QQuickPopup.open d).emitted = d.emitted ∧
    (QQuickPopup.open d).popupItem.parentItem = d.popupItem.parentItem ∧
    (QQuickPopup.open d).visible = false ∧
    QQuickPopup.isVisible (QQuickPopup.open d) = false := by
  unfold QQuickPopup.open
  rw [if_neg (by simp [hv]), if_pos hc]
  by_cases hguard : d.transitionManager.state = .Enter ∧ d.transitionManager.running = true
  · unfold QQuickPopupTransitionManager.transitionEnter
    rw [if_pos (by simpa [QQuickPopupTransitionManager.isRunning] using hguard)]
    simp [QQuickPopup.isVisible, hv]
  · rw [QQuickPopupTransitionManager.transitionEnter_without_window_eq d hw hguard]
    simp [QQuickPopup.isVisible, hv]

/-- Witness of `open_without_window_aborts`: a completed popup without anchor item. -/
theorem open_without_window_aborts_witness :
    (QQuickPopup.open Scene.orphanPopup).emitted = Scene.orphanPopup.emitted ∧
    (QQuickPopup.open Scene.orphanPopup).popupItem.parentItem = Scene.orphanPopup.popupItem.parentItem ∧
    (QQuickPopup.open Scene.orphanPopup).visible = false ∧
    QQuickPopup.isVisible (QQuickPopup.open Scene.orphanPopup) = false :=
  open_without_window_aborts Scene.orphanPopup rfl rfl rfl

/-- Clearing the tracked anchor changes nothing but the positioner. -/
theorem QQuickPopupPositioner.setParentItem_none (d : QQuickPopupPrivate) :
    QQuickPopupPositioner.setParentItem d none = { d with positioner := ⟨none⟩ } := by
  unfold QQuickPopupPositioner.setParentItem
  split_ifs with h
  · rw [← h]
  · rfl

/-- C8: when `finished()` runs in state Exit, the popup item is detached (no
parent item) and hidden, the visible flag of the popup is false, the positioner
tracks no anchor and the state is Off; when it runs in state Enter, the popup
item is given focus if the focus flag of the popup is set and is left untouched
otherwise, nothing else changes, and the state is Off. -/
theorem finished_completes_transition (d : QQuickPopupPrivate) :
    (d.transitionManager.state = .Exit →
      (QQuickPopupTransitionManager.finished d).popupItem.parentItem = none ∧
      (QQuickPopupTransitionManager.finished d).popupItem.visible = false ∧
      (QQuickPopupTransitionManager.finished d).visible = false ∧
      (QQuickPopupTransitionManager.finished d).positioner.m_parentItem = none ∧
      (QQuickPopupTransitionManager.finished d).transitionManager.state = .Off) ∧
    (d.transitionManager.state = .Enter →
      QQuickPopupTransitionManager.finished d =
        { d with
          popupItem := if d.focus then d.popupItem.setFocus true else d.popupItem
          transitionManager := { d.transitionManager with state := .Off } }) := by
  constructor
  · intro h
    simp [QQuickPopupTransitionManager.finished, h, QQuickPopupPrivate.finalizeExitTransition,
      QQuickPopupPositioner.setParentItem_none, finalizeExitTransitionDefaultHide,
      QQuickPopupPrivate.emit, QQuickPopupItem.setParentItem, QQuickPopupItem.setVisible]
  · intro h
    cases hf : d.focus <;>
      simp [QQuickPopupTransitionManager.finished, h, QQuickPopupPrivate.finalizeEnterTransition, hf]

/-- Witness of `finished_completes_transition`: the animated example popup while
its exit transition runs (after `open()` and `close()`), and while its enter
transition runs (after `open()`). -/
theorem finished_completes_transition_witness :
    ((QQuickPopupTransitionManager.finished
        (QQuickPopup.close (QQuickPopup.open Scene.animatedPopup))).popupItem.parentItem = none ∧
      (QQuickPopupTransitionManager.finished
        (QQuickPopup.close (QQuickPopup.open Scene.animatedPopup))).popupItem.visible = false ∧
      (QQuickPopupTransitionManager.finished
        (QQuickPopup.close (QQuickPopup.open Scene.animatedPopup))).visible = false ∧
      (QQuickPopupTransitionManager.finished
        (QQuickPopup.close (QQuickPopup.open Scene.animatedPopup))).positioner.m_parentItem = none ∧
      (QQuickPopupTransitionManager.finished
        (QQuickPopup.close (QQuickPopup.open Scene.animatedPopup))).transitionManager.state = .Off) ∧
    QQuickPopupTransitionManager.finished (QQuickPopup.open Scene.animatedPopup) =
      { QQuickPopup.open Scene.animatedPopup with
        popupItem :=
          if (QQuickPopup.open Scene.animatedPopup).focus then
            (QQuickPopup.open Scene.animatedPopup).popupItem.setFocus true
          else (QQuickPopup.open Scene.animatedPopup).popupItem
        transitionManager :=
          { (QQuickPopup.open Scene.animatedPopup).transitionManager with state := .Off } } :=
  ⟨(finished_completes_transition (QQuickPopup.close (QQuickPopup.open Scene.animatedPopup))).1
      (by decide!),
    (finished_completes_transition (QQuickPopup.open Scene.animatedPopup)).2 (by decide!)⟩

/-- C5 (evaluated at the failing input): the animated example popup is opened,
so its enter transition runs; `close()` then switches the manager to state Exit
and emits `aboutToHide`; but `open()` called while that exit transition runs
returns the object unchanged, because the visible flag is still set: the state
stays Exit and `aboutToShow` has still been emitted only once. -/
theorem open_during_exit_changes_nothing :
    ((QQuickPopup.open Scene.animatedPopup).transitionManager = ⟨.Enter, true⟩ ∧
     (QQuickPopup.close (QQuickPopup.open Scene.animatedPopup)).transitionManager = ⟨.Exit, true⟩ ∧
     (QQuickPopup.close (QQuickPopup.open Scene.animatedPopup)).emitted.count Signal.aboutToHide = 1) ∧
    QQuickPopup.open (QQuickPopup.close (QQuickPopup.open Scene.animatedPopup)) =
      QQuickPopup.close (QQuickPopup.open Scene.animatedPopup) ∧
    (QQuickPopup.open (QQuickPopup.close (QQuickPopup.open Scene.animatedPopup))).transitionManager.state =
      .Exit ∧
    (QQuickPopup.open (QQuickPopup.close (QQuickPopup.open Scene.animatedPopup))).emitted.count
      Signal.aboutToShow = 1 := by
  decide!

/-- `close()` while the enter transition of a visible popup runs, when an exit
transition is set: the manager switches to state Exit and runs it, `aboutToHide`
is emitted, and the visible flag is still set, so a following `open()` returns
at once. -/
theorem QQuickPopup.close_during_enter (d : QQuickPopupPrivate) (t : QQuickTransition)
    (hc : d.complete = true) (hv : d.visible = true) (hs : d.transitionManager.state = .Enter)
    (he : d.exit = some t) :
    (QQuickPopup.close d).transitionManager = ⟨.Exit, true⟩ ∧
    (QQuickPopup.close d).emitted = d.emitted ++ [Signal.aboutToHide] ∧
    (QQuickPopup.close d).visible = true ∧
    QQuickPopup.open (QQuickPopup.close d) = QQuickPopup.close d := by
  have h : (QQuickPopup.close d).transitionManager = ⟨.Exit, true⟩ ∧
      (QQuickPopup.close d).emitted = d.emitted ++ [Signal.aboutToHide] ∧
      (QQuickPopup.close d).visible = true := by
    unfold QQuickPopup.close QQuickPopupTransitionManager.transitionExit
      QQuickPopupPrivate.prepareExitTransition
    simp only [hv, hc, hs, QQuickPopupTransitionManager.transition, he, QQuickPopupPrivate.emit]
    cases hw : QQuickPopup.window d with
    | none => cases hf : d.focus <;> simp [QQuickPopup.window] at hw ⊢ <;> simp [hw, hf]
    | some w =>
      cases ha : w.applicationWindow <;> cases hf : d.focus <;>
        simp [QQuickPopup.window] at hw ⊢ <;> simp [hw, hf, ha]
  exact ⟨h.1, h.2.1, h.2.2, QQuickPopup.open_of_visible _ h.2.2⟩

/-- What `QQuickPopup::setParentItem` leaves alone: the flags, the transitions and
the manager, the focus of the popup item, and the count of `aboutToShow` emissions. -/
theorem QQuickPopup.setParentItem_frame (d : QQuickPopupPrivate) (parent : Option QQuickItem) :
    (QQuickPopup.setParentItem d parent).visible = d.visible ∧
    (QQuickPopup.setParentItem d parent).complete = d.complete ∧
    (QQuickPopup.setParentItem d parent).focus = d.focus ∧
    (QQuickPopup.setParentItem d parent).enter = d.enter ∧
    (QQuickPopup.setParentItem d parent).transitionManager = d.transitionManager ∧
    (QQuickPopup.setParentItem d parent).emitted.count Signal.aboutToShow =
      d.emitted.count Signal.aboutToShow := by
  unfold QQuickPopup.setParentItem
  split_ifs with h1
  · exact ⟨rfl, rfl, rfl, rfl, rfl, rfl⟩
  · dsimp only
    have key : ∀ e : QQuickPopupPrivate,
        e.visible = d.visible ∧ e.complete = d.complete ∧ e.focus = d.focus ∧ e.enter = d.enter ∧
          e.transitionManager = d.transitionManager ∧ e.emitted = d.emitted →
        (if QQuickPopup.window d ≠ QQuickPopup.window (e.emit Signal.parentChanged) then
            (e.emit Signal.parentChanged).emit Signal.windowChanged
          else e.emit Signal.parentChanged).visible = d.visible ∧
        (if QQuickPopup.window d ≠ QQuickPopup.window (e.emit Signal.parentChanged) then
            (e.emit Signal.parentChanged).emit Signal.windowChanged
          else e.emit Signal.parentChanged).complete = d.complete ∧
        (if QQuickPopup.window d ≠ QQuickPopup.window (e.emit Signal.parentChanged) then
            (e.emit Signal.parentChanged).emit Signal.windowChanged
          else e.emit Signal.parentChanged).focus = d.focus ∧
        (if QQuickPopup.window d ≠ QQuickPopup.window (e.emit Signal.parentChanged) then
            (e.emit Signal.parentChanged).emit Signal.windowChanged
          else e.emit Signal.parentChanged).enter = d.enter ∧
        (if QQuickPopup.window d ≠ QQuickPopup.window (e.emit Signal.parentChanged) then
            (e.emit Signal.parentChanged).emit Signal.windowChanged
          else e.emit Signal.parentChanged).transitionManager = d.transitionManager ∧
        (if QQuickPopup.window d ≠ QQuickPopup.window (e.emit Signal.parentChanged) then
            (e.emit Signal.parentChanged).emit Signal.windowChanged
          else e.emit Signal.parentChanged).emitted.count Signal.aboutToShow =
          d.emitted.count Signal.aboutToShow := by
      rintro e ⟨e1, e2, e3, e4, e5, e6⟩
      split_ifs <;> simp [QQuickPopupPrivate.emit, e1, e2, e3, e4, e5, e6, List.count_append]
    apply key
    split_ifs with h2
    · obtain ⟨x, y, height, h⟩ := QQuickPopupPositioner.setParentItem_eq { d with parentItem := parent } parent
      rw [h]
      exact ⟨rfl, rfl, rfl, rfl, rfl, rfl⟩
    · exact ⟨rfl, rfl, rfl, rfl, rfl, rfl⟩

/-- Summary of `transitionEnter` when its guard does not hold: it hands the enter
transition to the manager from a state `s` in which the manager state is Enter
and `aboutToShow` has been emitted if the popup has a window; afterwards the
manager is in state Enter and running when an enter transition is set, and the
transition has completed (state Off) when none is set. -/
theorem QQuickPopupTransitionManager.transitionEnter_summary (d : QQuickPopupPrivate)
    (hguard : ¬ (d.transitionManager.state = .Enter ∧ d.transitionManager.running = true)) :
    (∃ s : QQuickPopupPrivate,
      QQuickPopupTransitionManager.transitionEnter d = QQuickPopupTransitionManager.transition s d.enter ∧
      s.transitionManager.state = .Enter ∧
      s.emitted.count Signal.aboutToShow =
        d.emitted.count Signal.aboutToShow + (if (QQuickPopup.window d).isSome then 1 else 0)) ∧
    (QQuickPopupTransitionManager.transitionEnter d).transitionManager =
      (if d.enter.isSome then ⟨.Enter, true⟩ else ⟨.Off, false⟩) ∧
    (QQuickPopupTransitionManager.transitionEnter d).emitted.count Signal.aboutToShow =
      d.emitted.count Signal.aboutToShow + (if (QQuickPopup.window d).isSome then 1 else 0) ∧
    QQuickPopup.window (QQuickPopupTransitionManager.transitionEnter d) = QQuickPopup.window d := by
  have hstart : QQuickPopupTransitionManager.transitionEnter d =
      QQuickPopupTransitionManager.transition
        (QQuickPopupPrivate.prepareEnterTransition
          { d with transitionManager := { d.transitionManager with state := .Enter } }
          prepareEnterTransitionDefaultNotify)
        (QQuickPopupPrivate.prepareEnterTransition
          { d with transitionManager := { d.transitionManager with state := .Enter } }
          prepareEnterTransitionDefaultNotify).enter := by
    unfold QQuickPopupTransitionManager.transitionEnter
    rw [if_neg (by simpa [QQuickPopupTransitionManager.isRunning] using hguard)]
  generalize hP : QQuickPopupPrivate.prepareEnterTransition
      { d with transitionManager := { d.transitionManager with state := .Enter } }
      prepareEnterTransitionDefaultNotify = P at hstart
  cases hw : QQuickPopup.window d with
  | none =>
    have hw' : QQuickPopup.window
        { d with transitionManager := { d.transitionManager with state := .Enter } } = none := hw
    have hprep : P = { d with transitionManager := { d.transitionManager with state := .Enter } } := by
      rw [← hP]
      simp only [QQuickPopupPrivate.prepareEnterTransition, hw']
    have hPe : P.enter = d.enter := by rw [hprep]
    have hPs : P.transitionManager.state = .Enter := by rw [hprep]
    have hPc : P.emitted.count Signal.aboutToShow = d.emitted.count Signal.aboutToShow + 0 := by
      rw [hprep]; rfl
    refine ⟨⟨P, by rw [hstart, hPe], hPs, by simpa using hPc⟩, ?_⟩
    rw [QQuickPopupTransitionManager.transitionEnter_without_window_eq d hw hguard]
    exact ⟨rfl, by simp, hw⟩
  | some w =>
    obtain ⟨a, hp, hwin⟩ : ∃ a, d.parentItem = some a ∧ a.window = some w := by
      unfold QQuickPopup.window at hw
      cases hpi : d.parentItem with
      | none => rw [hpi] at hw; simp at hw
      | some a => rw [hpi] at hw; exact ⟨a, rfl, hw⟩
    obtain ⟨x, y, height, hprep⟩ := QQuickPopupPrivate.prepareEnterTransition_eq
      { d with transitionManager := { d.transitionManager with state := .Enter } } a w hp hwin
      prepareEnterTransitionDefaultNotify
    rw [hP] at hprep
    have hPe : P.enter = d.enter := by rw [hprep]
    have hPs : P.transitionManager.state = .Enter := by rw [hprep]
    have hPc : P.emitted.count Signal.aboutToShow = d.emitted.count Signal.aboutToShow + 1 := by
      rw [hprep]; simp [prepareEnterTransitionDefaultNotify, List.count_append]
    refine ⟨⟨P, by rw [hstart, hPe], hPs, by simpa using hPc⟩, ?_⟩
    obtain ⟨x', y', height', h⟩ := QQuickPopupTransitionManager.transitionEnter_eq d a w hp hwin hguard
    rw [h]
    refine ⟨rfl, by simp [List.count_append], ?_⟩
    simp only [QQuickPopup.window, hp, hwin]

/-- The anchor resolution of `componentComplete` (taking the `QObject` parent when
no anchor item is set) leaves alone the flags, the transitions and the manager,
and emits no `aboutToShow`. -/
theorem QQuickPopup.resolveParent_frame (d : QQuickPopupPrivate) :
    (if d.parentItem.isNone then QQuickPopup.setParentItem d d.parent else d).visible = d.visible ∧
    (if d.parentItem.isNone then QQuickPopup.setParentItem d d.parent else d).enter = d.enter ∧
    (if d.parentItem.isNone then QQuickPopup.setParentItem d d.parent else d).transitionManager =
      d.transitionManager ∧
    (if d.parentItem.isNone then QQuickPopup.setParentItem d d.parent else d).emitted.count
      Signal.aboutToShow = d.emitted.count Signal.aboutToShow := by
  split_ifs
  · obtain ⟨h1, _, _, h4, h5, h6⟩ := QQuickPopup.setParentItem_frame d d.parent
    exact ⟨h1, h4, h5, h6⟩
  · exact ⟨rfl, rfl, rfl, rfl⟩

/-- C6: on a popup whose construction is not complete (and which is not visible
yet), `setVisible(true)` only records the flag: no transition is started and
nothing is emitted. The following `componentComplete()` starts the enter
transition: it hands the transition to the manager from a state `s` whose manager
state is Enter, with `aboutToShow` emitted exactly when the popup has a window;
the manager is then in state Enter and running when an enter transition is set
(without one the transition has completed at once). If the flag was set back to
false before completion, `componentComplete()` starts no transition and emits no
`aboutToShow`. -/
theorem deferred_visibility (d : QQuickPopupPrivate) (hc : d.complete = false)
    (hv : d.visible = false)
    (hguard : ¬ (d.transitionManager.state = .Enter ∧ d.transitionManager.running = true)) :
    QQuickPopup.setVisible d true = { d with visible := true } ∧
    (∃ s : QQuickPopupPrivate,
      QQuickPopup.componentComplete (QQuickPopup.setVisible d true) =
        QQuickPopupTransitionManager.transition s d.enter ∧
      s.transitionManager.state = .Enter ∧
      s.emitted.count Signal.aboutToShow =
        d.emitted.count Signal.aboutToShow +
          (if (QQuickPopup.window (QQuickPopup.componentComplete (QQuickPopup.setVisible d true))).isSome
            then 1 else 0)) ∧
    (QQuickPopup.componentComplete (QQuickPopup.setVisible d true)).transitionManager =
      (if d.enter.isSome then ⟨.Enter, true⟩ else ⟨.Off, false⟩) ∧
    (QQuickPopup.componentComplete (QQuickPopup.setVisible d true)).emitted.count Signal.aboutToShow =
      d.emitted.count Signal.aboutToShow +
        (if (QQuickPopup.window (QQuickPopup.componentComplete (QQuickPopup.setVisible d true))).isSome
          then 1 else 0) ∧
    (QQuickPopup.componentComplete
        (QQuickPopup.setVisible (QQuickPopup.setVisible d true) false)).transitionManager =
      d.transitionManager ∧
    (QQuickPopup.componentComplete
        (QQuickPopup.setVisible (QQuickPopup.setVisible d true) false)).emitted.count Signal.aboutToShow =
      d.emitted.count Signal.aboutToShow ∧
    (QQuickPopup.componentComplete
        (QQuickPopup.setVisible (QQuickPopup.setVisible d true) false)).visible = false := by
  have hset : QQuickPopup.setVisible d true = { d with visible := true } := by
    unfold QQuickPopup.setVisible
    simp [hv, hc]
  have hback : QQuickPopup.setVisible (QQuickPopup.setVisible d true) false =
      { d with visible := false } := by
    rw [hset]
    unfold QQuickPopup.setVisible
    simp [hc]
  refine ⟨hset, ?_⟩
  obtain ⟨f1, f2, f3, f4⟩ := QQuickPopup.resolveParent_frame { d with visible := true, complete := true }
  have hcc : QQuickPopup.componentComplete (QQuickPopup.setVisible d true) =
      QQuickPopupTransitionManager.transitionEnter
        (if ({ d with visible := true, complete := true } : QQuickPopupPrivate).parentItem.isNone then
          QQuickPopup.setParentItem { d with visible := true, complete := true }
            ({ d with visible := true, complete := true } : QQuickPopupPrivate).parent
         else { d with visible := true, complete := true }) := by
    rw [hset]
    unfold QQuickPopup.componentComplete
    dsimp only
    rw [if_pos f1]
  obtain ⟨⟨s, s1, s2, s3⟩, t2, t3, t4⟩ :=
    QQuickPopupTransitionManager.transitionEnter_summary _ (by rw [f3]; exact hguard)
  rw [f2] at s1 t2
  rw [f4] at s3 t3
  rw [← t4, ← hcc] at s3 t3
  rw [← hcc] at s1 t2
  refine ⟨⟨s, s1, s2, s3⟩, t2, t3, ?_⟩
  obtain ⟨g1, g2, g3, g4⟩ := QQuickPopup.resolveParent_frame { d with visible := false, complete := true }
  have hcc2 : QQuickPopup.componentComplete
      (QQuickPopup.setVisible (QQuickPopup.setVisible d true) false) =
      (if ({ d with visible := false, complete := true } : QQuickPopupPrivate).parentItem.isNone then
          QQuickPopup.setParentItem { d with visible := false, complete := true }
            ({ d with visible := false, complete := true } : QQuickPopupPrivate).parent
         else { d with visible := false, complete := true }) := by
    rw [hback]
    unfold QQuickPopup.componentComplete
    dsimp only
    rw [if_neg (by rw [g1]; simp)]
  rw [hcc2]
  exact ⟨g3, g4, g1⟩

/-- Witness of `deferred_visibility`: the example popup before `componentComplete`. -/
theorem deferred_visibility_witness :
    QQuickPopup.setVisible Scene.pendingPopup true = { Scene.pendingPopup with visible := true } ∧
    (QQuickPopup.componentComplete (QQuickPopup.setVisible Scene.pendingPopup true)).transitionManager =
      ⟨.Enter, true⟩ ∧
    (QQuickPopup.componentComplete
        (QQuickPopup.setVisible (QQuickPopup.setVisible Scene.pendingPopup true) false)).transitionManager =
      Scene.pendingPopup.transitionManager :=
  ⟨(deferred_visibility Scene.pendingPopup rfl rfl (by decide)).1,
    (deferred_visibility Scene.pendingPopup rfl rfl (by decide)).2.2.1,
    (deferred_visibility Scene.pendingPopup rfl rfl (by decide)).2.2.2.2.1⟩

/-! ## Effective margins -/

/-- The fields `setTopMargin` writes: the top margin and its override flag; the
other margins, their flags and the default are kept. -/
theorem QQuickPopupPrivate.setTopMargin_fields (d : QQuickPopupPrivate) (v : ℚ) (reset : Bool) :
    (d.setTopMargin v reset).topMargin = v ∧
    (d.setTopMargin v reset).hasTopMargin = !reset ∧
    (d.setTopMargin v reset).leftMargin = d.leftMargin ∧
    (d.setTopMargin v reset).hasLeftMargin = d.hasLeftMargin ∧
    (d.setTopMargin v reset).rightMargin = d.rightMargin ∧
    (d.setTopMargin v reset).hasRightMargin = d.hasRightMargin ∧
    (d.setTopMargin v reset).bottomMargin = d.bottomMargin ∧
    (d.setTopMargin v reset).hasBottomMargin = d.hasBottomMargin ∧
    (d.setTopMargin v reset).margins = d.margins := by
  unfold QQuickPopupPrivate.setTopMargin
  dsimp only
  split_ifs <;>
    simp only [QQuickPopup.marginsChange, QQuickPopupPrivate.reposition_eq, QQuickPopupPrivate.emit,
      and_self]

/-- The fields `setLeftMargin` writes: the left margin and its override flag; the
other margins, their flags and the default are kept. -/
theorem QQuickPopupPrivate.setLeftMargin_fields (d : QQuickPopupPrivate) (v : ℚ) (reset : Bool) :
    (d.setLeftMargin v reset).topMargin = d.topMargin ∧
    (d.setLeftMargin v reset).hasTopMargin = d.hasTopMargin ∧
    (d.setLeftMargin v reset).leftMargin = v ∧
    (d.setLeftMargin v reset).hasLeftMargin = !reset ∧
    (d.setLeftMargin v reset).rightMargin = d.rightMargin ∧
    (d.setLeftMargin v reset).hasRightMargin = d.hasRightMargin ∧
    (d.setLeftMargin v reset).bottomMargin = d.bottomMargin ∧
    (d.setLeftMargin v reset).hasBottomMargin = d.hasBottomMargin ∧
    (d.setLeftMargin v reset).margins = d.margins := by
  unfold QQuickPopupPrivate.setLeftMargin
  dsimp only
  split_ifs <;>
    simp only [QQuickPopup.marginsChange, QQuickPopupPrivate.reposition_eq, QQuickPopupPrivate.emit,
      and_self]

/-- The fields `setRightMargin` writes: the right margin and its override flag; the
other margins, their flags and the default are kept. -/
theorem QQuickPopupPrivate.setRightMargin_fields (d : QQuickPopupPrivate) (v : ℚ) (reset : Bool) :
    (d.setRightMargin v reset).topMargin = d.topMargin ∧
    (d.setRightMargin v reset).hasTopMargin = d.hasTopMargin ∧
    (d.setRightMargin v reset).leftMargin = d.leftMargin ∧
    (d.setRightMargin v reset).hasLeftMargin = d.hasLeftMargin ∧
    (d.setRightMargin v reset).rightMargin = v ∧
    (d.setRightMargin v reset).hasRightMargin = !reset ∧
    (d.setRightMargin v reset).bottomMargin = d.bottomMargin ∧
    (d.setRightMargin v reset).hasBottomMargin = d.hasBottomMargin ∧
    (d.setRightMargin v reset).margins = d.margins := by
  unfold QQuickPopupPrivate.setRightMargin
  dsimp only
  split_ifs <;>
    simp only [QQuickPopup.marginsChange, QQuickPopupPrivate.reposition_eq, QQuickPopupPrivate.emit,
      and_self]

/-- The fields `setBottomMargin` writes: the bottom margin and its override flag; the
other margins, their flags and the default are kept. -/
theorem QQuickPopupPrivate.setBottomMargin_fields (d : QQuickPopupPrivate) (v : ℚ) (reset : Bool) :
    (d.setBottomMargin v reset).topMargin = d.topMargin ∧
    (d.setBottomMargin v reset).hasTopMargin = d.hasTopMargin ∧
    (d.setBottomMargin v reset).leftMargin = d.leftMargin ∧
    (d.setBottomMargin v reset).hasLeftMargin = d.hasLeftMargin ∧
    (d.setBottomMargin v reset).rightMargin = d.rightMargin ∧
    (d.setBottomMargin v reset).hasRightMargin = d.hasRightMargin ∧
    (d.setBottomMargin v reset).bottomMargin = v ∧
    (d.setBottomMargin v reset).hasBottomMargin = !reset ∧
    (d.setBottomMargin v reset).margins = d.margins := by
  unfold QQuickPopupPrivate.setBottomMargin
  dsimp only
  split_ifs <;>
    simp only [QQuickPopup.marginsChange, QQuickPopupPrivate.reposition_eq, QQuickPopupPrivate.emit,
      and_self]

/-- The fields `setMargins` writes: the default margin only, and only when the
new value is not fuzzily equal to the current one. -/
theorem QQuickPopup.setMargins_fields (d : QQuickPopupPrivate) (m : ℚ) :
    (QQuickPopup.setMargins d m).topMargin = d.topMargin ∧
    (QQuickPopup.setMargins d m).hasTopMargin = d.hasTopMargin ∧
    (QQuickPopup.setMargins d m).leftMargin = d.leftMargin ∧
    (QQuickPopup.setMargins d m).hasLeftMargin = d.hasLeftMargin ∧
    (QQuickPopup.setMargins d m).rightMargin = d.rightMargin ∧
    (QQuickPopup.setMargins d m).hasRightMargin = d.hasRightMargin ∧
    (QQuickPopup.setMargins d m).bottomMargin = d.bottomMargin ∧
    (QQuickPopup.setMargins d m).hasBottomMargin = d.hasBottomMargin ∧
    (QQuickPopup.setMargins d m).margins = (if qFuzzyCompare d.margins m then d.margins else m) := by
  unfold QQuickPopup.setMargins
  dsimp only
  split_ifs <;>
    simp only [QQuickPopup.marginsChange, QQuickPopupPrivate.reposition_eq, QQuickPopupPrivate.emit,
      and_self]

/-- C9 (as stated, refuted): with default margins 10^12 and no side overridden,
`setMargins(10^12 + 1)` returns at once because `qFuzzyCompare` holds for the
two values, so the effective top margin is still 10^12 and not the value passed. -/
theorem setMargins_fuzzy_equal_keeps_margin :
    (QQuickPopup.hasSideMargin Scene.wideMarginPopup Side.top = false ∧
     qFuzzyCompare Scene.wideMarginPopup.margins 1000000000001 = true) ∧
    QQuickPopup.topMargin (QQuickPopup.setMargins Scene.wideMarginPopup 1000000000001) ≠ 1000000000001 ∧
    QQuickPopup.topMargin (QQuickPopup.setMargins Scene.wideMarginPopup 1000000000001) = 1000000000000 := by
  decide!

/-- C9 (amended): for each side, the getter returns the value last passed to the
setter of that side (setters and resets of other sides and `setMargins` leave an
overridden side alone), and returns `margins()` after the reset of that side and
on a new popup; `setMargins(m)` leaves overridden sides unchanged and, unless
`m` is fuzzily equal to the current default (then it changes nothing), makes `m`
the default and the effective margin of every side without override. -/
theorem effective_margins (d : QQuickPopupPrivate) (s s' : Side) (v m : ℚ) (p : Option QQuickItem) :
    QQuickPopup.sideMargin (QQuickPopup.setSideMargin d s v) s' =
      (if s' = s then v else QQuickPopup.sideMargin d s') ∧
    QQuickPopup.sideMargin (QQuickPopup.resetSideMargin d s) s' =
      (if s' = s then QQuickPopup.margins (QQuickPopup.resetSideMargin d s)
        else QQuickPopup.sideMargin d s') ∧
    QQuickPopup.hasSideMargin (QQuickPopup.setSideMargin d s v) s' =
      (if s' = s then true else QQuickPopup.hasSideMargin d s') ∧
    QQuickPopup.hasSideMargin (QQuickPopup.resetSideMargin d s) s' =
      (if s' = s then false else QQuickPopup.hasSideMargin d s') ∧
    QQuickPopup.margins (QQuickPopup.setSideMargin d s v) = QQuickPopup.margins d ∧
    QQuickPopup.margins (QQuickPopup.resetSideMargin d s) = QQuickPopup.margins d ∧
    (if QQuickPopup.hasSideMargin d s then QQuickPopup.margins d else QQuickPopup.sideMargin d s) =
      QQuickPopup.margins d ∧
    QQuickPopup.sideMargin (QQuickPopup.create p) s = QQuickPopup.margins (QQuickPopup.create p) ∧
    QQuickPopup.hasSideMargin (QQuickPopup.setMargins d m) s = QQuickPopup.hasSideMargin d s ∧
    QQuickPopup.margins (QQuickPopup.setMargins d m) =
      (if qFuzzyCompare d.margins m then QQuickPopup.margins d else m) ∧
    QQuickPopup.sideMargin (QQuickPopup.setMargins d m) s =
      (if QQuickPopup.hasSideMargin d s then QQuickPopup.sideMargin d s
        else if qFuzzyCompare d.margins m then QQuickPopup.margins d else m) ∧
    (if qFuzzyCompare d.margins m then QQuickPopup.setMargins d m else d) = d := by
  obtain ⟨t1, t2, t3, t4, t5, t6, t7, t8, t9⟩ := QQuickPopupPrivate.setTopMargin_fields d v false
  obtain ⟨l1, l2, l3, l4, l5, l6, l7, l8, l9⟩ := QQuickPopupPrivate.setLeftMargin_fields d v false
  obtain ⟨r1, r2, r3, r4, r5, r6, r7, r8, r9⟩ := QQuickPopupPrivate.setRightMargin_fields d v false
  obtain ⟨b1, b2, b3, b4, b5, b6, b7, b8, b9⟩ := QQuickPopupPrivate.setBottomMargin_fields d v false
  obtain ⟨t1', t2', t3', t4', t5', t6', t7', t8', t9'⟩ := QQuickPopupPrivate.setTopMargin_fields d 0 true
  obtain ⟨l1', l2', l3', l4', l5', l6', l7', l8', l9'⟩ := QQuickPopupPrivate.setLeftMargin_fields d 0 true
  obtain ⟨r1', r2', r3', r4', r5', r6', r7', r8', r9'⟩ := QQuickPopupPrivate.setRightMargin_fields d 0 true
  obtain ⟨b1', b2', b3', b4', b5', b6', b7', b8', b9'⟩ := QQuickPopupPrivate.setBottomMargin_fields d 0 true
  obtain ⟨m1, m2, m3, m4, m5, m6, m7, m8, m9⟩ := QQuickPopup.setMargins_fields d m
  refine ⟨?_, ?_, ?_, ?_, ?_, ?_, ?_, ?_, ?_, ?_, ?_, ?_⟩
  · cases s <;> cases s' <;>
      simp [QQuickPopup.sideMargin, QQuickPopup.setSideMargin, QQuickPopup.setTopMargin,
        QQuickPopup.setLeftMargin, QQuickPopup.setRightMargin, QQuickPopup.setBottomMargin,
        QQuickPopup.topMargin, QQuickPopup.leftMargin, QQuickPopup.rightMargin,
        QQuickPopup.bottomMargin, *]
  · cases s <;> cases s' <;>
      simp [QQuickPopup.sideMargin, QQuickPopup.resetSideMargin, QQuickPopup.resetTopMargin,
        QQuickPopup.resetLeftMargin, QQuickPopup.resetRightMargin, QQuickPopup.resetBottomMargin,
        QQuickPopup.topMargin, QQuickPopup.leftMargin, QQuickPopup.rightMargin,
        QQuickPopup.bottomMargin, QQuickPopup.margins, *]
  · cases s <;> cases s' <;>
      simp [QQuickPopup.hasSideMargin, QQuickPopup.setSideMargin, QQuickPopup.setTopMargin,
        QQuickPopup.setLeftMargin, QQuickPopup.setRightMargin, QQuickPopup.setBottomMargin, *]
  · cases s <;> cases s' <;>
      simp [QQuickPopup.hasSideMargin, QQuickPopup.resetSideMargin, QQuickPopup.resetTopMargin,
        QQuickPopup.resetLeftMargin, QQuickPopup.resetRightMargin, QQuickPopup.resetBottomMargin, *]
  · cases s <;>
      simp [QQuickPopup.margins, QQuickPopup.setSideMargin, QQuickPopup.setTopMargin,
        QQuickPopup.setLeftMargin, QQuickPopup.setRightMargin, QQuickPopup.setBottomMargin, *]
  · cases s <;>
      simp [QQuickPopup.margins, QQuickPopup.resetSideMargin, QQuickPopup.resetTopMargin,
        QQuickPopup.resetLeftMargin, QQuickPopup.resetRightMargin, QQuickPopup.resetBottomMargin, *]
  · cases s <;>
      simp only [QQuickPopup.sideMargin, QQuickPopup.hasSideMargin, QQuickPopup.topMargin,
        QQuickPopup.leftMargin, QQuickPopup.rightMargin, QQuickPopup.bottomMargin,
        QQuickPopup.margins] <;>
      split_ifs <;> rfl
  · cases s <;>
      simp [QQuickPopup.sideMargin, QQuickPopup.create, QQuickPopup.topMargin,
        QQuickPopup.leftMargin, QQuickPopup.rightMargin, QQuickPopup.bottomMargin, QQuickPopup.margins]
  · cases s <;> simp [QQuickPopup.hasSideMargin, *]
  · simp [QQuickPopup.margins, m9]
  · cases s <;>
      simp only [QQuickPopup.sideMargin, QQuickPopup.hasSideMargin, QQuickPopup.topMargin,
        QQuickPopup.leftMargin, QQuickPopup.rightMargin, QQuickPopup.bottomMargin,
        QQuickPopup.margins, m1, m2, m3, m4, m5, m6, m7, m8, m9] <;>
      split_ifs <;> rfl
  · unfold QQuickPopup.setMargins
    split_ifs <;> rfl

/-! ## Close policy -/

/-- With `OnPressOutside` set and `OnPressOutsideParent` not set, a press whose
position lies outside the popup item makes `tryClose` call `close()` and return true. -/
theorem QQuickPopupPrivate.tryClose_press_outside (d : QQuickPopupPrivate) (item : QQuickItem)
    (event : QEvent) (hpress : event.type = QEventType.MouseButtonPress)
    (hflag : d.closePolicy.testFlag ClosePolicyFlag.OnPressOutside = true)
    (hparent : d.closePolicy.testFlag ClosePolicyFlag.OnPressOutsideParent = false)
    (hout : d.popupItem.contains (item.mapToPopupItem d.popupItem event.pos) = false) :
    d.tryClose item event = (QQuickPopup.close d, true) := by
  unfold QQuickPopupPrivate.tryClose
  simp [hpress, hflag, hparent, hout]

/-- C10 (evaluated at the failing input): the shown example popup has the close
policy `OnPressOutside | OnPressOutsideParent`; a press at (50, 50) lies outside
the popup item, which covers (100,90)-(300,390), and inside the anchor item; then
`tryClose` returns false without calling `close()`, and `overlayEvent` leaves the
popup as it was, still visible. -/
theorem press_outside_popup_inside_parent_keeps_open :
    ((Scene.shownPopup Scene.pressOutsideBoth).closePolicy.testFlag ClosePolicyFlag.OnPressOutside = true ∧
     (Scene.shownPopup Scene.pressOutsideBoth).popupItem.contains
       (Scene.overlayItem.mapToPopupItem (Scene.shownPopup Scene.pressOutsideBoth).popupItem
         Scene.pressBesidePopup.pos) = false ∧
     (Scene.shownPopup Scene.pressOutsideBoth).visible = true) ∧
    (Scene.shownPopup Scene.pressOutsideBoth).tryClose Scene.overlayItem Scene.pressBesidePopup =
      (Scene.shownPopup Scene.pressOutsideBoth, false) ∧
    (QQuickPopup.overlayEvent (Scene.shownPopup Scene.pressOutsideBoth) Scene.overlayItem
      Scene.pressBesidePopup).1 = Scene.shownPopup Scene.pressOutsideBoth ∧
    (Scene.shownPopup { ClosePolicy.NoAutoClose with onPressOutside := true }).tryClose
        Scene.overlayItem Scene.pressBesidePopup =
      (QQuickPopup.close (Scene.shownPopup { ClosePolicy.NoAutoClose with onPressOutside := true }), true) := by
  decide!

/-! ## Placement: flip and shrink -/

/-- For a popup anchored in a window, `reposition` reaches `setPosition` with the
result of the flip statement applied to the pushed rectangle. -/
theorem QQuickPopupPrivate.repositionRect_anchored (d : QQuickPopupPrivate) (parentItem : QQuickItem)
    (window : QQuickWindow) (hp : d.parentItem = some parentItem)
    (hwin : parentItem.window = some window) :
    d.repositionRect =
      d.flipOrShrink parentItem (QQuickPopupPrivate.marginBounds window d.getMargins)
        (d.pushedRect parentItem window) := by
  simp only [QQuickPopupPrivate.repositionRect, hp, QQuickPopup.window, hwin,
    QQuickPopupPrivate.pushedRect]

/-- Pushing inside the margins keeps the width and the height. -/
theorem QQuickPopupPrivate.pushInside_size (m : QMarginsF) (b r : QRectF) :
    (QQuickPopupPrivate.pushInside m b r).w = r.w ∧ (QQuickPopupPrivate.pushInside m b r).h = r.h := by
  unfold QQuickPopupPrivate.pushInside
  simp only [QRectF.moveTop, QRectF.moveBottom, QRectF.moveLeft, QRectF.moveRight]
  split_ifs <;> exact ⟨rfl, rfl⟩

/-- C18: the flipped candidate of `reposition` is the anchor-mapped rectangle at
the local offset (x, parentHeight - y - height) with the width and height of the
candidate; and when the pushed rectangle overflows the top or bottom bound, the
flipped candidate is not taken and the implicit height is positive, the final
rectangle has the larger of the heights of the two intersections with the bounds
and its top at the top of the intersection that attains it, the flipped one on a
tie; `adjusted` is set and the popup item gets that height. -/
theorem flip_candidate_and_shrink (d : QQuickPopupPrivate) (parentItem : QQuickItem)
    (window : QQuickWindow) (hp : d.parentItem = some parentItem)
    (hwin : parentItem.window = some window) :
    d.flippedRect parentItem (d.pushedRect parentItem window) =
      parentItem.mapRectToScene
        ⟨d.x, parentItem.height - d.y - d.candidateRect.height, d.candidateRect.width,
          d.candidateRect.height⟩ ∧
    (((d.pushedRect parentItem window).top < (QQuickPopupPrivate.marginBounds window d.getMargins).top ∨
        (d.pushedRect parentItem window).bottom >
          (QQuickPopupPrivate.marginBounds window d.getMargins).bottom) →
      ¬ ((d.flippedRect parentItem (d.pushedRect parentItem window)).top ≥
            (QQuickPopupPrivate.marginBounds window d.getMargins).top ∧
          (d.flippedRect parentItem (d.pushedRect parentItem window)).bottom <
            (QQuickPopupPrivate.marginBounds window d.getMargins).bottom) →
      d.popupItem.implicitHeight > 0 →
      d.repositionRect.1.height =
          max ((d.pushedRect parentItem window).intersected
                (QQuickPopupPrivate.marginBounds window d.getMargins)).height
            ((d.flippedRect parentItem (d.pushedRect parentItem window)).intersected
                (QQuickPopupPrivate.marginBounds window d.getMargins)).height ∧
        d.repositionRect.1.top =
          (if ((d.pushedRect parentItem window).intersected
                  (QQuickPopupPrivate.marginBounds window d.getMargins)).height >
                ((d.flippedRect parentItem (d.pushedRect parentItem window)).intersected
                  (QQuickPopupPrivate.marginBounds window d.getMargins)).height then
              ((d.pushedRect parentItem window).intersected
                (QQuickPopupPrivate.marginBounds window d.getMargins)).top
            else
              ((d.flippedRect parentItem (d.pushedRect parentItem window)).intersected
                (QQuickPopupPrivate.marginBounds window d.getMargins)).top) ∧
        d.repositionRect.2 = true ∧
        d.reposition.popupItem.height = d.repositionRect.1.height ∧
        d.reposition.popupItem.y = d.repositionRect.1.top) := by
  constructor
  · obtain ⟨hw, hh⟩ := QQuickPopupPrivate.pushInside_size d.getMargins
      (QQuickPopupPrivate.marginBounds window d.getMargins) (parentItem.mapRectToScene d.candidateRect)
    unfold QQuickPopupPrivate.flippedRect QQuickPopupPrivate.pushedRect QRectF.height QRectF.width
    rw [hw, hh]
    rfl
  · intro hover hflip hih
    have hrr := QQuickPopupPrivate.repositionRect_anchored d parentItem window hp hwin
    have hres : d.repositionRect =
        (if ((d.pushedRect parentItem window).intersected
                (QQuickPopupPrivate.marginBounds window d.getMargins)).height >
              ((d.flippedRect parentItem (d.pushedRect parentItem window)).intersected
                (QQuickPopupPrivate.marginBounds window d.getMargins)).height then
            (((d.pushedRect parentItem window).setY
                ((d.pushedRect parentItem window).intersected
                  (QQuickPopupPrivate.marginBounds window d.getMargins)).y).setHeight
              ((d.pushedRect parentItem window).intersected
                (QQuickPopupPrivate.marginBounds window d.getMargins)).height, true)
          else
            (((d.pushedRect parentItem window).setY
                ((d.flippedRect parentItem (d.pushedRect parentItem window)).intersected
                  (QQuickPopupPrivate.marginBounds window d.getMargins)).y).setHeight
              ((d.flippedRect parentItem (d.pushedRect parentItem window)).intersected
                (QQuickPopupPrivate.marginBounds window d.getMargins)).height, true)) := by
      rw [hrr]
      unfold QQuickPopupPrivate.flipOrShrink
      rw [if_pos hover, if_neg hflip, if_pos hih]
    have hadj : d.repositionRect.2 = true := by
      rw [hres]; split_ifs <;> rfl
    have hheight : d.reposition.popupItem.height = d.repositionRect.1.height := by
      rw [QQuickPopupPrivate.reposition_eq]
      simp only [QRectF.height]
      rw [if_pos ⟨hadj, hih⟩]
    refine ⟨?_, ?_, hadj, hheight, QQuickPopupPrivate.reposition_popupItem_y d⟩
    · rw [hres]
      split_ifs with h
      · simp only [QRectF.setHeight, QRectF.height] at h ⊢
        exact (max_eq_left h.le).symm
      · simp only [QRectF.setHeight, QRectF.height] at h ⊢
        exact (max_eq_right (not_lt.mp h)).symm
    · rw [hres]
      split_ifs with h <;> simp only [QRectF.setHeight, QRectF.setY, QRectF.top, QRectF.y]

/-- Witness of `flip_candidate_and_shrink`: the example popup in the 250 x 250
window, whose pushed rectangle overflows and whose flipped rectangle does not fit. -/
theorem flip_candidate_and_shrink_witness :
    Scene.popup250.repositionRect.1.height =
      max ((Scene.popup250.pushedRect (Scene.anchor (Scene.window 250 250))
              (Scene.window 250 250)).intersected
            (QQuickPopupPrivate.marginBounds (Scene.window 250 250) Scene.popup250.getMargins)).height
        ((Scene.popup250.flippedRect (Scene.anchor (Scene.window 250 250))
              (Scene.popup250.pushedRect (Scene.anchor (Scene.window 250 250))
                (Scene.window 250 250))).intersected
            (QQuickPopupPrivate.marginBounds (Scene.window 250 250) Scene.popup250.getMargins)).height ∧
    Scene.popup250.repositionRect.2 = true :=
  ⟨((flip_candidate_and_shrink Scene.popup250 (Scene.anchor (Scene.window 250 250))
      (Scene.window 250 250) rfl rfl).2 (by decide!) (by decide!) (by decide!)).1,
    ((flip_candidate_and_shrink Scene.popup250 (Scene.anchor (Scene.window 250 250))
      (Scene.window 250 250) rfl rfl).2 (by decide!) (by decide!) (by decide!)).2.2.1⟩

/-- When the pushed rectangle overflows the top or bottom bound and the flipped
candidate has its top at or below the top bound and its bottom strictly above
the bottom bound, `reposition` places the popup item at the top-left corner of
the flipped candidate. -/
theorem QQuickPopupPrivate.reposition_takes_flipped (d : QQuickPopupPrivate) (parentItem : QQuickItem)
    (window : QQuickWindow) (hp : d.parentItem = some parentItem)
    (hwin : parentItem.window = some window)
    (hover : (d.pushedRect parentItem window).top <
        (QQuickPopupPrivate.marginBounds window d.getMargins).top ∨
      (d.pushedRect parentItem window).bottom >
        (QQuickPopupPrivate.marginBounds window d.getMargins).bottom)
    (hflip : (d.flippedRect parentItem (d.pushedRect parentItem window)).top ≥
        (QQuickPopupPrivate.marginBounds window d.getMargins).top ∧
      (d.flippedRect parentItem (d.pushedRect parentItem window)).bottom <
        (QQuickPopupPrivate.marginBounds window d.getMargins).bottom) :
    d.reposition.popupItem.x = (d.flippedRect parentItem (d.pushedRect parentItem window)).left ∧
    d.reposition.popupItem.y = (d.flippedRect parentItem (d.pushedRect parentItem window)).top := by
  have hrr : d.repositionRect = (d.flippedRect parentItem (d.pushedRect parentItem window), true) := by
    rw [QQuickPopupPrivate.repositionRect_anchored d parentItem window hp hwin]
    unfold QQuickPopupPrivate.flipOrShrink
    rw [if_pos hover, if_pos hflip]
  rw [QQuickPopupPrivate.reposition_popupItem_x, QQuickPopupPrivate.reposition_popupItem_y, hrr]
  exact ⟨rfl, rfl⟩

/-- C19 (evaluated at the failing input): the popup of width 50 and height 100
without implicit size, at y = 300 under an anchor of height 500 in the 300 x 200
window with bottom margin 0. Its rectangle (100,300,50,100) overflows the bottom
bound 200; the flipped candidate (100,100,50,100) has its top below the top bound
10 and its bottom at the bottom bound 200, so it fits; but it is not taken and the
popup item stays at (100, 300), not at the corner (100, 100) of the flipped candidate. -/
theorem flipped_touching_bottom_bound_is_not_taken :
    ((Scene.lowPlainPopup.pushedRect (Scene.tallAnchor (Scene.window 300 200))
          (Scene.window 300 200)).bottom >
        (QQuickPopupPrivate.marginBounds (Scene.window 300 200) Scene.lowPlainPopup.getMargins).bottom ∧
     (Scene.lowPlainPopup.flippedRect (Scene.tallAnchor (Scene.window 300 200))
          (Scene.lowPlainPopup.pushedRect (Scene.tallAnchor (Scene.window 300 200))
            (Scene.window 300 200))).top ≥
        (QQuickPopupPrivate.marginBounds (Scene.window 300 200) Scene.lowPlainPopup.getMargins).top ∧
     (Scene.lowPlainPopup.flippedRect (Scene.tallAnchor (Scene.window 300 200))
          (Scene.lowPlainPopup.pushedRect (Scene.tallAnchor (Scene.window 300 200))
            (Scene.window 300 200))).bottom ≤
        (QQuickPopupPrivate.marginBounds (Scene.window 300 200) Scene.lowPlainPopup.getMargins).bottom) ∧
    (Scene.lowPlainPopup.flippedRect (Scene.tallAnchor (Scene.window 300 200))
        (Scene.lowPlainPopup.pushedRect (Scene.tallAnchor (Scene.window 300 200))
          (Scene.window 300 200))).topLeft = ⟨100, 100⟩ ∧
    Scene.lowPlainPopup.reposition.popupItem.x = 100 ∧
    Scene.lowPlainPopup.reposition.popupItem.y = 300 := by
  decide!

/-- C20: `reposition` never changes the width of the popup item; with implicit
height at most 0 it never changes the height; whenever it changes the height,
the implicit height is positive and the flip branch was taken (the popup is
anchored in a window and the pushed rectangle overflows the top or bottom
bound); and with implicit height at most 0, when the pushed rectangle overflows
and the flipped candidate is not taken, the popup item is put at the top-left
corner of the pushed rectangle. -/
theorem no_adjustment_without_implicit_height (d : QQuickPopupPrivate) :
    d.reposition.popupItem.width = d.popupItem.width ∧
    (d.popupItem.implicitHeight ≤ 0 → d.reposition.popupItem.height = d.popupItem.height) ∧
    (d.reposition.popupItem.height ≠ d.popupItem.height →
      d.popupItem.implicitHeight > 0 ∧
      ∃ parentItem window, d.parentItem = some parentItem ∧ parentItem.window = some window ∧
        ((d.pushedRect parentItem window).top <
            (QQuickPopupPrivate.marginBounds window d.getMargins).top ∨
          (d.pushedRect parentItem window).bottom >
            (QQuickPopupPrivate.marginBounds window d.getMargins).bottom)) ∧
    (∀ parentItem window, d.parentItem = some parentItem → parentItem.window = some window →
      d.popupItem.implicitHeight ≤ 0 →
      ((d.pushedRect parentItem window).top <
          (QQuickPopupPrivate.marginBounds window d.getMargins).top ∨
        (d.pushedRect parentItem window).bottom >
          (QQuickPopupPrivate.marginBounds window d.getMargins).bottom) →
      ¬ ((d.flippedRect parentItem (d.pushedRect parentItem window)).top ≥
            (QQuickPopupPrivate.marginBounds window d.getMargins).top ∧
          (d.flippedRect parentItem (d.pushedRect parentItem window)).bottom <
            (QQuickPopupPrivate.marginBounds window d.getMargins).bottom) →
      d.reposition.popupItem.x = (d.pushedRect parentItem window).left ∧
      d.reposition.popupItem.y = (d.pushedRect parentItem window).top) := by
  refine ⟨?_, ?_, ?_, ?_⟩
  · rw [QQuickPopupPrivate.reposition_eq]
  · intro hih
    rw [QQuickPopupPrivate.reposition_eq]
    simp only
    rw [if_neg (fun h => absurd h.2 (not_lt.mpr hih))]
  · intro hne
    rw [QQuickPopupPrivate.reposition_eq] at hne
    simp only at hne
    by_cases hc : d.repositionRect.2 = true ∧ d.popupItem.implicitHeight > 0
    · refine ⟨hc.2, ?_⟩
      cases hpi : d.parentItem with
      | none =>
        have : d.repositionRect.2 = false := by
          simp only [QQuickPopupPrivate.repositionRect, hpi]
        rw [this] at hc
        exact absurd hc.1 (by simp)
      | some parentItem =>
        cases hw : parentItem.window with
        | none =>
          have : d.repositionRect.2 = false := by
            simp only [QQuickPopupPrivate.repositionRect, hpi, QQuickPopup.window, hw]
          rw [this] at hc
          exact absurd hc.1 (by simp)
        | some window =>
          refine ⟨parentItem, window, rfl, hw, ?_⟩
          by_contra hno
          have : d.repositionRect.2 = false := by
            rw [QQuickPopupPrivate.repositionRect_anchored d parentItem window hpi hw]
            unfold QQuickPopupPrivate.flipOrShrink
            rw [if_neg hno]
          rw [this] at hc
          exact absurd hc.1 (by simp)
    · rw [if_neg hc] at hne
      exact absurd rfl hne
  · intro parentItem window hp hwin hih hover hflip
    have hrr : d.repositionRect = (d.pushedRect parentItem window, false) := by
      rw [QQuickPopupPrivate.repositionRect_anchored d parentItem window hp hwin]
      unfold QQuickPopupPrivate.flipOrShrink
      rw [if_pos hover, if_neg hflip, if_neg (not_lt.mpr hih)]
    rw [QQuickPopupPrivate.reposition_popupItem_x, QQuickPopupPrivate.reposition_popupItem_y, hrr]
    exact ⟨rfl, rfl⟩

/-- Witness of `no_adjustment_without_implicit_height`: the popup without implicit
size whose rectangle overflows the bottom bound stays at the pushed rectangle with
its height, and the popup in the 250 x 250 window, whose height changes, has a
positive implicit height. -/
theorem no_adjustment_without_implicit_height_witness :
    Scene.lowPlainPopup.reposition.popupItem.height = Scene.lowPlainPopup.popupItem.height ∧
    (Scene.lowPlainPopup.reposition.popupItem.x =
        (Scene.lowPlainPopup.pushedRect (Scene.tallAnchor (Scene.window 300 200))
          (Scene.window 300 200)).left ∧
      Scene.lowPlainPopup.reposition.popupItem.y =
        (Scene.lowPlainPopup.pushedRect (Scene.tallAnchor (Scene.window 300 200))
          (Scene.window 300 200)).top) ∧
    Scene.popup250.popupItem.implicitHeight > 0 :=
  ⟨(no_adjustment_without_implicit_height Scene.lowPlainPopup).2.1 (by decide!),
    (no_adjustment_without_implicit_height Scene.lowPlainPopup).2.2.2
      (Scene.tallAnchor (Scene.window 300 200)) (Scene.window 300 200) rfl rfl (by decide!)
      (by decide!) (by decide!),
    ((no_adjustment_without_implicit_height Scene.popup250).2.2.1 (by decide!)).1⟩

/-! ## Key handling -/

/-- C11: `keyPressEvent` always leaves the key event accepted; the popup after the
call is `close()` applied to it when the key is Escape and the close policy
contains `OnEscape`, and is the popup unchanged otherwise. In particular, with
the default policy of a new popup Escape calls `close()`, and with `NoAutoClose`
no key changes the popup. -/
theorem escape_handling (d : QQuickPopupPrivate) (activeFocus : Bool) (event : QKeyEvent)
    (accepted : Bool) (parent : Option QQuickItem) :
    (QQuickPopup.keyPressEvent d activeFocus event).2.1.accepted = true ∧
    (QQuickPopup.keyPressEvent d activeFocus event).1 =
      (if event.key = QtKey.Key_Escape ∧ d.closePolicy.testFlag ClosePolicyFlag.OnEscape = true then
        QQuickPopup.close d
      else d) ∧
    (QQuickPopup.create parent).closePolicy =
      { ClosePolicy.NoAutoClose with onEscape := true, onPressOutside := true } ∧
    (QQuickPopup.keyPressEvent { d with closePolicy := (QQuickPopup.create parent).closePolicy }
        activeFocus ⟨QtKey.Key_Escape, accepted⟩).1 =
      QQuickPopup.close { d with closePolicy := (QQuickPopup.create parent).closePolicy } ∧
    (QQuickPopup.keyPressEvent { d with closePolicy := ClosePolicy.NoAutoClose } activeFocus event).1 =
      { d with closePolicy := ClosePolicy.NoAutoClose } := by
  refine ⟨?_, ?_, rfl, ?_, ?_⟩
  · unfold QQuickPopup.keyPressEvent
    dsimp only
    split_ifs <;> rfl
  · unfold QQuickPopup.keyPressEvent
    dsimp only [QKeyEvent.accept]
    by_cases hk : event.key = QtKey.Key_Escape
    · by_cases hp : d.closePolicy.testFlag ClosePolicyFlag.OnEscape = true
      · simp [hk, hp]
      · simp [hk, hp]
    · simp [hk]
  · simp [QQuickPopup.keyPressEvent, QKeyEvent.accept, QQuickPopup.create, ClosePolicy.testFlag]
  · unfold QQuickPopup.keyPressEvent
    dsimp only [QKeyEvent.accept]
    by_cases hk : event.key = QtKey.Key_Escape
    · simp [hk, ClosePolicy.testFlag, ClosePolicy.NoAutoClose]
    · simp [hk]

/-! ## Overlay: frame lemmas -/

@[simp] theorem OverlayScene.setPopup_overlay (s : OverlayScene) (p : Nat) (o : QQuickPopup) :
    (s.setPopup p o).overlay = s.overlay := rfl

@[simp] theorem OverlayScene.setPopup_offered (s : OverlayScene) (p : Nat) (o : QQuickPopup) :
    (s.setPopup p o).offered = s.offered := rfl

@[simp] theorem OverlayScene.setPopup_popup_self (s : OverlayScene) (p : Nat) (o : QQuickPopup) :
    (s.setPopup p o).popup p = o := by
  simp [OverlayScene.setPopup]

theorem OverlayScene.setPopup_popup_ne (s : OverlayScene) (p q : Nat) (o : QQuickPopup) (h : q ≠ p) :
    (s.setPopup p o).popup q = s.popup q := by
  simp [OverlayScene.setPopup, h]

/-- The list produced by `stackBefore` is empty only when the given list is. -/
theorem stackBefore_eq_nil (l : List OverlayChild) (me sibling : OverlayChild) :
    stackBefore l me sibling = [] ↔ l = [] := by
  unfold stackBefore
  split_ifs with h
  · rfl
  · constructor
    · intro h'
      simp at h'
    · intro h'
      subst h'
      simp at h

/-- `stackBefore` reorders the children: no child is added or lost. -/
theorem stackBefore_perm (l : List OverlayChild) (me sibling : OverlayChild) :
    (stackBefore l me sibling).Perm l := by
  unfold stackBefore
  split_ifs with h
  · exact List.Perm.refl _
  · have hme : me ∈ l := by
      by_contra hc
      exact h (Or.inr (Or.inl hc))
    refine List.Perm.trans ?_ (List.perm_cons_erase hme).symm
    refine List.Perm.trans List.perm_middle ?_
    rw [List.takeWhile_append_dropWhile]

theorem popupsOf_erase_dimmer (l : List OverlayChild) (p : Nat) :
    popupsOf (l.erase (.dimmer p)) = popupsOf l := by
  induction l with
  | nil => rfl
  | cons a l ih =>
    by_cases h : a = .dimmer p
    · subst h
      simp [popupsOf]
    · rw [List.erase_cons_tail (by simpa using h)]
      cases a <;> simp [popupsOf] at ih ⊢ <;> exact ih

theorem popupsOf_stackBefore_dimmer (l : List OverlayChild) (p : Nat) (sibling : OverlayChild) :
    popupsOf (stackBefore l (.dimmer p) sibling) = popupsOf l := by
  unfold stackBefore
  split_ifs with h
  · rfl
  · have h1 : popupsOf ((l.erase (.dimmer p)).takeWhile (fun c => decide (c ≠ sibling)) ++
        .dimmer p :: (l.erase (.dimmer p)).dropWhile (fun c => decide (c ≠ sibling))) =
        popupsOf ((l.erase (.dimmer p)).takeWhile (fun c => decide (c ≠ sibling)) ++
          (l.erase (.dimmer p)).dropWhile (fun c => decide (c ≠ sibling))) := by
      simp only [popupsOf, List.filterMap_append, List.filterMap_cons]
    rw [h1, List.takeWhile_append_dropWhile, popupsOf_erase_dimmer]

theorem popupsOf_erase_popupItem (l : List OverlayChild) (p : Nat) :
    popupsOf (l.erase (.popupItem p)) = (popupsOf l).erase p := by
  induction l with
  | nil => rfl
  | cons a l ih =>
    by_cases h : a = .popupItem p
    · subst h
      simp [popupsOf]
    · rw [List.erase_cons_tail (by simpa using h)]
      cases a with
      | popupItem q =>
        have hq : q ≠ p := fun e => h (by rw [e])
        simp only [popupsOf, List.filterMap_cons] at ih ⊢
        rw [List.erase_cons_tail (by simpa using hq), ih]
      | dimmer q => simpa [popupsOf] using ih
      | other i z => simpa [popupsOf] using ih

theorem mem_popupsOf (l : List OverlayChild) (p : Nat) :
    p ∈ popupsOf l ↔ OverlayChild.popupItem p ∈ l := by
  unfold popupsOf
  rw [List.mem_filterMap]
  constructor
  · rintro ⟨a, ha, h⟩
    cases a <;> simp at h
    subst h
    exact ha
  · intro h
    exact ⟨_, h, rfl⟩

theorem OverlayScene.SameButDimmers.refl (s : OverlayScene) : s.SameButDimmers s :=
  ⟨rfl, rfl, rfl, rfl, rfl, rfl, rfl, rfl, rfl, rfl, fun _ => rfl, fun _ => rfl, fun _ => rfl, rfl⟩

theorem OverlayScene.SameButDimmers.trans {s t u : OverlayScene} (h1 : s.SameButDimmers t)
    (h2 : t.SameButDimmers u) : s.SameButDimmers u :=
  ⟨h2.modal.trans h1.modal, h2.modeless.trans h1.modeless, h2.drawers.trans h1.drawers,
    h2.popups.trans h1.popups, h2.mouseGrabberPopup.trans h1.mouseGrabberPopup,
    h2.modalPopups.trans h1.modalPopups, h2.width.trans h1.width, h2.height.trans h1.height,
    h2.emitted.trans h1.emitted, h2.offered.trans h1.offered, fun q => (h2.d q).trans (h1.d q),
    fun q => (h2.drawer q).trans (h1.drawer q), fun q => (h2.dim q).trans (h1.dim q),
    h2.attached.trans h1.attached⟩

/-- Writing a popup object that differs in the dimmer only keeps the scene the same
but for dimmers. -/
theorem OverlayScene.setPopup_dimmer_same (s : OverlayScene) (p : Nat) (dimmer : Option Dimmer) :
    s.SameButDimmers (s.setPopup p { s.popup p with dimmer := dimmer }) := by
  refine ⟨rfl, rfl, rfl, rfl, rfl, rfl, rfl, rfl, rfl, rfl, ?_, ?_, ?_, rfl⟩ <;>
  · intro q
    by_cases h : q = p
    · subst h
      simp
    · simp [OverlayScene.setPopup_popup_ne _ _ _ _ h]

/-- Changing the places of dimmers among the children keeps the scene the same but
for dimmers. -/
theorem OverlayScene.children_same (s : OverlayScene) (l : List OverlayChild) (v : Bool)
    (h : popupsOf l = popupsOf s.overlay.childItems) :
    s.SameButDimmers { s with overlay := { s.overlay with childItems := l, visible := v } } :=
  ⟨rfl, rfl, rfl, rfl, rfl, rfl, rfl, rfl, rfl, rfl, fun _ => rfl, fun _ => rfl, fun _ => rfl, h⟩

theorem QQuickOverlayPrivate.resizeOverlay_same (s : OverlayScene) (p : Nat) :
    s.SameButDimmers (QQuickOverlayPrivate.resizeOverlay s p) := by
  unfold QQuickOverlayPrivate.resizeOverlay
  split
  · exact OverlayScene.setPopup_dimmer_same s p _
  · exact OverlayScene.SameButDimmers.refl s

theorem QQuickOverlayPrivate.destroyOverlay_same (s : OverlayScene) (p : Nat) :
    s.SameButDimmers (QQuickOverlayPrivate.destroyOverlay s p) := by
  unfold QQuickOverlayPrivate.destroyOverlay
  split
  · refine OverlayScene.SameButDimmers.trans
      (OverlayScene.children_same s (s.overlay.childItems.erase (.dimmer p))
        (!(s.overlay.childItems.erase (.dimmer p)).isEmpty) (popupsOf_erase_dimmer _ _)) ?_
    exact OverlayScene.setPopup_dimmer_same _ p none
  · exact OverlayScene.SameButDimmers.refl s

theorem QQuickOverlayPrivate.createDimmer_same (s : OverlayScene) (c : Option QQmlComponent)
    (p : Nat) : s.SameButDimmers (QQuickOverlayPrivate.createDimmer s c p).1 := by
  unfold QQuickOverlayPrivate.createDimmer
  simp only
  split
  · exact OverlayScene.SameButDimmers.refl s
  · refine OverlayScene.children_same s _ _ ?_
    simp only [QQuickOverlayPrivate.childItemsChanged]
    rw [popupsOf_stackBefore_dimmer]
    simp [popupsOf]

theorem QQuickOverlayPrivate.createOverlay_same (s : OverlayScene) (p : Nat) :
    s.SameButDimmers (QQuickOverlayPrivate.createOverlay s p) := by
  unfold QQuickOverlayPrivate.createOverlay
  simp only
  refine OverlayScene.SameButDimmers.trans ?_ (QQuickOverlayPrivate.resizeOverlay_same _ p)
  split
  · exact OverlayScene.SameButDimmers.refl s
  · exact OverlayScene.SameButDimmers.trans (QQuickOverlayPrivate.createDimmer_same s _ p)
      (OverlayScene.setPopup_dimmer_same _ p _)

theorem QQuickOverlayPrivate.toggleOverlay_same (s : OverlayScene) (sender : Option Nat) :
    s.SameButDimmers (QQuickOverlayPrivate.toggleOverlay s sender) := by
  unfold QQuickOverlayPrivate.toggleOverlay
  split
  · exact OverlayScene.SameButDimmers.refl s
  · simp only
    split
    · exact OverlayScene.SameButDimmers.trans (QQuickOverlayPrivate.destroyOverlay_same s _)
        (QQuickOverlayPrivate.createOverlay_same _ _)
    · exact QQuickOverlayPrivate.destroyOverlay_same s _

theorem QQuickOverlayPrivate.popupAboutToHide_same (s : OverlayScene) (sender : Option Nat) :
    s.SameButDimmers (QQuickOverlayPrivate.popupAboutToHide s sender) := by
  unfold QQuickOverlayPrivate.popupAboutToHide
  split
  · exact OverlayScene.SameButDimmers.refl s
  · split
    · exact OverlayScene.SameButDimmers.refl s
    · split
      · exact OverlayScene.setPopup_dimmer_same s _ _
      · exact OverlayScene.SameButDimmers.refl s

/-! ## Overlay: the visible flag -/

theorem QQuickOverlayPrivate.resizeOverlay_overlay (s : OverlayScene) (p : Nat) :
    (QQuickOverlayPrivate.resizeOverlay s p).overlay = s.overlay := by
  unfold QQuickOverlayPrivate.resizeOverlay
  split <;> rfl

theorem QQuickOverlayPrivate.destroyOverlay_visible (s : OverlayScene) (p : Nat)
    (h : s.overlay.visible = !s.overlay.childItems.isEmpty) :
    (QQuickOverlayPrivate.destroyOverlay s p).overlay.visible =
      !(QQuickOverlayPrivate.destroyOverlay s p).overlay.childItems.isEmpty := by
  unfold QQuickOverlayPrivate.destroyOverlay
  split
  · rfl
  · exact h

theorem QQuickOverlayPrivate.createDimmer_visible (s : OverlayScene) (c : Option QQmlComponent)
    (p : Nat) (h : s.overlay.visible = !s.overlay.childItems.isEmpty) :
    (QQuickOverlayPrivate.createDimmer s c p).1.overlay.visible =
      !(QQuickOverlayPrivate.createDimmer s c p).1.overlay.childItems.isEmpty := by
  unfold QQuickOverlayPrivate.createDimmer
  simp only
  split
  · exact h
  · simp only [QQuickOverlayPrivate.childItemsChanged]
    have hne : stackBefore (s.overlay.childItems ++ [OverlayChild.dimmer p]) (OverlayChild.dimmer p)
        (OverlayChild.popupItem p) ≠ [] := by
      rw [Ne, stackBefore_eq_nil]
      simp
    cases hl : stackBefore (s.overlay.childItems ++ [OverlayChild.dimmer p]) (OverlayChild.dimmer p)
        (OverlayChild.popupItem p) with
    | nil => exact absurd hl hne
    | cons a l => simp

theorem QQuickOverlayPrivate.createOverlay_visible (s : OverlayScene) (p : Nat)
    (h : s.overlay.visible = !s.overlay.childItems.isEmpty) :
    (QQuickOverlayPrivate.createOverlay s p).overlay.visible =
      !(QQuickOverlayPrivate.createOverlay s p).overlay.childItems.isEmpty := by
  unfold QQuickOverlayPrivate.createOverlay
  simp only [QQuickOverlayPrivate.resizeOverlay_overlay]
  split
  · exact h
  · exact QQuickOverlayPrivate.createDimmer_visible s _ p h

/-- The visible flag after a child was added or removed. -/
theorem QQuickOverlay.itemChange_visible (s : OverlayScene) (change : ItemChange)
    (item : OverlayChild)
    (h : change = ItemChange.ItemChildAddedChange ∨ change = ItemChange.ItemChildRemovedChange) :
    (QQuickOverlay.itemChange s change item).overlay.visible =
      !(QQuickOverlay.itemChange s change item).overlay.childItems.isEmpty := by
  unfold QQuickOverlay.itemChange
  rw [if_pos h]
  have h0 : (QQuickOverlayPrivate.childItemsChanged s).overlay.visible =
      !(QQuickOverlayPrivate.childItemsChanged s).overlay.childItems.isEmpty := rfl
  cases item with
  | popupItem popup =>
    simp only
    split_ifs
    all_goals first
      | exact QQuickOverlayPrivate.createOverlay_visible _ popup h0
      | exact QQuickOverlayPrivate.destroyOverlay_visible _ popup h0
      | exact h0
  | dimmer q => exact h0
  | other i z => exact h0

/-- C17: after a child-added and after a child-removed change handled by
`QQuickOverlay::itemChange` (and so after `addChild` and `removeChild`), the
overlay is visible exactly when its list of child items is not empty; the overlay
made by the constructor has no children and is not visible. -/
theorem overlay_visible_iff_it_has_children :
    (∀ (s : OverlayScene) (item : OverlayChild),
        (QQuickOverlay.itemChange s ItemChange.ItemChildAddedChange item).overlay.visible =
            !(QQuickOverlay.itemChange s ItemChange.ItemChildAddedChange item).overlay.childItems.isEmpty ∧
          (QQuickOverlay.itemChange s ItemChange.ItemChildRemovedChange item).overlay.visible =
            !(QQuickOverlay.itemChange s ItemChange.ItemChildRemovedChange item).overlay.childItems.isEmpty ∧
          (QQuickOverlay.addChild s item).overlay.visible =
            !(QQuickOverlay.addChild s item).overlay.childItems.isEmpty ∧
          (QQuickOverlay.removeChild s item).overlay.visible =
            !(QQuickOverlay.removeChild s item).overlay.childItems.isEmpty) ∧
      (∀ width height : ℚ,
        (QQuickOverlay.create width height).visible = false ∧
          (QQuickOverlay.create width height).childItems = []) := by
  refine ⟨fun s item => ⟨?_, ?_, ?_, ?_⟩, fun _ _ => ⟨rfl, rfl⟩⟩
  · exact QQuickOverlay.itemChange_visible s _ item (Or.inl rfl)
  · exact QQuickOverlay.itemChange_visible s _ item (Or.inr rfl)
  · exact QQuickOverlay.itemChange_visible _ _ item (Or.inl rfl)
  · exact QQuickOverlay.itemChange_visible _ _ item (Or.inr rfl)

/-! ## Overlay: the effect of attaching and detaching -/

/-- Modal flag and drawer test of every popup, and the attached popups, decide
the number of attached modal popups. -/
theorem OverlayScene.attachedModalCount_congr (s t : OverlayScene)
    (hd : ∀ q, (t.popup q).d.modal = (s.popup q).d.modal)
    (hdrawer : ∀ q, (t.popup q).drawer = (s.popup q).drawer)
    (hattached : t.attachedPopups = s.attachedPopups) :
    t.attachedModalCount = s.attachedModalCount := by
  unfold OverlayScene.attachedModalCount
  rw [hattached]
  congr 2
  funext q
  rw [hd, hdrawer]

theorem OverlayScene.SameButDimmers.attachedModalCount {s t : OverlayScene}
    (h : s.SameButDimmers t) : t.attachedModalCount = s.attachedModalCount :=
  OverlayScene.attachedModalCount_congr s t (fun q => by rw [h.d q]) h.drawer h.attached

theorem OverlayScene.SameButDimmers.withDrawers {s t : OverlayScene} (h : s.SameButDimmers t)
    (f : List Nat → List Nat) :
    OverlayScene.SameButDimmers { s with overlay := { s.overlay with drawers := f s.overlay.drawers } }
      { t with overlay := { t.overlay with drawers := f t.overlay.drawers } } :=
  ⟨h.modal, h.modeless, congrArg f h.drawers, h.popups, h.mouseGrabberPopup, h.modalPopups, h.width,
    h.height, h.emitted, h.offered, h.d, h.drawer, h.dim, h.attached⟩

theorem OverlayScene.SameButDimmers.withModalPopups {s t : OverlayScene} (h : s.SameButDimmers t)
    (f : Int → Int) :
    OverlayScene.SameButDimmers
      { s with overlay := { s.overlay with modalPopups := f s.overlay.modalPopups } }
      { t with overlay := { t.overlay with modalPopups := f t.overlay.modalPopups } } :=
  ⟨h.modal, h.modeless, h.drawers, h.popups, h.mouseGrabberPopup, congrArg f h.modalPopups, h.width,
    h.height, h.emitted, h.offered, h.d, h.drawer, h.dim, h.attached⟩

/-- The end of the child-added branch of `itemChange`, for a scene `x`. -/
theorem QQuickOverlay.added_tail_same {s t : OverlayScene} (h : s.SameButDimmers t) (p : Nat) :
    OverlayScene.SameButDimmers
      (if (s.popup p).drawer then
        { s with overlay := { s.overlay with drawers := s.overlay.drawers ++ [p] } }
      else if (s.popup p).d.modal then
        { s with overlay := { s.overlay with modalPopups := s.overlay.modalPopups + 1 } }
      else s)
      (if (t.popup p).drawer then
        { t with overlay := { t.overlay with drawers := t.overlay.drawers ++ [p] } }
      else if (t.popup p).d.modal then
        { t with overlay := { t.overlay with modalPopups := t.overlay.modalPopups + 1 } }
      else t) := by
  rw [h.drawer p, h.d p]
  split_ifs
  · exact h.withDrawers (fun l => l ++ [p])
  · exact h.withModalPopups (fun n => n + 1)
  · exact h

/-- The end of the child-removed branch of `itemChange`, for a scene `x`. -/
theorem QQuickOverlay.removed_tail_same {s t : OverlayScene} (h : s.SameButDimmers t) (p : Nat) :
    OverlayScene.SameButDimmers
      (if (s.popup p).drawer then
        { s with overlay := { s.overlay with drawers := s.overlay.drawers.erase p } }
      else if (s.popup p).d.modal then
        { s with overlay := { s.overlay with modalPopups := s.overlay.modalPopups - 1 } }
      else s)
      (if (t.popup p).drawer then
        { t with overlay := { t.overlay with drawers := t.overlay.drawers.erase p } }
      else if (t.popup p).d.modal then
        { t with overlay := { t.overlay with modalPopups := t.overlay.modalPopups - 1 } }
      else t) := by
  rw [h.drawer p, h.d p]
  split_ifs
  · exact h.withDrawers (fun l => l.erase p)
  · exact h.withModalPopups (fun n => n - 1)
  · exact h

theorem QQuickOverlay.itemChange_added_same (s : OverlayScene) (p : Nat) :
    (s.addedBase p).SameButDimmers
      (QQuickOverlay.itemChange s ItemChange.ItemChildAddedChange (.popupItem p)) := by
  have h2 : ∀ s2 : OverlayScene, s2.SameButDimmers
      (if (s2.popup p).dim then QQuickOverlayPrivate.createOverlay s2 p else s2) := by
    intro s2
    split_ifs
    · exact QQuickOverlayPrivate.createOverlay_same s2 p
    · exact OverlayScene.SameButDimmers.refl s2
  have h3 := QQuickOverlay.added_tail_same (h2
    { s with
      overlay :=
        { s.overlay with
          visible := !s.overlay.childItems.isEmpty
          popups := s.overlay.popups ++ [p] } }) p
  have h4 : s.addedBase p =
      (if (s.popup p).drawer then
        { s with
          overlay :=
            { s.overlay with
              visible := !s.overlay.childItems.isEmpty
              popups := s.overlay.popups ++ [p]
              drawers := s.overlay.drawers ++ [p] } }
      else if (s.popup p).d.modal then
        { s with
          overlay :=
            { s.overlay with
              visible := !s.overlay.childItems.isEmpty
              popups := s.overlay.popups ++ [p]
              modalPopups := s.overlay.modalPopups + 1 } }
      else
        { s with
          overlay :=
            { s.overlay with
              visible := !s.overlay.childItems.isEmpty
              popups := s.overlay.popups ++ [p] } }) := by
    unfold OverlayScene.addedBase
    cases (s.popup p).drawer <;> cases (s.popup p).d.modal <;> simp
  rw [h4]
  exact h3

theorem QQuickOverlay.itemChange_removed_same (s : OverlayScene) (p : Nat) :
    (s.removedBase p).SameButDimmers
      (QQuickOverlay.itemChange s ItemChange.ItemChildRemovedChange (.popupItem p)) := by
  have h3 := QQuickOverlay.removed_tail_same (QQuickOverlayPrivate.destroyOverlay_same
    { s with
      overlay :=
        { s.overlay with
          visible := !s.overlay.childItems.isEmpty
          popups := s.overlay.popups.erase p } } p) p
  have h4 : s.removedBase p =
      (if (s.popup p).drawer then
        { s with
          overlay :=
            { s.overlay with
              visible := !s.overlay.childItems.isEmpty
              popups := s.overlay.popups.erase p
              drawers := s.overlay.drawers.erase p } }
      else if (s.popup p).d.modal then
        { s with
          overlay :=
            { s.overlay with
              visible := !s.overlay.childItems.isEmpty
              popups := s.overlay.popups.erase p
              modalPopups := s.overlay.modalPopups - 1 } }
      else
        { s with
          overlay :=
            { s.overlay with
              visible := !s.overlay.childItems.isEmpty
              popups := s.overlay.popups.erase p } }) := by
    unfold OverlayScene.removedBase
    cases (s.popup p).drawer <;> cases (s.popup p).d.modal <;> simp
  rw [h4]
  exact h3

theorem QQuickOverlay.addChild_same (s : OverlayScene) (p : Nat) :
    (s.attachBase p).SameButDimmers (QQuickOverlay.addChild s (.popupItem p)) :=
  QQuickOverlay.itemChange_added_same _ p

theorem QQuickOverlay.removeChild_same (s : OverlayScene) (p : Nat) :
    (s.detachBase p).SameButDimmers (QQuickOverlay.removeChild s (.popupItem p)) :=
  QQuickOverlay.itemChange_removed_same _ p

/-! ## Overlay: the counter of modal popups -/

theorem List.length_filter_erase_add (f : Nat → Bool) (l : List Nat) (p : Nat) (h : p ∈ l) :
    ((l.erase p).filter f).length + (if f p then 1 else 0) = (l.filter f).length := by
  induction l with
  | nil => simp at h
  | cons a l ih =>
    by_cases hap : a = p
    · subst hap
      simp only [List.erase_cons_head, List.filter_cons]
      split_ifs <;> simp
    · have hp : p ∈ l := by
        rcases List.mem_cons.1 h with h1 | h1
        · exact absurd h1.symm hap
        · exact h1
      rw [List.erase_cons_tail (by simpa using hap)]
      simp only [List.filter_cons]
      have := ih hp
      split_ifs at this ⊢ <;> (try simp only [List.length_cons] at this ⊢) <;> omega

theorem OverlayScene.attachedPopups_eq (s : OverlayScene) :
    s.attachedPopups = popupsOf s.overlay.childItems := rfl

theorem OverlayScene.attachedModalCount_congr_mem (s t : OverlayScene)
    (hd : ∀ q ∈ s.attachedPopups, (t.popup q).d.modal = (s.popup q).d.modal)
    (hdrawer : ∀ q ∈ s.attachedPopups, (t.popup q).drawer = (s.popup q).drawer)
    (hattached : t.attachedPopups = s.attachedPopups) :
    t.attachedModalCount = s.attachedModalCount := by
  unfold OverlayScene.attachedModalCount
  rw [hattached]
  congr 1
  apply List.filter_congr
  intro q hq
  rw [hd q hq, hdrawer q hq]

theorem OverlayScene.attachBase_modalPopups (s : OverlayScene) (p : Nat) :
    (s.attachBase p).overlay.modalPopups =
      s.overlay.modalPopups + (if (s.popup p).d.modal && !(s.popup p).drawer then 1 else 0) := by
  unfold OverlayScene.attachBase OverlayScene.addedBase
  cases (s.popup p).drawer <;> cases (s.popup p).d.modal <;> simp

theorem OverlayScene.attachBase_attachedModalCount (s : OverlayScene) (p : Nat) :
    (s.attachBase p).attachedModalCount =
      s.attachedModalCount + (if (s.popup p).d.modal && !(s.popup p).drawer then 1 else 0) := by
  unfold OverlayScene.attachedModalCount OverlayScene.attachedPopups OverlayScene.attachBase
    OverlayScene.addedBase
  simp only [List.filterMap_append, List.filterMap_cons, List.filterMap_nil, List.filter_append,
    List.length_append, List.filter_cons, List.filter_nil]
  split_ifs <;> rfl

theorem OverlayScene.detachBase_modalPopups (s : OverlayScene) (p : Nat) :
    (s.detachBase p).overlay.modalPopups =
      s.overlay.modalPopups - (if (s.popup p).d.modal && !(s.popup p).drawer then 1 else 0) := by
  unfold OverlayScene.detachBase OverlayScene.removedBase
  cases (s.popup p).drawer <;> cases (s.popup p).d.modal <;> simp

theorem OverlayScene.detachBase_attachedModalCount (s : OverlayScene) (p : Nat)
    (hp : p ∈ s.attachedPopups) :
    (s.detachBase p).attachedModalCount +
        (if (s.popup p).d.modal && !(s.popup p).drawer then 1 else 0) = s.attachedModalCount := by
  have h := List.length_filter_erase_add (fun q => (s.popup q).d.modal && !(s.popup q).drawer)
    s.attachedPopups p hp
  have h2 : (s.detachBase p).attachedModalCount =
      ((s.attachedPopups.erase p).filter
        (fun q => (s.popup q).d.modal && !(s.popup q).drawer)).length := by
    unfold OverlayScene.attachedModalCount
    rw [OverlayScene.attachedPopups_eq, OverlayScene.attachedPopups_eq]
    simp only [OverlayScene.detachBase, OverlayScene.removedBase]
    rw [popupsOf_erase_popupItem]
  rw [h2]
  exact h

theorem OverlayScene.attach_modalPopups (s : OverlayScene) (p : Nat)
    (h : s.overlay.modalPopups = s.attachedModalCount) :
    (s.attach p).overlay.modalPopups = (s.attach p).attachedModalCount := by
  unfold OverlayScene.attach
  split_ifs with hc
  · exact h
  · have hs := QQuickOverlay.addChild_same s p
    rw [hs.modalPopups, hs.attachedModalCount, OverlayScene.attachBase_modalPopups,
      OverlayScene.attachBase_attachedModalCount, h]
    split_ifs <;> simp

theorem OverlayScene.detach_modalPopups (s : OverlayScene) (p : Nat)
    (h : s.overlay.modalPopups = s.attachedModalCount) :
    (s.detach p).overlay.modalPopups = (s.detach p).attachedModalCount := by
  unfold OverlayScene.detach
  split_ifs with hc
  · have hs := QQuickOverlay.removeChild_same s p
    have hp : p ∈ s.attachedPopups := (mem_popupsOf _ p).2 hc
    have h1 := OverlayScene.detachBase_attachedModalCount s p hp
    rw [hs.modalPopups, hs.attachedModalCount, OverlayScene.detachBase_modalPopups, h, ← h1]
    split_ifs <;> simp
  · exact h

theorem OverlayScene.setPopup_self_same (s : OverlayScene) (p : Nat) :
    OverlayScene.SameButDimmers (s.setPopup p (s.popup p)) s := by
  refine ⟨rfl, rfl, rfl, rfl, rfl, rfl, rfl, rfl, rfl, rfl, ?_, ?_, ?_, rfl⟩ <;>
  · intro q
    by_cases h : q = p
    · subst h
      simp
    · simp [OverlayScene.setPopup_popup_ne _ _ _ _ h]

theorem OverlayScene.setModal_same (s : OverlayScene) (p : Nat) (m : Bool) :
    OverlayScene.SameButDimmers
      (s.setPopup p { s.popup p with d := QQuickPopup.setModal (s.popup p).d m }) (s.setModal p m) := by
  unfold OverlayScene.setModal
  by_cases h1 : (s.popup p).d.modal = m
  · have : QQuickPopup.setModal (s.popup p).d m = (s.popup p).d := by
      unfold QQuickPopup.setModal
      rw [if_pos h1]
    rw [this, if_pos h1]
    exact OverlayScene.setPopup_self_same s p
  · rw [if_neg h1]
    simp only
    split_ifs
    · exact QQuickOverlayPrivate.toggleOverlay_same _ _
    · exact OverlayScene.SameButDimmers.refl _

theorem OverlayScene.setDim_same (s : OverlayScene) (p : Nat) (dim : Bool)
    (h : (s.popup p).dim ≠ dim) :
    OverlayScene.SameButDimmers
      (s.setPopup p { s.popup p with dim := dim, d := (s.popup p).d.emit Signal.dimChanged })
      (s.setDim p dim) := by
  unfold OverlayScene.setDim
  rw [if_neg h]
  simp only
  split_ifs
  · exact QQuickOverlayPrivate.toggleOverlay_same _ _
  · exact OverlayScene.SameButDimmers.refl _

theorem QQuickPopup.setModal_modal (d : QQuickPopupPrivate) (m : Bool) :
    (QQuickPopup.setModal d m).modal = m := by
  unfold QQuickPopup.setModal
  split_ifs with h
  · exact h
  · rfl

theorem OverlayScene.setModal_modalPopups (s : OverlayScene) (p : Nat) (m : Bool)
    (h : s.overlay.modalPopups = s.attachedModalCount)
    (hk : OverlayChild.popupItem p ∈ s.overlay.childItems → (s.popup p).d.modal = m) :
    (s.setModal p m).overlay.modalPopups = (s.setModal p m).attachedModalCount := by
  by_cases hm : (s.popup p).d.modal = m
  · unfold OverlayScene.setModal
    rw [if_pos hm]
    exact h
  · have hp : p ∉ s.attachedPopups := fun hp => hm (hk ((mem_popupsOf _ p).1 hp))
    have hs := OverlayScene.setModal_same s p m
    have e : (s.setPopup p
        { s.popup p with d := QQuickPopup.setModal (s.popup p).d m }).attachedModalCount =
        s.attachedModalCount := by
      apply OverlayScene.attachedModalCount_congr_mem s
      · intro q hq
        have hne : q ≠ p := fun e => hp (e ▸ hq)
        rw [OverlayScene.setPopup_popup_ne _ _ _ _ hne]
      · intro q hq
        have hne : q ≠ p := fun e => hp (e ▸ hq)
        rw [OverlayScene.setPopup_popup_ne _ _ _ _ hne]
      · rfl
    rw [hs.modalPopups, hs.attachedModalCount, e]
    exact h

theorem OverlayScene.setDim_modalPopups (s : OverlayScene) (p : Nat) (dim : Bool)
    (h : s.overlay.modalPopups = s.attachedModalCount) :
    (s.setDim p dim).overlay.modalPopups = (s.setDim p dim).attachedModalCount := by
  by_cases hm : (s.popup p).dim = dim
  · unfold OverlayScene.setDim
    rw [if_pos hm]
    exact h
  · have hs := OverlayScene.setDim_same s p dim hm
    have e : (s.setPopup p
        { s.popup p with dim := dim, d := (s.popup p).d.emit Signal.dimChanged }).attachedModalCount =
        s.attachedModalCount := by
      apply OverlayScene.attachedModalCount_congr_mem s
      · intro q _
        by_cases hne : q = p
        · subst hne
          rw [OverlayScene.setPopup_popup_self]
          rfl
        · rw [OverlayScene.setPopup_popup_ne _ _ _ _ hne]
      · intro q _
        by_cases hne : q = p
        · subst hne
          rw [OverlayScene.setPopup_popup_self]
        · rw [OverlayScene.setPopup_popup_ne _ _ _ _ hne]
      · rfl
    rw [hs.modalPopups, hs.attachedModalCount, e]
    exact h

/-- The counter of modal popups stays equal to the number of attached modal
popups that are no drawers, as long as no modal flag changes while attached. -/
theorem OverlayScene.runAll_modalPopups (ops : List OverlayOp) :
    ∀ s : OverlayScene, s.overlay.modalPopups = s.attachedModalCount →
      s.modalKeptWhileAttached ops →
        (s.runAll ops).overlay.modalPopups = (s.runAll ops).attachedModalCount := by
  induction ops with
  | nil => intro s h _; exact h
  | cons op ops ih =>
    intro s h hk
    apply ih (s.run op) _ hk.2
    cases op with
    | attach p => exact OverlayScene.attach_modalPopups s p h
    | detach p => exact OverlayScene.detach_modalPopups s p h
    | setModal p m => exact OverlayScene.setModal_modalPopups s p m h hk.1
    | setDim p dim => exact OverlayScene.setDim_modalPopups s p dim h

/-- C14: starting from a new overlay, for every sequence of operations that attach
popups (a child-added change), detach attached popups (a child-removed change),
toggle dim, and set the modal flag of popups that are not attached, the counter
`modalPopups` equals the number of attached popups that are modal and no
drawers, so it is not negative; and a child-added or child-removed change for
the popup item of a drawer leaves the counter as it was. -/
theorem modal_counter_under_attach_and_detach (popup : Nat → QQuickPopup) (width height : ℚ)
    (modal modeless : Option QQmlComponent) (ops : List OverlayOp)
    (hkept : (OverlayScene.initial popup width height modal modeless).modalKeptWhileAttached ops) :
    ((OverlayScene.initial popup width height modal modeless).runAll ops).overlay.modalPopups =
        ((OverlayScene.initial popup width height modal modeless).runAll ops).attachedModalCount ∧
      0 ≤ ((OverlayScene.initial popup width height modal modeless).runAll ops).overlay.modalPopups ∧
      ∀ (s : OverlayScene) (change : ItemChange) (drawer : Nat), (s.popup drawer).drawer = true →
        (QQuickOverlay.itemChange s change (.popupItem drawer)).overlay.modalPopups =
          s.overlay.modalPopups := by
  have h := OverlayScene.runAll_modalPopups ops
    (OverlayScene.initial popup width height modal modeless) rfl hkept
  refine ⟨h, ?_, ?_⟩
  · rw [h]
    exact Int.natCast_nonneg _
  · intro s change drawer hd
    cases change with
    | ItemChildAddedChange =>
      rw [(QQuickOverlay.itemChange_added_same s drawer).modalPopups]
      simp [OverlayScene.addedBase, hd]
    | ItemChildRemovedChange =>
      rw [(QQuickOverlay.itemChange_removed_same s drawer).modalPopups]
      simp [OverlayScene.removedBase, hd]
    | Other => rfl

/-- C14 (at an instance): a modal popup is attached, a plain popup is made modal
before it is attached, a modal drawer is attached, and the first popup is
detached. -/
theorem modal_counter_under_attach_and_detach_witness :
    (OverlayScene.initial Scene.popups 400 400 none none).modalKeptWhileAttached
        [.attach 4, .setModal 1 true, .attach 1, .attach 2, .detach 4] ∧
      ((OverlayScene.initial Scene.popups 400 400 none none).runAll
          [.attach 4, .setModal 1 true, .attach 1, .attach 2, .detach 4]).overlay.modalPopups =
        ((OverlayScene.initial Scene.popups 400 400 none none).runAll
          [.attach 4, .setModal 1 true, .attach 1, .attach 2, .detach 4]).attachedModalCount := by
  have hk : (OverlayScene.initial Scene.popups 400 400 none none).modalKeptWhileAttached
      [.attach 4, .setModal 1 true, .attach 1, .attach 2, .detach 4] := by
    refine ⟨trivial, ⟨?_, trivial, trivial, trivial, trivial⟩⟩
    intro h
    exact absurd h (by decide!)
  exact ⟨hk, (modal_counter_under_attach_and_detach Scene.popups 400 400 none none _ hk).1⟩

/-- C13 (evaluated at the failing input): the counter is not kept up when the
modal flag of an attached popup changes. After popup 1 is attached and then
made modal the counter is 0 with one modal popup attached, and after it is
detached the counter is -1 with no modal popup attached. -/
theorem modal_counter_misses_setModal_while_attached :
    (Scene.overlayScene.runAll [.attach 1, .setModal 1 true]).overlay.modalPopups = 0 ∧
      (Scene.overlayScene.runAll [.attach 1, .setModal 1 true]).attachedModalCount = 1 ∧
      (Scene.overlayScene.runAll [.attach 1, .setModal 1 true, .detach 1]).overlay.modalPopups = -1 ∧
      (Scene.overlayScene.runAll [.attach 1, .setModal 1 true, .detach 1]).attachedModalCount = 0 := by
  decide!

/-! ## Overlay: dimmers -/

theorem QQuickOverlayPrivate.createDimmer_popup (s : OverlayScene) (c : Option QQmlComponent)
    (p : Nat) : (QQuickOverlayPrivate.createDimmer s c p).1.popup = s.popup := by
  unfold QQuickOverlayPrivate.createDimmer
  simp only
  split <;> rfl

theorem QQuickOverlayPrivate.createDimmer_isSome (s : OverlayScene) (c : Option QQmlComponent)
    (p : Nat) :
    (QQuickOverlayPrivate.createDimmer s c p).2.isSome =
      ((match c with
        | some c => c.createsItem
        | none => false) || (s.popup p).d.modal) := by
  unfold QQuickOverlayPrivate.createDimmer
  cases c with
  | none => cases hm : (s.popup p).d.modal <;> simp [hm]
  | some c => cases hm : (s.popup p).d.modal <;> cases hc : c.createsItem <;> simp [hm, hc]

theorem QQuickOverlayPrivate.createDimmer_childItems (s : OverlayScene) (c : Option QQmlComponent)
    (p : Nat) :
    (QQuickOverlayPrivate.createDimmer s c p).1.overlay.childItems =
      if (QQuickOverlayPrivate.createDimmer s c p).2.isSome then
        stackBefore (s.overlay.childItems ++ [.dimmer p]) (.dimmer p) (.popupItem p)
      else s.overlay.childItems := by
  unfold QQuickOverlayPrivate.createDimmer
  simp only
  split <;> simp [QQuickOverlayPrivate.childItemsChanged]

theorem QQuickOverlayPrivate.resizeOverlay_dimmer_isSome (s : OverlayScene) (p q : Nat) :
    ((QQuickOverlayPrivate.resizeOverlay s p).popup q).dimmer.isSome = (s.popup q).dimmer.isSome := by
  unfold QQuickOverlayPrivate.resizeOverlay
  split
  · rename_i dimmer h
    by_cases hq : q = p
    · subst hq
      simp [h]
    · rw [OverlayScene.setPopup_popup_ne _ _ _ _ hq]
  · rfl

theorem QQuickOverlayPrivate.createOverlay_dimmer_isSome (s : OverlayScene) (p q : Nat) :
    ((QQuickOverlayPrivate.createOverlay s p).popup q).dimmer.isSome =
      if q = p then (s.popup p).dimmer.isSome || s.dimmerAvailable p
      else (s.popup q).dimmer.isSome := by
  unfold QQuickOverlayPrivate.createOverlay
  simp only [QQuickOverlayPrivate.resizeOverlay_dimmer_isSome]
  split
  · rename_i dimmer h
    split_ifs with hq
    · subst hq
      simp [h]
    · rfl
  · rename_i h
    by_cases hq : q = p
    · subst hq
      rw [if_pos rfl, OverlayScene.setPopup_popup_self, h]
      simp only [QQuickOverlayPrivate.createDimmer_isSome, Option.isSome_none, Bool.false_or]
      rfl
    · rw [if_neg hq, OverlayScene.setPopup_popup_ne _ _ _ _ hq,
        QQuickOverlayPrivate.createDimmer_popup]

theorem QQuickOverlayPrivate.createOverlay_childItems (s : OverlayScene) (p : Nat) :
    (QQuickOverlayPrivate.createOverlay s p).overlay.childItems =
      if !(s.popup p).dimmer.isSome && s.dimmerAvailable p then
        stackBefore (s.overlay.childItems ++ [.dimmer p]) (.dimmer p) (.popupItem p)
      else s.overlay.childItems := by
  unfold QQuickOverlayPrivate.createOverlay
  simp only [QQuickOverlayPrivate.resizeOverlay_overlay]
  split
  · rename_i dimmer h
    simp [h]
  · rename_i h
    rw [OverlayScene.setPopup_overlay, QQuickOverlayPrivate.createDimmer_childItems,
      QQuickOverlayPrivate.createDimmer_isSome, h]
    rfl

theorem QQuickOverlayPrivate.destroyOverlay_dimmer (s : OverlayScene) (p q : Nat) :
    ((QQuickOverlayPrivate.destroyOverlay s p).popup q).dimmer =
      if q = p then none else (s.popup q).dimmer := by
  unfold QQuickOverlayPrivate.destroyOverlay
  split
  · split_ifs with hq
    · subst hq
      simp
    · rw [OverlayScene.setPopup_popup_ne _ _ _ _ hq]
      rfl
  · rename_i h
    split_ifs with hq
    · subst hq
      exact h
    · rfl

theorem QQuickOverlayPrivate.destroyOverlay_childItems (s : OverlayScene) (p : Nat) :
    (QQuickOverlayPrivate.destroyOverlay s p).overlay.childItems =
      if (s.popup p).dimmer.isSome then s.overlay.childItems.erase (.dimmer p)
      else s.overlay.childItems := by
  unfold QQuickOverlayPrivate.destroyOverlay
  split
  · rename_i dimmer h
    simp [h, QQuickOverlayPrivate.childItemsChanged]
  · rename_i h
    simp [h]

theorem QQuickOverlay.itemChange_added_popup (s : OverlayScene) (p : Nat) :
    (QQuickOverlay.itemChange s ItemChange.ItemChildAddedChange (.popupItem p)).popup =
      (if (s.popup p).dim then
        QQuickOverlayPrivate.createOverlay
          { s with
            overlay :=
              { s.overlay with
                visible := !s.overlay.childItems.isEmpty
                popups := s.overlay.popups ++ [p] } } p
      else s).popup := by
  unfold QQuickOverlay.itemChange
  simp only [true_or, if_true, QQuickOverlayPrivate.childItemsChanged]
  split_ifs <;> rfl

theorem QQuickOverlay.itemChange_added_childItems (s : OverlayScene) (p : Nat) :
    (QQuickOverlay.itemChange s ItemChange.ItemChildAddedChange (.popupItem p)).overlay.childItems =
      (if (s.popup p).dim then
        QQuickOverlayPrivate.createOverlay
          { s with
            overlay :=
              { s.overlay with
                visible := !s.overlay.childItems.isEmpty
                popups := s.overlay.popups ++ [p] } } p
      else s).overlay.childItems := by
  unfold QQuickOverlay.itemChange
  simp only [true_or, if_true, QQuickOverlayPrivate.childItemsChanged]
  split_ifs <;> rfl

theorem QQuickOverlay.itemChange_removed_popup (s : OverlayScene) (p : Nat) :
    (QQuickOverlay.itemChange s ItemChange.ItemChildRemovedChange (.popupItem p)).popup =
      (QQuickOverlayPrivate.destroyOverlay
        { s with
          overlay :=
            { s.overlay with
              visible := !s.overlay.childItems.isEmpty
              popups := s.overlay.popups.erase p } } p).popup := by
  have hne : ItemChange.ItemChildRemovedChange ≠ ItemChange.ItemChildAddedChange := by decide
  unfold QQuickOverlay.itemChange
  simp only [or_true, if_true, QQuickOverlayPrivate.childItemsChanged, hne, if_false]
  split_ifs <;> rfl

theorem QQuickOverlay.itemChange_removed_childItems (s : OverlayScene) (p : Nat) :
    (QQuickOverlay.itemChange s ItemChange.ItemChildRemovedChange (.popupItem p)).overlay.childItems =
      (QQuickOverlayPrivate.destroyOverlay
        { s with
          overlay :=
            { s.overlay with
              visible := !s.overlay.childItems.isEmpty
              popups := s.overlay.popups.erase p } } p).overlay.childItems := by
  have hne : ItemChange.ItemChildRemovedChange ≠ ItemChange.ItemChildAddedChange := by decide
  unfold QQuickOverlay.itemChange
  simp only [or_true, if_true, QQuickOverlayPrivate.childItemsChanged, hne, if_false]
  split_ifs <;> rfl

theorem count_dimmer_stackBefore (l : List OverlayChild) (p q : Nat) :
    (stackBefore (l ++ [.dimmer p]) (.dimmer p) (.popupItem p)).count (.dimmer q) =
      l.count (.dimmer q) + (if q = p then 1 else 0) := by
  rw [(stackBefore_perm _ _ _).count_eq, List.count_append]
  by_cases h : q = p
  · subst h
    simp
  · have : OverlayChild.dimmer p ≠ OverlayChild.dimmer q := fun e => h (by injection e with e; exact e.symm)
    simp [h, List.count_cons, this]

theorem count_dimmer_erase (l : List OverlayChild) (p q : Nat) :
    (l.erase (.dimmer p)).count (.dimmer q) = l.count (.dimmer q) - (if q = p then 1 else 0) := by
  by_cases h : q = p
  · subst h
    simp [List.count_erase_self]
  · have : OverlayChild.dimmer q ≠ OverlayChild.dimmer p := fun e => h (by injection e)
    rw [List.count_erase_of_ne this]
    simp [h]

/-- The dimmer of `p` after the slot `toggleOverlay` ran for it. -/
theorem QQuickOverlayPrivate.toggleOverlay_dimmer_isSome (s : OverlayScene) (p q : Nat) :
    ((QQuickOverlayPrivate.toggleOverlay s (some p)).popup q).dimmer.isSome =
      if q = p then (s.popup p).dim && s.dimmerAvailable p else (s.popup q).dimmer.isSome := by
  unfold QQuickOverlayPrivate.toggleOverlay
  simp only
  have hs := QQuickOverlayPrivate.destroyOverlay_same s p
  have hav : (QQuickOverlayPrivate.destroyOverlay s p).dimmerAvailable p = s.dimmerAvailable p := by
    unfold OverlayScene.dimmerAvailable
    rw [hs.d, hs.modal, hs.modeless]
  rw [hs.dim p]
  by_cases hd : (s.popup p).dim = true
  · rw [if_pos hd, QQuickOverlayPrivate.createOverlay_dimmer_isSome, hav,
      QQuickOverlayPrivate.destroyOverlay_dimmer, QQuickOverlayPrivate.destroyOverlay_dimmer]
    by_cases hq : q = p
    · simp [hq, hd]
    · simp [hq]
  · rw [if_neg hd, QQuickOverlayPrivate.destroyOverlay_dimmer]
    by_cases hq : q = p
    · simp [hq, hd]
    · simp [hq]

theorem QQuickOverlayPrivate.toggleOverlay_count_dimmer (s : OverlayScene) (p q : Nat) :
    (QQuickOverlayPrivate.toggleOverlay s (some p)).overlay.childItems.count (.dimmer q) =
      if q = p then
        s.overlay.childItems.count (.dimmer p) - (if (s.popup p).dimmer.isSome then 1 else 0) +
          (if (s.popup p).dim && s.dimmerAvailable p then 1 else 0)
      else s.overlay.childItems.count (.dimmer q) := by
  unfold QQuickOverlayPrivate.toggleOverlay
  simp only
  have hs := QQuickOverlayPrivate.destroyOverlay_same s p
  have hav : (QQuickOverlayPrivate.destroyOverlay s p).dimmerAvailable p = s.dimmerAvailable p := by
    unfold OverlayScene.dimmerAvailable
    rw [hs.d, hs.modal, hs.modeless]
  have hc : (QQuickOverlayPrivate.destroyOverlay s p).overlay.childItems.count (.dimmer q) =
      if q = p then
        s.overlay.childItems.count (.dimmer p) - (if (s.popup p).dimmer.isSome then 1 else 0)
      else s.overlay.childItems.count (.dimmer q) := by
    rw [QQuickOverlayPrivate.destroyOverlay_childItems]
    by_cases hsome : (s.popup p).dimmer.isSome = true
    · rw [if_pos hsome, count_dimmer_erase]
      by_cases hq : q = p
      · simp [hq, hsome]
      · simp [hq]
    · rw [if_neg hsome]
      by_cases hq : q = p
      · simp [hq, hsome]
      · simp [hq]
  rw [hs.dim p]
  by_cases hd : (s.popup p).dim = true
  · rw [if_pos hd, QQuickOverlayPrivate.createOverlay_childItems, hav,
      QQuickOverlayPrivate.destroyOverlay_dimmer]
    simp only [if_true, Option.isSome_none, Bool.not_false, Bool.true_and, hd]
    by_cases ha : s.dimmerAvailable p = true
    · rw [if_pos ha, count_dimmer_stackBefore, hc]
      by_cases hq : q = p
      · simp [hq, ha]
      · simp [hq]
    · rw [if_neg ha, hc]
      by_cases hq : q = p
      · simp [hq, ha]
      · simp [hq]
  · rw [if_neg hd, hc]
    by_cases hq : q = p
    · simp [hq, hd]
    · simp [hq]

/-! ## Overlay: the dimmer invariant -/

theorem OverlayScene.dimmerAvailable_congr (s t : OverlayScene) (q : Nat)
    (hd : (t.popup q).d.modal = (s.popup q).d.modal) (hm : t.overlay.modal = s.overlay.modal)
    (hl : t.overlay.modeless = s.overlay.modeless) : t.dimmerAvailable q = s.dimmerAvailable q := by
  unfold OverlayScene.dimmerAvailable
  rw [hd, hm, hl]

theorem OverlayScene.SameButDimmers.dimmerAvailable {s t : OverlayScene} (h : s.SameButDimmers t)
    (q : Nat) : t.dimmerAvailable q = s.dimmerAvailable q :=
  OverlayScene.dimmerAvailable_congr s t q (by rw [h.d q]) h.modal h.modeless

/-- A popup is in `popups` exactly when its popup item is a child of the overlay. -/
theorem OverlayScene.dimmersConsistent.mem_popups {s : OverlayScene} (h : s.dimmersConsistent)
    (p : Nat) : p ∈ s.overlay.popups ↔ p ∈ s.attachedPopups := by
  rw [← List.count_pos_iff, ← List.count_pos_iff, (h p).1]

/-- A change of the flags of `p` followed by the slot `toggleOverlay`, which runs
when `p` is connected, keeps the bookkeeping consistent. -/
theorem OverlayScene.toggled_dimmersConsistent (s x : OverlayScene) (p : Nat)
    (h : s.dimmersConsistent) (hov : x.overlay = s.overlay)
    (hdimmer : ∀ q, (x.popup q).dimmer = (s.popup q).dimmer)
    (hother : ∀ q, q ≠ p → x.popup q = s.popup q) :
    (if p ∈ x.overlay.popups then QQuickOverlayPrivate.toggleOverlay x (some p)
      else x).dimmersConsistent := by
  have hxatt : x.attachedPopups = s.attachedPopups := by
    unfold OverlayScene.attachedPopups
    rw [hov]
  have hxav : ∀ q, q ≠ p → x.dimmerAvailable q = s.dimmerAvailable q := by
    intro q hq
    apply OverlayScene.dimmerAvailable_congr
    · rw [hother q hq]
    · rw [hov]
    · rw [hov]
  intro q
  obtain ⟨h1, h2, h3, h4⟩ := h q
  by_cases hp : p ∈ x.overlay.popups
  · rw [if_pos hp]
    have hs := QQuickOverlayPrivate.toggleOverlay_same x (some p)
    have hatt : (QQuickOverlayPrivate.toggleOverlay x (some p)).attachedPopups = s.attachedPopups :=
      hs.attached.trans hxatt
    have hpa : p ∈ s.attachedPopups := by
      rw [hov] at hp
      exact (h.mem_popups p).1 hp
    rw [hatt, hs.popups, hov, hs.dimmerAvailable, hs.dim,
      QQuickOverlayPrivate.toggleOverlay_dimmer_isSome,
      QQuickOverlayPrivate.toggleOverlay_count_dimmer]
    refine ⟨h1, h2, ?_, ?_⟩
    · by_cases hq : q = p
      · subst hq
        rw [if_pos rfl, if_pos rfl, hov, h3, hdimmer]
        split_ifs <;> rfl
      · rw [if_neg hq, if_neg hq, hov, h3, hdimmer]
    · by_cases hq : q = p
      · subst hq
        rw [if_pos rfl]
        simp [hpa]
      · rw [if_neg hq, hdimmer, h4, hxav q hq, hother q hq]
  · rw [if_neg hp, hxatt, hov, hdimmer]
    refine ⟨h1, h2, h3, ?_⟩
    by_cases hq : q = p
    · subst hq
      have hpa : q ∉ s.attachedPopups := by
        rw [hov] at hp
        exact fun hc => hp ((h.mem_popups q).2 hc)
      rw [h4]
      simp [hpa]
    · rw [h4, hxav q hq, hother q hq]

theorem OverlayScene.setModal_dimmersConsistent (s : OverlayScene) (p : Nat) (m : Bool)
    (h : s.dimmersConsistent) : (s.setModal p m).dimmersConsistent := by
  unfold OverlayScene.setModal
  split_ifs with hm
  · exact h
  · exact OverlayScene.toggled_dimmersConsistent s _ p h rfl
      (fun q => by
        by_cases hq : q = p
        · subst hq
          rw [OverlayScene.setPopup_popup_self]
        · rw [OverlayScene.setPopup_popup_ne _ _ _ _ hq])
      (fun q hq => OverlayScene.setPopup_popup_ne _ _ _ _ hq)

theorem OverlayScene.setDim_dimmersConsistent (s : OverlayScene) (p : Nat) (dim : Bool)
    (h : s.dimmersConsistent) : (s.setDim p dim).dimmersConsistent := by
  unfold OverlayScene.setDim
  split_ifs with hm
  · exact h
  · exact OverlayScene.toggled_dimmersConsistent s _ p h rfl
      (fun q => by
        by_cases hq : q = p
        · subst hq
          rw [OverlayScene.setPopup_popup_self]
        · rw [OverlayScene.setPopup_popup_ne _ _ _ _ hq])
      (fun q hq => OverlayScene.setPopup_popup_ne _ _ _ _ hq)

theorem count_dimmer_append_popupItem (l : List OverlayChild) (p q : Nat) :
    (l ++ [OverlayChild.popupItem p]).count (.dimmer q) = l.count (.dimmer q) := by
  rw [List.count_append]
  have : OverlayChild.popupItem p ≠ OverlayChild.dimmer q := by
    intro e
    cases e
  simp [List.count_cons, this]

theorem count_dimmer_erase_popupItem (l : List OverlayChild) (p q : Nat) :
    (l.erase (OverlayChild.popupItem p)).count (.dimmer q) = l.count (.dimmer q) := by
  have : OverlayChild.dimmer q ≠ OverlayChild.popupItem p := by
    intro e
    cases e
  rw [List.count_erase_of_ne this]

theorem OverlayScene.attach_dimmersConsistent (s : OverlayScene) (p : Nat)
    (h : s.dimmersConsistent) : (s.attach p).dimmersConsistent := by
  unfold OverlayScene.attach
  split_ifs with hc
  · exact h
  have hs := QQuickOverlay.addChild_same s p
  have hpa : p ∉ s.attachedPopups := fun hp => hc ((mem_popupsOf _ p).1 hp)
  have hp0 : s.attachedPopups.count p = 0 := List.count_eq_zero_of_not_mem hpa
  have hsome : (s.popup p).dimmer.isSome = false := by
    rw [(h p).2.2.2]
    simp [hpa]
  have hatt : (QQuickOverlay.addChild s (.popupItem p)).attachedPopups = s.attachedPopups ++ [p] := by
    rw [OverlayScene.attachedPopups_eq, hs.attached, OverlayScene.attachedPopups_eq]
    simp [OverlayScene.attachBase, OverlayScene.addedBase, popupsOf, List.filterMap_append]
  have hpop : (QQuickOverlay.addChild s (.popupItem p)).overlay.popups = s.overlay.popups ++ [p] :=
    hs.popups
  have hav : ∀ q, (QQuickOverlay.addChild s (.popupItem p)).dimmerAvailable q = s.dimmerAvailable q :=
    fun q => hs.dimmerAvailable q
  have hdim : ∀ q, ((QQuickOverlay.addChild s (.popupItem p)).popup q).dim = (s.popup q).dim :=
    fun q => hs.dim q
  have hisSome : ∀ q, ((QQuickOverlay.addChild s (.popupItem p)).popup q).dimmer.isSome =
      if q = p then (s.popup p).dim && s.dimmerAvailable p else (s.popup q).dimmer.isSome := by
    intro q
    unfold QQuickOverlay.addChild
    rw [QQuickOverlay.itemChange_added_popup]
    by_cases hd : (s.popup p).dim = true
    · rw [if_pos hd, QQuickOverlayPrivate.createOverlay_dimmer_isSome]
      by_cases hq : q = p
      · rw [if_pos hq, if_pos hq]
        simp only [hsome, Bool.false_or, hd, Bool.true_and]
        rfl
      · rw [if_neg hq, if_neg hq]
    · rw [if_neg hd]
      by_cases hq : q = p
      · subst hq
        rw [if_pos rfl]
        simp [hd, hsome]
      · rw [if_neg hq]
  have hcount : ∀ q, (QQuickOverlay.addChild s (.popupItem p)).overlay.childItems.count (.dimmer q) =
      s.overlay.childItems.count (.dimmer q) +
        (if q = p ∧ ((s.popup p).dim && s.dimmerAvailable p) = true then 1 else 0) := by
    intro q
    unfold QQuickOverlay.addChild
    rw [QQuickOverlay.itemChange_added_childItems]
    by_cases hd : (s.popup p).dim = true
    · rw [if_pos hd, QQuickOverlayPrivate.createOverlay_childItems]
      simp only [hsome, Bool.not_false, Bool.true_and, hd]
      have hav2 : OverlayScene.dimmerAvailable
          { s with
            overlay :=
              { s.overlay with
                childItems := s.overlay.childItems ++ [OverlayChild.popupItem p]
                visible := !(s.overlay.childItems ++ [OverlayChild.popupItem p]).isEmpty
                popups := s.overlay.popups ++ [p] } } p = s.dimmerAvailable p := rfl
      rw [hav2]
      by_cases ha : s.dimmerAvailable p = true
      · rw [if_pos ha, count_dimmer_stackBefore, count_dimmer_append_popupItem]
        simp [ha]
      · rw [if_neg ha, count_dimmer_append_popupItem]
        simp [ha]
    · rw [if_neg hd]
      simp only [count_dimmer_append_popupItem]
      simp [hd]
  intro q
  obtain ⟨h1, h2, h3, h4⟩ := h q
  rw [hatt, hpop, hav, hdim, hisSome, hcount]
  by_cases hq : q = p
  · subst hq
    refine ⟨?_, ?_, ?_, ?_⟩
    · rw [List.count_append, List.count_append, h1]
    · rw [List.count_append, hp0]
      simp
    · rw [h3, hsome]
      simp
    · simp
  · have hqp : (p == q) = false := by simpa using fun e : p = q => hq e.symm
    refine ⟨?_, ?_, ?_, ?_⟩
    · rw [List.count_append, List.count_append, h1]
    · rw [List.count_append]
      simpa [List.count_cons, hqp] using h2
    · rw [if_neg hq, h3]
      simp [hq]
    · rw [if_neg hq, h4]
      simp [hq]

theorem OverlayScene.detach_dimmersConsistent (s : OverlayScene) (p : Nat)
    (h : s.dimmersConsistent) : (s.detach p).dimmersConsistent := by
  unfold OverlayScene.detach
  split_ifs with hc
  swap
  · exact h
  have hs := QQuickOverlay.removeChild_same s p
  have hpa : p ∈ s.attachedPopups := (mem_popupsOf _ p).2 hc
  have hp1 : s.attachedPopups.count p = 1 := by
    have := List.count_pos_iff.2 hpa
    have := (h p).2.1
    omega
  have hatt : (QQuickOverlay.removeChild s (.popupItem p)).attachedPopups =
      s.attachedPopups.erase p := by
    rw [OverlayScene.attachedPopups_eq, hs.attached, OverlayScene.attachedPopups_eq,
      ← popupsOf_erase_popupItem]
    rfl
  have hpop : (QQuickOverlay.removeChild s (.popupItem p)).overlay.popups =
      s.overlay.popups.erase p := hs.popups
  have hav : ∀ q, (QQuickOverlay.removeChild s (.popupItem p)).dimmerAvailable q =
      s.dimmerAvailable q := fun q => hs.dimmerAvailable q
  have hdim : ∀ q, ((QQuickOverlay.removeChild s (.popupItem p)).popup q).dim = (s.popup q).dim :=
    fun q => hs.dim q
  have hisSome : ∀ q, ((QQuickOverlay.removeChild s (.popupItem p)).popup q).dimmer.isSome =
      if q = p then false else (s.popup q).dimmer.isSome := by
    intro q
    unfold QQuickOverlay.removeChild
    rw [QQuickOverlay.itemChange_removed_popup, QQuickOverlayPrivate.destroyOverlay_dimmer]
    split_ifs <;> rfl
  have hcount : ∀ q, (QQuickOverlay.removeChild s (.popupItem p)).overlay.childItems.count (.dimmer q) =
      s.overlay.childItems.count (.dimmer q) -
        (if q = p ∧ (s.popup p).dimmer.isSome = true then 1 else 0) := by
    intro q
    unfold QQuickOverlay.removeChild
    rw [QQuickOverlay.itemChange_removed_childItems, QQuickOverlayPrivate.destroyOverlay_childItems]
    by_cases hsome : (s.popup p).dimmer.isSome = true
    · rw [if_pos hsome, count_dimmer_erase, count_dimmer_erase_popupItem]
      by_cases hq : q = p
      · simp [hq, hsome]
      · simp [hq]
    · rw [if_neg hsome, count_dimmer_erase_popupItem]
      simp [hsome]
  intro q
  obtain ⟨h1, h2, h3, h4⟩ := h q
  rw [hatt, hpop, hav, hdim, hisSome, hcount]
  by_cases hq : q = p
  · subst hq
    have hnot : q ∉ s.attachedPopups.erase q := by
      rw [← List.count_eq_zero, List.count_erase_self, hp1]
    refine ⟨?_, ?_, ?_, ?_⟩
    · rw [List.count_erase_self, List.count_erase_self, h1]
    · rw [List.count_erase_self]
      omega
    · rw [h3]
      split_ifs <;> simp_all
    · simp [hnot]
  · refine ⟨?_, ?_, ?_, ?_⟩
    · rw [List.count_erase_of_ne hq, List.count_erase_of_ne hq, h1]
    · rw [List.count_erase_of_ne hq]
      exact h2
    · rw [if_neg hq, h3]
      simp [hq]
    · rw [if_neg hq, h4]
      have : (q ∈ s.attachedPopups.erase p) ↔ q ∈ s.attachedPopups := List.mem_erase_of_ne hq
      simp [this]

/-- Every sequence of operations keeps the bookkeeping of the overlay consistent. -/
theorem OverlayScene.runAll_dimmersConsistent (ops : List OverlayOp) :
    ∀ s : OverlayScene, s.dimmersConsistent → (s.runAll ops).dimmersConsistent := by
  induction ops with
  | nil => intro s h; exact h
  | cons op ops ih =>
    intro s h
    apply ih (s.run op)
    cases op with
    | attach p => exact OverlayScene.attach_dimmersConsistent s p h
    | detach p => exact OverlayScene.detach_dimmersConsistent s p h
    | setModal p m => exact OverlayScene.setModal_dimmersConsistent s p m h
    | setDim p dim => exact OverlayScene.setDim_dimmersConsistent s p dim h

theorem OverlayScene.initial_dimmersConsistent (popup : Nat → QQuickPopup) (width height : ℚ)
    (modal modeless : Option QQmlComponent) :
    (OverlayScene.initial popup width height modal modeless).dimmersConsistent := by
  intro p
  refine ⟨rfl, ?_, rfl, ?_⟩
  · simp [OverlayScene.initial, OverlayScene.attachedPopups, QQuickOverlay.create]
  · simp [OverlayScene.initial, OverlayScene.attachedPopups, QQuickOverlay.create]

/-- The effect of `setDim` on what decides the dimmer of `p`. -/
theorem OverlayScene.setDim_frame (s : OverlayScene) (p : Nat) (dim : Bool) :
    (s.setDim p dim).attachedPopups = s.attachedPopups ∧
      ((s.setDim p dim).popup p).dim = dim ∧
      (s.setDim p dim).dimmerAvailable p = s.dimmerAvailable p := by
  by_cases hm : (s.popup p).dim = dim
  · unfold OverlayScene.setDim
    rw [if_pos hm]
    exact ⟨rfl, hm, rfl⟩
  · have hs := OverlayScene.setDim_same s p dim hm
    refine ⟨hs.attached, ?_, ?_⟩
    · rw [hs.dim p, OverlayScene.setPopup_popup_self]
    · rw [hs.dimmerAvailable p]
      apply OverlayScene.dimmerAvailable_congr
      · rw [OverlayScene.setPopup_popup_self]
        rfl
      · rfl
      · rfl

/-- C16 (as stated, refuted): popup 3 is not modal and has `dim` set; the overlay has
no template for dimmers of popups that are not modal. After popup 3 is attached
it is a child of the overlay with `dim` set, and it has no dimmer. -/
theorem attached_dim_popup_without_dimmer :
    OverlayChild.popupItem 3 ∈ (Scene.overlayScene.runAll [.attach 3]).overlay.childItems ∧
      ((Scene.overlayScene.runAll [.attach 3]).popup 3).dim = true ∧
      ((Scene.overlayScene.runAll [.attach 3]).popup 3).dimmer = none := by
  decide!

/-- C16 (amended): in every state reached from a new overlay by attaching and
detaching popups and setting their `dim` and modal flags, a popup has a dimmer
exactly when its popup item is a child of the overlay, its `dim` flag is set, and
a dimmer can be made for it (the template for its modal flag yields an item, or
the popup is modal); the dimmer is a child of the overlay once if the popup has
one and not at all otherwise. Setting `dim` of an attached popup for which a
dimmer can be made gives it a dimmer that is a child once; clearing `dim` leaves
the popup without dimmer and without dimmer item among the children. -/
theorem dimmer_iff_attached_dim_and_available (popup : Nat → QQuickPopup) (width height : ℚ)
    (modal modeless : Option QQmlComponent) (ops : List OverlayOp) (p : Nat) :
    (((((OverlayScene.initial popup width height modal modeless).runAll ops).popup p).dimmer.isSome =
          true ↔
        OverlayChild.popupItem p ∈
            ((OverlayScene.initial popup width height modal modeless).runAll ops).overlay.childItems ∧
          (((OverlayScene.initial popup width height modal modeless).runAll ops).popup p).dim = true ∧
          ((OverlayScene.initial popup width height modal modeless).runAll ops).dimmerAvailable p =
            true) ∧
      ((OverlayScene.initial popup width height modal modeless).runAll ops).overlay.childItems.count
          (.dimmer p) =
        if ((((OverlayScene.initial popup width height modal modeless).runAll ops).popup p).dimmer.isSome)
        then 1 else 0) ∧
    (((((OverlayScene.initial popup width height modal modeless).runAll ops).setDim p true).popup
          p).dimmer.isSome =
        (decide (OverlayChild.popupItem p ∈
            ((OverlayScene.initial popup width height modal modeless).runAll ops).overlay.childItems) &&
          ((OverlayScene.initial popup width height modal modeless).runAll ops).dimmerAvailable p) ∧
      (((OverlayScene.initial popup width height modal modeless).runAll ops).setDim p
          true).overlay.childItems.count (.dimmer p) =
        if (decide (OverlayChild.popupItem p ∈
            ((OverlayScene.initial popup width height modal modeless).runAll ops).overlay.childItems) &&
          ((OverlayScene.initial popup width height modal modeless).runAll ops).dimmerAvailable p)
        then 1 else 0) ∧
    ((((OverlayScene.initial popup width height modal modeless).runAll ops).setDim p false).popup
          p).dimmer = none ∧
      (((OverlayScene.initial popup width height modal modeless).runAll ops).setDim p
          false).overlay.childItems.count (.dimmer p) = 0 := by
  generalize hs : (OverlayScene.initial popup width height modal modeless).runAll ops = s
  have h : s.dimmersConsistent := by
    rw [← hs]
    exact OverlayScene.runAll_dimmersConsistent ops _
      (OverlayScene.initial_dimmersConsistent popup width height modal modeless)
  have hmem : ∀ t : OverlayScene, (OverlayChild.popupItem p ∈ t.overlay.childItems) ↔
      p ∈ t.attachedPopups := fun t => (mem_popupsOf _ p).symm
  refine ⟨⟨?_, (h p).2.2.1⟩, ⟨?_, ?_⟩, ?_, ?_⟩
  · rw [(h p).2.2.2, hmem s]
    simp [and_assoc]
  · have ht := (OverlayScene.setDim_dimmersConsistent s p true h p).2.2.2
    obtain ⟨f1, f2, f3⟩ := OverlayScene.setDim_frame s p true
    rw [ht, f1, f2, f3]
    simp [hmem s]
  · have hc := (OverlayScene.setDim_dimmersConsistent s p true h p).2.2.1
    have ht := (OverlayScene.setDim_dimmersConsistent s p true h p).2.2.2
    obtain ⟨f1, f2, f3⟩ := OverlayScene.setDim_frame s p true
    rw [hc, ht, f1, f2, f3]
    simp [hmem s]
  · have ht := (OverlayScene.setDim_dimmersConsistent s p false h p).2.2.2
    obtain ⟨f1, f2, f3⟩ := OverlayScene.setDim_frame s p false
    rw [f2] at ht
    simpa using ht
  · have hc := (OverlayScene.setDim_dimmersConsistent s p false h p).2.2.1
    have ht := (OverlayScene.setDim_dimmersConsistent s p false h p).2.2.2
    obtain ⟨f1, f2, f3⟩ := OverlayScene.setDim_frame s p false
    rw [f2] at ht
    rw [hc, ht]
    simp

/-! ## Overlay: modal popups and presses -/

theorem QQuickPopupPositioner.setParentItem_modal (d : QQuickPopupPrivate) (parent : Option QQuickItem) :
    (QQuickPopupPositioner.setParentItem d parent).modal = d.modal := by
  unfold QQuickPopupPositioner.setParentItem
  split_ifs
  · rfl
  · cases parent with
    | none => rfl
    | some a =>
      simp only
      split_ifs <;> rfl

theorem QQuickPopupPrivate.finalizeExitTransition_modal (d : QQuickPopupPrivate) (hide : Bool) :
    (d.finalizeExitTransition hide).modal = d.modal := by
  unfold QQuickPopupPrivate.finalizeExitTransition
  cases hide <;> exact QQuickPopupPositioner.setParentItem_modal d none

theorem QQuickPopupTransitionManager.finished_modal (d : QQuickPopupPrivate) :
    (QQuickPopupTransitionManager.finished d).modal = d.modal := by
  unfold QQuickPopupTransitionManager.finished
  simp only
  split_ifs
  · unfold QQuickPopupPrivate.finalizeEnterTransition
    split_ifs <;> rfl
  · exact QQuickPopupPrivate.finalizeExitTransition_modal d _
  · rfl

theorem QQuickPopupTransitionManager.transition_modal (d : QQuickPopupPrivate)
    (t : Option QQuickTransition) :
    (QQuickPopupTransitionManager.transition d t).modal = d.modal := by
  unfold QQuickPopupTransitionManager.transition
  cases t with
  | some _ => rfl
  | none => exact QQuickPopupTransitionManager.finished_modal _

theorem QQuickPopupPrivate.prepareExitTransition_modal (d : QQuickPopupPrivate) :
    d.prepareExitTransition.modal = d.modal := by
  have h1 : (match QQuickPopup.window d with
      | some quickWindow =>
        if quickWindow.applicationWindow then d else { d with eventFilter := false }
      | none => d).modal = d.modal := by
    split
    · split_ifs <;> rfl
    · rfl
  unfold QQuickPopupPrivate.prepareExitTransition
  simp only
  split_ifs <;> exact h1

theorem QQuickPopupTransitionManager.transitionExit_modal (d : QQuickPopupPrivate) :
    (QQuickPopupTransitionManager.transitionExit d).modal = d.modal := by
  unfold QQuickPopupTransitionManager.transitionExit
  split_ifs
  · rfl
  · simp only
    rw [QQuickPopupTransitionManager.transition_modal,
      QQuickPopupPrivate.prepareExitTransition_modal]

theorem QQuickPopup.close_modal (d : QQuickPopupPrivate) : (QQuickPopup.close d).modal = d.modal := by
  unfold QQuickPopup.close
  split_ifs
  · rfl
  · exact QQuickPopupTransitionManager.transitionExit_modal d
  · rfl

theorem QQuickPopupPrivate.tryClose_modal (d : QQuickPopupPrivate) (item : QQuickItem)
    (event : QEvent) : (d.tryClose item event).1.modal = d.modal := by
  unfold QQuickPopupPrivate.tryClose
  simp only
  split_ifs
  all_goals first
    | rfl
    | exact QQuickPopup.close_modal d

theorem QQuickPopup.overlayEvent_modal (d : QQuickPopupPrivate) (item : QQuickItem) (event : QEvent) :
    (QQuickPopup.overlayEvent d item event).1.modal = d.modal := by
  unfold QQuickPopup.overlayEvent
  split
  all_goals first
    | rfl
    | exact QQuickPopupPrivate.tryClose_modal d item _

theorem QEvent.accept_if_type (event : QEvent) (b : Bool) :
    (if b = true then event.accept else event).type = event.type := by
  cases b <;> rfl

theorem QQuickPopup.overlayEvent_type (d : QQuickPopupPrivate) (item : QQuickItem) (event : QEvent) :
    (QQuickPopup.overlayEvent d item event).2.1.type = event.type := by
  unfold QQuickPopup.overlayEvent
  split
  all_goals first
    | rfl
    | exact QEvent.accept_if_type event d.modal

/-- A press offered to a popup is consumed exactly when the popup is modal. -/
theorem QQuickPopup.overlayEvent_press (d : QQuickPopupPrivate) (item : QQuickItem) (event : QEvent)
    (h : event.type = QEventType.MouseButtonPress) :
    (QQuickPopup.overlayEvent d item event).2.2 = d.modal := by
  unfold QQuickPopup.overlayEvent
  rw [h]
  exact QQuickPopupPrivate.tryClose_modal d item _

theorem QQuickOverlay.removeChild_frame (s : OverlayScene) (p : Nat) :
    (QQuickOverlay.removeChild s (.popupItem p)).overlay.mouseGrabberPopup =
        s.overlay.mouseGrabberPopup ∧
      (QQuickOverlay.removeChild s (.popupItem p)).offered = s.offered ∧
      ∀ q, ((QQuickOverlay.removeChild s (.popupItem p)).popup q).d = (s.popup q).d :=
  have hs := QQuickOverlay.removeChild_same s p
  ⟨hs.mouseGrabberPopup, hs.offered, hs.d⟩

/-- What a call of `overlayEvent` made by the overlay leaves as it was: the grab
holder and the modal flag of every popup; and what it adds to the log. -/
theorem OverlayScene.offer_frame (s : OverlayScene) (p : Nat) (item : QQuickItem) (event : QEvent) :
    (s.offer p item event).1.overlay.mouseGrabberPopup = s.overlay.mouseGrabberPopup ∧
      (s.offer p item event).1.offered =
        s.offered ++ [Offer.mk p event.type s.overlay.mouseGrabberPopup] ∧
      ∀ q, (((s.offer p item event).1.popup q).d.modal = (s.popup q).d.modal) := by
  have h2 : ∀ (c : Prop) [Decidable c] (x : OverlayScene),
      x.SameButDimmers (if c then QQuickOverlayPrivate.popupAboutToHide x (some p) else x) := by
    intro c _ x
    split_ifs
    · exact QQuickOverlayPrivate.popupAboutToHide_same x _
    · exact OverlayScene.SameButDimmers.refl x
  have h3 : ∀ (c : Prop) [Decidable c] (x : OverlayScene),
      (if c then QQuickOverlay.removeChild x (.popupItem p) else x).overlay.mouseGrabberPopup =
          x.overlay.mouseGrabberPopup ∧
        (if c then QQuickOverlay.removeChild x (.popupItem p) else x).offered = x.offered ∧
        ∀ q, ((if c then QQuickOverlay.removeChild x (.popupItem p) else x).popup q).d =
          (x.popup q).d := by
    intro c _ x
    split_ifs
    · exact QQuickOverlay.removeChild_frame x p
    · exact ⟨rfl, rfl, fun _ => rfl⟩
  unfold OverlayScene.offer
  simp only
  refine ⟨?_, ?_, ?_⟩
  · rw [(h3 _ _).1, (h2 _ _).mouseGrabberPopup]
    rfl
  · rw [(h3 _ _).2.1, (h2 _ _).offered]
    rfl
  · intro q
    rw [(h3 _ _).2.2, (h2 _ _).d]
    by_cases hq : q = p
    · subst hq
      rw [OverlayScene.setPopup_popup_self]
      exact QQuickPopup.overlayEvent_modal _ _ _
    · rw [OverlayScene.setPopup_popup_ne _ _ _ _ hq]

theorem OverlayScene.offer_type (s : OverlayScene) (p : Nat) (item : QQuickItem) (event : QEvent) :
    (s.offer p item event).2.1.type = event.type :=
  QQuickPopup.overlayEvent_type _ _ _

theorem OverlayScene.offer_press (s : OverlayScene) (p : Nat) (item : QQuickItem) (event : QEvent)
    (h : event.type = QEventType.MouseButtonPress) :
    (s.offer p item event).2.2 = (s.popup p).d.modal :=
  QQuickPopup.overlayEvent_press _ _ _ h

/-- The loop of `childMouseEventFilter` returns true for a press when a modal
popup comes in the list before the popup the pressed child belongs to. -/
theorem OverlayScene.filterInOrder_modal (child : OverlayChild) (item : QQuickItem) (Q : Nat)
    (rest : List Nat) (hQ : OverlayChild.popupItem Q ≠ child) :
    ∀ (before : List Nat) (s : OverlayScene) (event : QEvent),
      event.type = QEventType.MouseButtonPress → (s.popup Q).d.modal = true →
      (∀ q ∈ before, OverlayChild.popupItem q ≠ child) →
        (s.filterInOrder child item event (before ++ Q :: rest)).2.2 = true := by
  intro before
  induction before with
  | nil =>
    intro s event hpress hmodal _
    simp only [List.nil_append, OverlayScene.filterInOrder]
    rw [if_neg hQ, OverlayScene.offer_press _ _ _ _ hpress, hmodal]
    rfl
  | cons q before ih =>
    intro s event hpress hmodal hbefore
    simp only [List.cons_append, OverlayScene.filterInOrder]
    rw [if_neg (hbefore q (List.mem_cons_self _ _))]
    by_cases hr : (s.offer q item event).2.2 = true
    · rw [if_pos hr]
    · rw [if_neg hr]
      apply ih
      · rw [OverlayScene.offer_type]
        exact hpress
      · rw [(OverlayScene.offer_frame s q item event).2.2 Q]
        exact hmodal
      · intro q' hq'
        exact hbefore q' (List.mem_cons_of_mem _ hq')

/-- C15 (as stated, refuted): popup 2 is a modal drawer attached after the plain
popup 1, so it is stacked in front of it; drawers are not counted in
`modalPopups`, the counter is 0, and a press in a child of popup 1 is not
filtered. -/
theorem press_below_modal_drawer_is_not_filtered :
    QQuickOverlayPrivate.stackingOrderPopups (Scene.overlayScene.runAll [.attach 1, .attach 2]) =
        [2, 1] ∧
      ((Scene.overlayScene.runAll [.attach 1, .attach 2]).popup 2).d.modal = true ∧
      (Scene.overlayScene.runAll [.attach 1, .attach 2]).overlay.modalPopups = 0 ∧
      (QQuickOverlay.childMouseEventFilter (Scene.overlayScene.runAll [.attach 1, .attach 2])
        (.popupItem 1) Scene.pressBesidePopup).2.2 = false := by
  decide!

/-- C15 (amended): for a press that originates in a descendant of the child `child`
of the overlay, if the counter `modalPopups` is not 0 and a modal popup `Q`
that is no drawer comes in the stacking order before every popup whose popup
item is `child`, then `QQuickOverlay::childMouseEventFilter` returns true. -/
theorem press_below_modal_popup_is_filtered (s : OverlayScene) (child : OverlayChild)
    (event : QEvent) (before rest : List Nat) (Q : Nat)
    (hcount : s.overlay.modalPopups ≠ 0)
    (hpress : event.type = QEventType.MouseButtonPress)
    (hstack : QQuickOverlayPrivate.stackingOrderPopups s = before ++ Q :: rest)
    (hbefore : ∀ q ∈ before, OverlayChild.popupItem q ≠ child)
    (hQ : OverlayChild.popupItem Q ≠ child)
    (hmodal : (s.popup Q).d.modal = true)
    (_hplain : (s.popup Q).drawer = false) :
    (QQuickOverlay.childMouseEventFilter s child event).2.2 = true := by
  unfold QQuickOverlay.childMouseEventFilter
  rw [if_neg hcount, if_neg (by simp [hpress]), hstack]
  exact OverlayScene.filterInOrder_modal child _ Q rest hQ before s event hpress hmodal hbefore

/-- C15 (amended, at an instance): the modal popup 4 is attached after the plain popup 1;
a press in a child of popup 1 is filtered. -/
theorem press_below_modal_popup_is_filtered_witness :
    (Scene.overlayScene.runAll [.attach 1, .attach 4]).overlay.modalPopups ≠ 0 ∧
      QQuickOverlayPrivate.stackingOrderPopups (Scene.overlayScene.runAll [.attach 1, .attach 4]) =
        [] ++ 4 :: [1] ∧
      (QQuickOverlay.childMouseEventFilter (Scene.overlayScene.runAll [.attach 1, .attach 4])
        (.popupItem 1) Scene.pressBesidePopup).2.2 = true :=
  ⟨by decide!, by decide!,
    press_below_modal_popup_is_filtered (Scene.overlayScene.runAll [.attach 1, .attach 4])
      (.popupItem 1) Scene.pressBesidePopup [] [1] 4 (by decide!) rfl (by decide!)
      (fun _ h => absurd h (List.not_mem_nil _)) (by decide) (by decide!) (by decide!)⟩

/-! ## Overlay: the grab -/

theorem OverlayScene.offerInOrder_mouseGrabberPopup (item : QQuickItem) (popups : List Nat) :
    ∀ (s : OverlayScene) (event : QEvent),
      (s.offerInOrder item event popups).1.overlay.mouseGrabberPopup =
        s.overlay.mouseGrabberPopup := by
  induction popups with
  | nil => intro s event; rfl
  | cons p popups ih =>
    intro s event
    simp only [OverlayScene.offerInOrder]
    split_ifs
    · exact (OverlayScene.offer_frame s p item event).1
    · rw [ih]
      exact (OverlayScene.offer_frame s p item event).1

/-- The loop over the popups for a press ends at the first modal popup of the list. -/
theorem OverlayScene.offerInOrder_find (item : QQuickItem) (popups : List Nat) :
    ∀ (s : OverlayScene) (event : QEvent), event.type = QEventType.MouseButtonPress →
      (s.offerInOrder item event popups).2.2 = popups.find? (fun q => (s.popup q).d.modal) := by
  induction popups with
  | nil => intro s event _; rfl
  | cons p popups ih =>
    intro s event hpress
    have hr := OverlayScene.offer_press s p item event hpress
    have hf := OverlayScene.offer_frame s p item event
    rw [OverlayScene.offerInOrder]
    by_cases hm : (s.popup p).d.modal = true
    · rw [if_pos (by rw [hr, hm])]
      simp only [List.find?_cons, hm]
    · rw [if_neg (by rw [hr]; exact hm), ih _ _ (by rw [OverlayScene.offer_type, hpress])]
      simp only [List.find?_cons, hm]
      congr 1
      funext q
      exact hf.2.2 q

/-- The popup that consumes a press is the first popup of the stacking order whose
`overlayEvent` returns true for it. -/
theorem QQuickOverlay.pressConsumer_eq_find (s : OverlayScene) (press : QEvent)
    (hpress : press.type = QEventType.MouseButtonPress) :
    QQuickOverlay.pressConsumer s press =
      (QQuickOverlayPrivate.stackingOrderPopups s).find? (fun q =>
        (QQuickPopup.overlayEvent (s.popup q).d s.overlayItem press).2.2) := by
  unfold QQuickOverlay.pressConsumer
  simp only
  rw [OverlayScene.offerInOrder_find _ _ _ _ hpress]
  have e : (fun q => (QQuickPopup.overlayEvent (s.popup q).d s.overlayItem press).2.2) =
      fun q => (s.popup q).d.modal := by
    funext q
    exact QQuickPopup.overlayEvent_press _ _ _ hpress
  rw [e]
  rfl

theorem QQuickPopupPrivate.tryClose_eq (d : QQuickPopupPrivate) (item : QQuickItem) (event : QEvent) :
    d.tryClose item event = if d.closesOn item event then (QQuickPopup.close d, true) else (d, false) := by
  unfold QQuickPopupPrivate.tryClose QQuickPopupPrivate.closesOn
  simp only
  rcases hp : d.parentItem with _ | parentItem
  · simp only
    split_ifs <;> simp_all
  · simp only
    split_ifs <;> simp_all

/-- C23: `tryClose` calls `close()` and returns true exactly when a flag for the
type of the event is set in the close policy (the press flags for a press, the
release flags otherwise), the point lies outside the popup item, and, when the
`OutsideParent` flag for the type is set and an anchor item exists, the point
lies outside the anchor too; otherwise it returns false and leaves the popup as
it is. The press flags do not matter for an event that is no press, and the
release flags do not matter for a press. -/
theorem close_policy_outside_rules (d : QQuickPopupPrivate) (item : QQuickItem) (event : QEvent)
    (a b : Bool) :
    d.tryClose item event =
        (if d.closesOn item event then (QQuickPopup.close d, true) else (d, false)) ∧
      (if event.type = QEventType.MouseButtonPress then
        QQuickPopupPrivate.closesOn
            { d with closePolicy := { d.closePolicy with onReleaseOutside := a, onReleaseOutsideParent := b } }
            item event = d.closesOn item event
      else
        QQuickPopupPrivate.closesOn
            { d with closePolicy := { d.closePolicy with onPressOutside := a, onPressOutsideParent := b } }
            item event = d.closesOn item event) ∧
      (if event.type = QEventType.MouseButtonPress then
        QQuickPopupPrivate.tryClose
          { d with closePolicy := { d.closePolicy with onPressOutside := false, onPressOutsideParent := false } }
          item event =
          ({ d with closePolicy := { d.closePolicy with onPressOutside := false, onPressOutsideParent := false } },
            false)
      else
        QQuickPopupPrivate.tryClose
          { d with closePolicy := { d.closePolicy with onReleaseOutside := false, onReleaseOutsideParent := false } }
          item event =
          ({ d with closePolicy := { d.closePolicy with onReleaseOutside := false, onReleaseOutsideParent := false } },
            false)) := by
  refine ⟨QQuickPopupPrivate.tryClose_eq d item event, ?_, ?_⟩
  · by_cases h : event.type = QEventType.MouseButtonPress
    · rw [if_pos h]
      simp [QQuickPopupPrivate.closesOn, h, ClosePolicy.testFlag]
    · rw [if_neg h]
      simp [QQuickPopupPrivate.closesOn, h, ClosePolicy.testFlag]
  · by_cases h : event.type = QEventType.MouseButtonPress
    · rw [if_pos h, QQuickPopupPrivate.tryClose_eq]
      simp [QQuickPopupPrivate.closesOn, h, ClosePolicy.testFlag]
    · rw [if_neg h, QQuickPopupPrivate.tryClose_eq]
      simp [QQuickPopupPrivate.closesOn, h, ClosePolicy.testFlag]

/-- C22: `overlayEvent` returns true exactly when the popup is modal and the type
of the event is one of `KeyPress`, `KeyRelease`, `MouseMove`, `Wheel`,
`MouseButtonPress`, `MouseButtonRelease`; the event is accepted by the call
exactly when it returns true and is left as it was otherwise; the returned value
is the same for every close policy; and the popup is left as it was unless the
event is a press or a release, for which it is what `tryClose` leaves. -/
theorem overlayEvent_consumption (d : QQuickPopupPrivate) (item : QQuickItem) (event : QEvent)
    (policy : ClosePolicy) :
    (QQuickPopup.overlayEvent d item event).2.2 =
        (d.modal && decide (event.type = QEventType.KeyPress ∨ event.type = QEventType.KeyRelease ∨
          event.type = QEventType.MouseMove ∨ event.type = QEventType.Wheel ∨
          event.type = QEventType.MouseButtonPress ∨ event.type = QEventType.MouseButtonRelease)) ∧
      (QQuickPopup.overlayEvent d item event).2.1 =
        (if (QQuickPopup.overlayEvent d item event).2.2 then event.accept else event) ∧
      (QQuickPopup.overlayEvent { d with closePolicy := policy } item event).2.2 =
        (QQuickPopup.overlayEvent d item event).2.2 ∧
      (QQuickPopup.overlayEvent d item event).1 =
        (if event.type = QEventType.MouseButtonPress ∨ event.type = QEventType.MouseButtonRelease then
          (d.tryClose item (if d.modal then event.accept else event)).1
        else d) := by
  have h1 : ∀ d : QQuickPopupPrivate, (QQuickPopup.overlayEvent d item event).2.2 =
      (d.modal && decide (event.type = QEventType.KeyPress ∨ event.type = QEventType.KeyRelease ∨
        event.type = QEventType.MouseMove ∨ event.type = QEventType.Wheel ∨
        event.type = QEventType.MouseButtonPress ∨ event.type = QEventType.MouseButtonRelease)) := by
    intro d
    unfold QQuickPopup.overlayEvent
    cases he : event.type <;> simp [QQuickPopupPrivate.tryClose_modal]
  refine ⟨h1 d, ?_, ?_, ?_⟩
  · rw [h1 d]
    unfold QQuickPopup.overlayEvent
    cases he : event.type <;> cases hm : d.modal <;> simp
  · rw [h1, h1 d]
  · unfold QQuickPopup.overlayEvent
    cases he : event.type <;> simp

/-- C30: on a popup whose construction is not complete and which is not visible,
`open()` changes nothing (so nothing is emitted); after the following
`componentComplete()` the popup is still not visible, the transition manager is
as it was and `aboutToShow` was not emitted; and `close()` before completion
changes nothing either. -/
theorem open_before_completion_is_dropped (d : QQuickPopupPrivate) (hc : d.complete = false)
    (hv : d.visible = false) :
    QQuickPopup.open d = d ∧
      (QQuickPopup.componentComplete (QQuickPopup.open d)).visible = false ∧
      QQuickPopup.isVisible (QQuickPopup.componentComplete (QQuickPopup.open d)) = false ∧
      (QQuickPopup.componentComplete (QQuickPopup.open d)).transitionManager = d.transitionManager ∧
      (QQuickPopup.componentComplete (QQuickPopup.open d)).emitted.count Signal.aboutToShow =
        d.emitted.count Signal.aboutToShow ∧
      QQuickPopup.close d = d ∧
      QQuickPopup.close { d with visible := true } = { d with visible := true } := by
  have ho : QQuickPopup.open d = d := by
    unfold QQuickPopup.open
    simp [hc, hv]
  have hf := QQuickPopup.resolveParent_frame { d with complete := true }
  have hcc : QQuickPopup.componentComplete d =
      (if ({ d with complete := true } : QQuickPopupPrivate).parentItem.isNone then
        QQuickPopup.setParentItem { d with complete := true }
          ({ d with complete := true } : QQuickPopupPrivate).parent
      else { d with complete := true }) := by
    unfold QQuickPopup.componentComplete
    simp only
    rw [if_neg]
    rw [hf.1]
    simp [hv]
  have hvis : (QQuickPopup.componentComplete d).visible = false := by
    rw [hcc, hf.1]
    exact hv
  refine ⟨ho, ?_, ?_, ?_, ?_, ?_, ?_⟩
  · rw [ho]
    exact hvis
  · rw [ho]
    unfold QQuickPopup.isVisible
    rw [hvis]
    rfl
  · rw [ho, hcc, hf.2.2.1]
  · rw [ho, hcc, hf.2.2.2]
  · unfold QQuickPopup.close
    simp [hc, hv]
  · unfold QQuickPopup.close
    simp [hc]

/-- C30 (at an instance): a new popup without parent. -/
theorem open_before_completion_is_dropped_witness :
    (QQuickPopup.create none).complete = false ∧ (QQuickPopup.create none).visible = false ∧
      QQuickPopup.open (QQuickPopup.create none) = QQuickPopup.create none ∧
      (QQuickPopup.componentComplete (QQuickPopup.open (QQuickPopup.create none))).transitionManager =
        ⟨TransitionState.Off, false⟩ :=
  ⟨rfl, rfl, (open_before_completion_is_dropped (QQuickPopup.create none) rfl rfl).1,
    (open_before_completion_is_dropped (QQuickPopup.create none) rfl rfl).2.2.2.1⟩

/-! ## Placement: idempotence -/

/-- The final rectangle of `reposition` depends on the popup item only through its
width, its implicit size and, without implicit height, its height. -/
theorem QQuickPopupPrivate.repositionRect_congr (d : QQuickPopupPrivate) (item : QQuickPopupItem)
    (hw : item.width = d.popupItem.width) (hiw : item.implicitWidth = d.popupItem.implicitWidth)
    (hih : item.implicitHeight = d.popupItem.implicitHeight)
    (hh : ¬ d.popupItem.implicitHeight > 0 → item.height = d.popupItem.height) :
    QQuickPopupPrivate.repositionRect { d with popupItem := item } = d.repositionRect := by
  have hc : QQuickPopupPrivate.candidateRect { d with popupItem := item } = d.candidateRect := by
    unfold QQuickPopupPrivate.candidateRect
    simp only [hw, hiw, hih]
    by_cases h : d.popupItem.implicitHeight > 0
    · rw [if_pos h, if_pos h]
    · rw [if_neg h, if_neg h, hh h]
  unfold QQuickPopupPrivate.repositionRect
  rw [hc]
  simp only [QQuickPopup.window, QQuickPopupPrivate.getMargins, QQuickPopup.leftMargin,
    QQuickPopup.topMargin, QQuickPopup.rightMargin, QQuickPopup.bottomMargin, QQuickPopup.margins,
    QQuickPopupPrivate.flipOrShrink, QQuickPopupPrivate.flippedRect, hih]

/-- C27: `reposition` is idempotent: run on the popup as the first run left it, it
changes nothing, so the popup item keeps its position and its height. -/
theorem reposition_idempotent (d : QQuickPopupPrivate) :
    d.reposition.reposition = d.reposition ∧
      d.reposition.reposition.popupItem.x = d.reposition.popupItem.x ∧
      d.reposition.reposition.popupItem.y = d.reposition.popupItem.y ∧
      d.reposition.reposition.popupItem.height = d.reposition.popupItem.height := by
  suffices h : d.reposition.reposition = d.reposition by
    rw [h]
    exact ⟨rfl, rfl, rfl, rfl⟩
  have hr : d.reposition.repositionRect = d.repositionRect := by
    rw [QQuickPopupPrivate.reposition_eq]
    apply QQuickPopupPrivate.repositionRect_congr
    · rfl
    · rfl
    · rfl
    · intro h
      simp only
      rw [if_neg (fun hc => h hc.2)]
  rw [QQuickPopupPrivate.reposition_eq d.reposition, hr]
  rw [QQuickPopupPrivate.reposition_eq d]
  simp only
  congr 2
  split_ifs <;> rfl

/-! ## Placement: the horizontal push and the flip -/

/-- After the push the left edge is within the left bound, when the left margin is
positive and the rectangle is not wider than the bounds. -/
theorem QQuickPopupPrivate.pushInside_left (m : QMarginsF) (b r : QRectF) (hbl : b.left = m.left)
    (hml : m.left > 0) (hw : r.w ≤ b.w) : b.left ≤ (QQuickPopupPrivate.pushInside m b r).left := by
  obtain ⟨rx, ry, rw, rh⟩ := r
  obtain ⟨bx, b_y, bw, bh⟩ := b
  simp only [QRectF.left] at hbl
  simp only at hw
  unfold QQuickPopupPrivate.pushInside
  simp only [QRectF.moveTop, QRectF.moveBottom, QRectF.moveLeft, QRectF.moveRight, QRectF.left,
    QRectF.right, QRectF.top, QRectF.bottom]
  split_ifs <;> simp only <;> first | linarith | (simp_all; try linarith)

/-- Unless the flipped rectangle is taken, the decision after the push keeps the
left edge and the width of the pushed rectangle. -/
theorem QQuickPopupPrivate.flipOrShrink_left (d : QQuickPopupPrivate) (parentItem : QQuickItem)
    (b r : QRectF)
    (hnot : ¬ ((r.top < b.top ∨ r.bottom > b.bottom) ∧
      (d.flippedRect parentItem r).top ≥ b.top ∧ (d.flippedRect parentItem r).bottom < b.bottom)) :
    (d.flipOrShrink parentItem b r).1.left = r.left ∧ (d.flipOrShrink parentItem b r).1.w = r.w := by
  unfold QQuickPopupPrivate.flipOrShrink
  by_cases hover : r.top < b.top ∨ r.bottom > b.bottom
  · rw [if_pos hover]
    simp only
    rw [if_neg (fun hf => hnot ⟨hover, hf⟩)]
    split_ifs <;> exact ⟨rfl, rfl⟩
  · rw [if_neg hover]
    exact ⟨rfl, rfl⟩

/-- For an anchored popup in a window with positive left margin whose rectangle is
not wider than the bounds: unless the flipped rectangle is taken, the final
rectangle of `reposition` has its left edge within the left bound. -/
theorem QQuickPopupPrivate.repositionRect_left_unless_flipped (d : QQuickPopupPrivate)
    (parentItem : QQuickItem) (window : QQuickWindow) (hp : d.parentItem = some parentItem)
    (hwin : parentItem.window = some window) (hml : d.getMargins.left > 0)
    (hw : d.candidateRect.width ≤ (QQuickPopupPrivate.marginBounds window d.getMargins).width)
    (hnot : ¬ (((d.pushedRect parentItem window).top <
          (QQuickPopupPrivate.marginBounds window d.getMargins).top ∨
        (d.pushedRect parentItem window).bottom >
          (QQuickPopupPrivate.marginBounds window d.getMargins).bottom) ∧
      (d.flippedRect parentItem (d.pushedRect parentItem window)).top ≥
        (QQuickPopupPrivate.marginBounds window d.getMargins).top ∧
      (d.flippedRect parentItem (d.pushedRect parentItem window)).bottom <
        (QQuickPopupPrivate.marginBounds window d.getMargins).bottom)) :
    (QQuickPopupPrivate.marginBounds window d.getMargins).left ≤ d.repositionRect.1.left := by
  rw [QQuickPopupPrivate.repositionRect_anchored d parentItem window hp hwin,
    (QQuickPopupPrivate.flipOrShrink_left d parentItem _ _ hnot).1]
  apply QQuickPopupPrivate.pushInside_left
  · simp [QQuickPopupPrivate.marginBounds, QRectF.marginsRemoved, QRectF.left]
  · exact hml
  · exact hw

/-- C28 (evaluated at the failing input): the popup of width 50 and height 100 at
x = -50, y = 310 under the anchor of height 500 in the 300 x 200 window, margins
10 with bottom margin 0. The left margin is positive and the popup is narrower
than the bounds (10,10)-(290,200). The push moves the left edge to the left
bound 10; the rectangle overflows the bottom bound, the flipped rectangle
(-50, 90, 50, 100) is taken, and the popup item is put at x = -50, left of the
left bound. -/
theorem flipped_placement_loses_horizontal_push :
    (Scene.leftOverhangPopup.getMargins.left > 0 ∧
      Scene.leftOverhangPopup.candidateRect.width ≤
        (QQuickPopupPrivate.marginBounds (Scene.window 300 200)
          Scene.leftOverhangPopup.getMargins).width) ∧
    (Scene.leftOverhangPopup.pushedRect (Scene.tallAnchor (Scene.window 300 200))
      (Scene.window 300 200)).left = 10 ∧
    (QQuickPopupPrivate.marginBounds (Scene.window 300 200) Scene.leftOverhangPopup.getMargins).left =
      10 ∧
    Scene.leftOverhangPopup.repositionRect.1 = ⟨-50, 90, 50, 100⟩ ∧
    Scene.leftOverhangPopup.reposition.popupItem.x = -50 ∧
    Scene.leftOverhangPopup.reposition.popupItem.y = 90 := by
  decide!

/-! ## Placement: the shrink fallback -/

/-- An intersection has no negative height; when its height is positive it lies
between the top and the bottom of the second rectangle. -/
theorem QRectF.intersected_vertical (a b : QRectF) (hb : 0 ≤ b.h) :
    0 ≤ (a.intersected b).height ∧
      (0 < (a.intersected b).height →
        b.top ≤ (a.intersected b).y ∧
          (a.intersected b).y + (a.intersected b).height ≤ b.bottom) := by
  obtain ⟨ax, ay, aw, ah⟩ := a
  obtain ⟨bx, b_y, bw, bh⟩ := b
  simp only at hb
  unfold QRectF.intersected QRectF.height QRectF.null QRectF.y QRectF.top QRectF.bottom
  simp only [if_neg (not_lt.mpr hb)]
  generalize (if aw < 0 then ax + aw else ax) = l1
  generalize (if aw < 0 then ax else ax + aw) = r1
  generalize (if bw < 0 then bx + bw else bx) = l2
  generalize (if bw < 0 then bx else bx + bw) = r2
  have ht : (if ah < 0 then ay + ah else ay) ≤ (if ah < 0 then ay else ay + ah) := by
    split_ifs <;> linarith
  generalize (if ah < 0 then ay + ah else ay) = t1 at ht ⊢
  generalize (if ah < 0 then ay else ay + ah) = b1 at ht ⊢
  have h1 := le_max_right t1 b_y
  have h2 := min_le_right b1 (b_y + bh)
  have h3 : t1 < b_y + bh → b_y < b1 → ¬ b_y = b_y + bh → ¬ t1 = b1 →
      max t1 b_y < min b1 (b_y + bh) := by
    intro c1 c2 c5 e
    have hlt : t1 < b1 := lt_of_le_of_ne ht e
    have hbh : 0 < bh := by
      rcases lt_or_eq_of_le hb with h | h
      · exact h
      · exact absurd (by linarith) c5
    rw [max_lt_iff, lt_min_iff, lt_min_iff]
    exact ⟨⟨hlt, c1⟩, ⟨c2, by linarith⟩⟩
  split_ifs with c1 c2 c3 c4 c5 c6
  all_goals simp only
  all_goals first
    | exact ⟨le_refl _, fun h => absurd h (lt_irrefl _)⟩
    | (refine ⟨?_, fun _ => ⟨h1, by linarith⟩⟩
       push_neg at c6
       have := h3 c6.1 c6.2 c5 c4
       linarith)

/-- The shrink fallback of `reposition`: the rectangle it ends with has no negative
height, and when that height is positive the rectangle lies between the top and
the bottom bound. -/
theorem QQuickPopupPrivate.flipOrShrink_shrunk (d : QQuickPopupPrivate) (parentItem : QQuickItem)
    (b r : QRectF) (hb : 0 ≤ b.h) (hover : r.top < b.top ∨ r.bottom > b.bottom)
    (hflip : ¬ ((d.flippedRect parentItem r).top ≥ b.top ∧ (d.flippedRect parentItem r).bottom < b.bottom))
    (hih : d.popupItem.implicitHeight > 0) :
    0 ≤ (d.flipOrShrink parentItem b r).1.height ∧
      (0 < (d.flipOrShrink parentItem b r).1.height →
        b.top ≤ (d.flipOrShrink parentItem b r).1.top ∧
          (d.flipOrShrink parentItem b r).1.bottom ≤ b.bottom) := by
  unfold QQuickPopupPrivate.flipOrShrink
  rw [if_pos hover]
  simp only
  rw [if_neg hflip, if_pos hih]
  split_ifs
  · exact QRectF.intersected_vertical r b hb
  · exact QRectF.intersected_vertical (d.flippedRect parentItem r) b hb

/-- C29 (evaluated at the failing input): the popup of width 50 with height and
implicit height 300 at x = -500, y = 300 under the anchor of height 500 in the
300 x 200 window, margins 10 with left margin 0. The pushed rectangle
(-500,-110,50,300) overflows the top bound 10, the flipped rectangle
(-500,-100,50,300) does not fit, and neither overlaps the bounds (0,10)-(290,190):
both intersections are null, the final rectangle is (-500, 0, 50, 0), and the
popup item is put at y = 0 with height 0, above the top bound. -/
theorem shrink_without_intersection_leaves_bounds :
    ((Scene.farLeftPopup.pushedRect (Scene.tallAnchor (Scene.window 300 200))
          (Scene.window 300 200)).top <
        (QQuickPopupPrivate.marginBounds (Scene.window 300 200) Scene.farLeftPopup.getMargins).top ∧
      ¬ ((Scene.farLeftPopup.flippedRect (Scene.tallAnchor (Scene.window 300 200))
            (Scene.farLeftPopup.pushedRect (Scene.tallAnchor (Scene.window 300 200))
              (Scene.window 300 200))).top ≥
          (QQuickPopupPrivate.marginBounds (Scene.window 300 200) Scene.farLeftPopup.getMargins).top ∧
        (Scene.farLeftPopup.flippedRect (Scene.tallAnchor (Scene.window 300 200))
            (Scene.farLeftPopup.pushedRect (Scene.tallAnchor (Scene.window 300 200))
              (Scene.window 300 200))).bottom <
          (QQuickPopupPrivate.marginBounds (Scene.window 300 200)
            Scene.farLeftPopup.getMargins).bottom) ∧
      Scene.farLeftPopup.popupItem.implicitHeight > 0) ∧
    (QQuickPopupPrivate.marginBounds (Scene.window 300 200) Scene.farLeftPopup.getMargins).top = 10 ∧
    Scene.farLeftPopup.repositionRect = (⟨-500, 0, 50, 0⟩, true) ∧
    Scene.farLeftPopup.repositionRect.1.top <
      (QQuickPopupPrivate.marginBounds (Scene.window 300 200) Scene.farLeftPopup.getMargins).top ∧
    Scene.farLeftPopup.reposition.popupItem.y = 0 ∧
    Scene.farLeftPopup.reposition.popupItem.height = 0 := by
  decide!

/-! ## Overlay: routing of presses -/

theorem QQuickOverlayPrivate.stackingOrderPopups_eq (s : OverlayScene) :
    QQuickOverlayPrivate.stackingOrderPopups s = popupsOf s.paintOrderChildItems.reverse := rfl

/-- The stacking order lists exactly the attached popups. -/
theorem QQuickOverlayPrivate.stackingOrderPopups_perm (s : OverlayScene) :
    (QQuickOverlayPrivate.stackingOrderPopups s).Perm s.attachedPopups := by
  have h : (popupsOf s.paintOrderChildItems.reverse).Perm (popupsOf s.overlay.childItems) :=
    List.Perm.filterMap _
      ((List.reverse_perm _).trans (List.perm_insertionSort _ s.overlay.childItems))
  exact h

/-- The stacking order runs from the highest z to the lowest. -/
theorem QQuickOverlayPrivate.stackingOrderPopups_pairwise (s : OverlayScene) :
    (QQuickOverlayPrivate.stackingOrderPopups s).Pairwise
      (fun a b => (s.popup b).d.popupItem.z ≤ (s.popup a).d.popupItem.z) := by
  haveI : IsTotal OverlayChild (fun a b => s.childZ a ≤ s.childZ b) := ⟨fun _ _ => le_total _ _⟩
  haveI : IsTrans OverlayChild (fun a b => s.childZ a ≤ s.childZ b) := ⟨fun _ _ _ => le_trans⟩
  have hs : List.Sorted (fun a b => s.childZ a ≤ s.childZ b) s.paintOrderChildItems :=
    List.sorted_insertionSort _ _
  have hr : s.paintOrderChildItems.reverse.Pairwise (fun a b => s.childZ b ≤ s.childZ a) :=
    List.pairwise_reverse.mpr hs
  have h : (popupsOf s.paintOrderChildItems.reverse).Pairwise
      (fun a b => (s.popup b).d.popupItem.z ≤ (s.popup a).d.popupItem.z) := by
    unfold popupsOf
    rw [List.pairwise_filterMap]
    refine hr.imp ?_
    intro a b hab p hp q hq
    cases a <;> cases b <;> simp at hp hq
    subst hp
    subst hq
    exact hab
  exact h

/-- Among popup items of equal z the later child comes first in the stacking
order; more generally, when the item of `p` comes before the item of `q` among
the children and is not above it, `q` comes before `p` in the stacking order. -/
theorem QQuickOverlayPrivate.stackingOrderPopups_stable (s : OverlayScene) (p q : Nat)
    (hpq : List.Sublist [OverlayChild.popupItem p, OverlayChild.popupItem q] s.overlay.childItems)
    (hz : (s.popup p).d.popupItem.z ≤ (s.popup q).d.popupItem.z) :
    List.Sublist [q, p] (QQuickOverlayPrivate.stackingOrderPopups s) := by
  have h1 : List.Sublist [OverlayChild.popupItem p, OverlayChild.popupItem q] s.paintOrderChildItems :=
    List.pair_sublist_insertionSort hz hpq
  have h2 := (List.Sublist.reverse h1).filterMap (fun c =>
    match c with
    | OverlayChild.popupItem p => some p
    | _ => none)
  exact h2

/-- The loop over the popups for a press, on a list split into popups that are not
modal and a rest that is empty or starts with a modal popup: the popups called
are those of the first part and the head of the rest, which is the result. -/
theorem OverlayScene.offerInOrder_press (item : QQuickItem) (rest : List Nat) :
    ∀ (front : List Nat) (s : OverlayScene) (event : QEvent),
      event.type = QEventType.MouseButtonPress →
      (∀ q ∈ front, (s.popup q).d.modal = false) →
      (∀ P ∈ rest.head?, (s.popup P).d.modal = true) →
        (s.offerInOrder item event (front ++ rest)).2.2 = rest.head? ∧
        (s.offerInOrder item event (front ++ rest)).1.offered =
          s.offered ++ (front ++ rest.head?.toList).map (fun q =>
            Offer.mk q QEventType.MouseButtonPress s.overlay.mouseGrabberPopup) := by
  intro front
  induction front with
  | nil =>
    intro s event hpress _ hrest
    cases rest with
    | nil => simp [OverlayScene.offerInOrder]
    | cons P behind =>
      have hm : (s.popup P).d.modal = true := hrest P (by simp)
      have hr : (s.offer P item event).2.2 = true := by
        rw [OverlayScene.offer_press s P item event hpress, hm]
      have hf := OverlayScene.offer_frame s P item event
      simp only [List.nil_append, OverlayScene.offerInOrder, hr, if_true, List.head?_cons,
        Option.toList, List.map_cons, List.map_nil, true_and]
      rw [hf.2.1, hpress]
  | cons q front ih =>
    intro s event hpress hfront hrest
    have hm : (s.popup q).d.modal = false := hfront q (by simp)
    have hr : ¬ (s.offer q item event).2.2 = true := by
      rw [OverlayScene.offer_press s q item event hpress, hm]
      simp
    have hf := OverlayScene.offer_frame s q item event
    rw [List.cons_append, OverlayScene.offerInOrder]
    rw [if_neg hr]
    have h := ih (s.offer q item event).1 (s.offer q item event).2.1
      (by rw [OverlayScene.offer_type, hpress])
      (fun x hx => by rw [hf.2.2 x]; exact hfront x (List.mem_cons_of_mem _ hx))
      (fun x hx => by rw [hf.2.2 x]; exact hrest x hx)
    refine ⟨h.1, ?_⟩
    rw [h.2, hf.2.1, hf.1, hpress, List.append_assoc]
    rfl

/-- C21: on a press, `QQuickOverlay::event` calls `overlayEvent` of the attached
popups in stacking order and stops at the first call that returns true. The
stacking order is the reversed paint order of the children restricted to popup
items; it lists exactly the attached popups, from the highest z to the lowest.
Let the stacking order be `front ++ rest`, where `overlayEvent` returns false for
the press on every popup of `front`, and `rest` is empty or `overlayEvent` returns
true on its first popup `P`. When there is such a `P`, the calls made are those
of the popups of `front` in order and then the one of `P`, none of a popup
behind `P`; `P` becomes the grab holder and `event` returns true. When `rest` is
empty, every popup was called, the grab holder is unchanged and the value of the
inherited `event` is returned. The value `overlayEvent` returns for a press is
the modal flag of the popup, whatever the item and the accepted flag of the
event, and no call changes a modal flag, so the values taken in the scene before
the press are those of the calls made in the loop. -/
theorem press_routing (s : OverlayScene) (pos : QPointF) (accepted inherited : Bool)
    (front rest : List Nat)
    (horder : QQuickOverlayPrivate.stackingOrderPopups s = front ++ rest)
    (hfront : ∀ q ∈ front, (QQuickPopup.overlayEvent (s.popup q).d s.overlayItem
      ⟨QEventType.MouseButtonPress, pos, accepted⟩).2.2 = false)
    (hrest : ∀ P ∈ rest.head?, (QQuickPopup.overlayEvent (s.popup P).d s.overlayItem
      ⟨QEventType.MouseButtonPress, pos, accepted⟩).2.2 = true) :
    QQuickOverlayPrivate.stackingOrderPopups s = popupsOf s.paintOrderChildItems.reverse ∧
      (QQuickOverlayPrivate.stackingOrderPopups s).Perm s.attachedPopups ∧
      (QQuickOverlayPrivate.stackingOrderPopups s).Pairwise
        (fun a b => (s.popup b).d.popupItem.z ≤ (s.popup a).d.popupItem.z) ∧
      match rest with
      | P :: _ =>
        (QQuickOverlay.event s ⟨QEventType.MouseButtonPress, pos, accepted⟩ inherited).1.offered =
          s.offered ++ (front ++ [P]).map (fun q =>
            Offer.mk q QEventType.MouseButtonPress s.overlay.mouseGrabberPopup) ∧
        (QQuickOverlay.event s ⟨QEventType.MouseButtonPress, pos, accepted⟩
          inherited).1.overlay.mouseGrabberPopup = some P ∧
        (QQuickOverlay.event s ⟨QEventType.MouseButtonPress, pos, accepted⟩ inherited).2.2 = true
      | [] =>
        (QQuickOverlay.event s ⟨QEventType.MouseButtonPress, pos, accepted⟩ inherited).1.offered =
          s.offered ++ (QQuickOverlayPrivate.stackingOrderPopups s).map (fun q =>
            Offer.mk q QEventType.MouseButtonPress s.overlay.mouseGrabberPopup) ∧
        (QQuickOverlay.event s ⟨QEventType.MouseButtonPress, pos, accepted⟩
          inherited).1.overlay.mouseGrabberPopup = s.overlay.mouseGrabberPopup ∧
        (QQuickOverlay.event s ⟨QEventType.MouseButtonPress, pos, accepted⟩ inherited).2.2 =
          inherited := by
  refine ⟨rfl, QQuickOverlayPrivate.stackingOrderPopups_perm s,
    QQuickOverlayPrivate.stackingOrderPopups_pairwise s, ?_⟩
  have hfront2 : ∀ q ∈ front, (s.popup q).d.modal = false := fun q hq => by
    rw [← QQuickPopup.overlayEvent_press (s.popup q).d s.overlayItem
      ⟨QEventType.MouseButtonPress, pos, accepted⟩ rfl]
    exact hfront q hq
  have hrest2 : ∀ P ∈ rest.head?, (s.popup P).d.modal = true := fun P hP => by
    rw [← QQuickPopup.overlayEvent_press (s.popup P).d s.overlayItem
      ⟨QEventType.MouseButtonPress, pos, accepted⟩ rfl]
    exact hrest P hP
  have hloop := OverlayScene.offerInOrder_press
    (OverlayScene.overlayItem { s with overlay := { s.overlay with emitted := s.overlay.emitted ++ [OverlaySignal.pressed] } })
    rest front
    { s with overlay := { s.overlay with emitted := s.overlay.emitted ++ [OverlaySignal.pressed] } }
    ⟨QEventType.MouseButtonPress, pos, accepted⟩ rfl hfront2 hrest2
  have hgrab := OverlayScene.offerInOrder_mouseGrabberPopup
    (OverlayScene.overlayItem { s with overlay := { s.overlay with emitted := s.overlay.emitted ++ [OverlaySignal.pressed] } })
    (front ++ rest)
    { s with overlay := { s.overlay with emitted := s.overlay.emitted ++ [OverlaySignal.pressed] } }
    ⟨QEventType.MouseButtonPress, pos, accepted⟩
  have horder2 : QQuickOverlayPrivate.stackingOrderPopups
      { s with overlay := { s.overlay with emitted := s.overlay.emitted ++ [OverlaySignal.pressed] } } =
      front ++ rest := horder
  unfold QQuickOverlay.event
  simp only [horder2, horder]
  cases rest with
  | nil =>
    simp only [List.head?_nil] at hloop
    simp only [hloop.1]
    refine ⟨?_, hgrab, trivial⟩
    rw [hloop.2]
    simp
  | cons P behind =>
    simp only [List.head?_cons] at hloop
    simp only [hloop.1]
    refine ⟨?_, trivial, trivial⟩
    rw [hloop.2]
    simp

/-- Witness of `press_routing`: the plain popup 1, the modal popup 4 and the plain
popup 5 are attached in this order, so the stacking order is 5, 4, 1. Popup 5
returns false and popup 4 returns true for the press; the press is offered to
popup 5 and then to popup 4, not to popup 1, and popup 4 becomes the grab
holder. -/
theorem press_routing_witness :
    QQuickOverlayPrivate.stackingOrderPopups
        (Scene.overlayScene.runAll [.attach 1, .attach 4, .attach 5]) = [5] ++ [4, 1] ∧
      (∀ q ∈ [5], (QQuickPopup.overlayEvent
        ((Scene.overlayScene.runAll [.attach 1, .attach 4, .attach 5]).popup q).d
        (Scene.overlayScene.runAll [.attach 1, .attach 4, .attach 5]).overlayItem
        ⟨QEventType.MouseButtonPress, ⟨50, 50⟩, false⟩).2.2 = false) ∧
      (QQuickPopup.overlayEvent
        ((Scene.overlayScene.runAll [.attach 1, .attach 4, .attach 5]).popup 4).d
        (Scene.overlayScene.runAll [.attach 1, .attach 4, .attach 5]).overlayItem
        ⟨QEventType.MouseButtonPress, ⟨50, 50⟩, false⟩).2.2 = true ∧
      (QQuickOverlay.event (Scene.overlayScene.runAll [.attach 1, .attach 4, .attach 5])
        ⟨QEventType.MouseButtonPress, ⟨50, 50⟩, false⟩ false).1.offered =
        (Scene.overlayScene.runAll [.attach 1, .attach 4, .attach 5]).offered ++
          [Offer.mk 5 QEventType.MouseButtonPress none, Offer.mk 4 QEventType.MouseButtonPress none] ∧
      (QQuickOverlay.event (Scene.overlayScene.runAll [.attach 1, .attach 4, .attach 5])
        ⟨QEventType.MouseButtonPress, ⟨50, 50⟩, false⟩
        false).1.overlay.mouseGrabberPopup = some 4 ∧
      (QQuickOverlay.event (Scene.overlayScene.runAll [.attach 1, .attach 4, .attach 5])
        ⟨QEventType.MouseButtonPress, ⟨50, 50⟩, false⟩ false).2.2 = true := by
  have horder : QQuickOverlayPrivate.stackingOrderPopups
      (Scene.overlayScene.runAll [.attach 1, .attach 4, .attach 5]) = [5] ++ [4, 1] := by decide!
  have hfront : ∀ q ∈ [5], (QQuickPopup.overlayEvent
      ((Scene.overlayScene.runAll [.attach 1, .attach 4, .attach 5]).popup q).d
      (Scene.overlayScene.runAll [.attach 1, .attach 4, .attach 5]).overlayItem
      ⟨QEventType.MouseButtonPress, ⟨50, 50⟩, false⟩).2.2 = false := by decide!
  have hP : (QQuickPopup.overlayEvent
      ((Scene.overlayScene.runAll [.attach 1, .attach 4, .attach 5]).popup 4).d
      (Scene.overlayScene.runAll [.attach 1, .attach 4, .attach 5]).overlayItem
      ⟨QEventType.MouseButtonPress, ⟨50, 50⟩, false⟩).2.2 = true := by decide!
  have h := press_routing (Scene.overlayScene.runAll [.attach 1, .attach 4, .attach 5])
    ⟨50, 50⟩ false false [5] [4, 1] horder hfront
    (fun P hP4 => by
      have e : P = 4 := by simpa using hP4.symm
      rw [e]
      exact hP)
  have hg : (Scene.overlayScene.runAll [.attach 1, .attach 4, .attach 5]).overlay.mouseGrabberPopup =
      none := by decide!
  refine ⟨horder, hfront, hP, ?_, h.2.2.2.2.1, h.2.2.2.2.2⟩
  rw [h.2.2.2.1, hg]
  rfl

/-! ## Overlay: the child filter stops at the pressed popup -/

/-- The loop of `childMouseEventFilter` calls only popups that come in the list
before the first popup whose popup item is `child`, in order. -/
theorem OverlayScene.filterInOrder_offered (child : OverlayChild) (item : QQuickItem)
    (popups : List Nat) :
    ∀ (s : OverlayScene) (event : QEvent),
      ∃ offeredTo, offeredTo <+: popups.takeWhile (fun q => decide (OverlayChild.popupItem q ≠ child)) ∧
        (s.filterInOrder child item event popups).1.offered =
          s.offered ++ offeredTo.map fun q => Offer.mk q event.type s.overlay.mouseGrabberPopup := by
  induction popups with
  | nil =>
    intro s event
    exact ⟨[], List.prefix_refl _, by simp [OverlayScene.filterInOrder]⟩
  | cons p popups ih =>
    intro s event
    simp only [OverlayScene.filterInOrder]
    by_cases hp : OverlayChild.popupItem p = child
    · rw [if_pos hp]
      exact ⟨[], List.nil_prefix, by simp⟩
    · rw [if_neg hp]
      have htw : (p :: popups).takeWhile (fun q => decide (OverlayChild.popupItem q ≠ child)) =
          p :: popups.takeWhile (fun q => decide (OverlayChild.popupItem q ≠ child)) := by
        rw [List.takeWhile_cons_of_pos]
        simpa using hp
      rw [htw]
      have hf := OverlayScene.offer_frame s p item event
      by_cases hr : (s.offer p item event).2.2 = true
      · rw [if_pos hr]
        refine ⟨[p], ?_, hf.2.1⟩
        exact List.prefix_cons_inj p |>.2 List.nil_prefix
      · rw [if_neg hr]
        obtain ⟨offeredTo, h1, h2⟩ := ih (s.offer p item event).1 (s.offer p item event).2.1
        refine ⟨p :: offeredTo, (List.prefix_cons_inj p).2 h1, ?_⟩
        rw [h2, hf.2.1, hf.1, OverlayScene.offer_type, List.append_assoc]
        rfl

theorem OverlayScene.filterInOrder_head (s : OverlayScene) (P : Nat) (item : QQuickItem)
    (event : QEvent) (behind : List Nat) :
    s.filterInOrder (.popupItem P) item event (P :: behind) = (s, event, false) := by
  simp [OverlayScene.filterInOrder]

/-- C24: when the pressed item lies in the popup item of `P`,
`childMouseEventFilter` calls `overlayEvent` only of popups that come before `P`
in the stacking order, in order, and of no popup at or behind `P`. When `P` is
the frontmost popup, and for every event that is no press, and whenever the
counter `modalPopups` is 0, it returns false and leaves the scene and the event
as they are, so no popup is called. -/
theorem child_filter_stops_at_pressed_popup (s : OverlayScene) (P : Nat) (child : OverlayChild)
    (event : QEvent) :
    (∃ offeredTo,
        offeredTo <+: (QQuickOverlayPrivate.stackingOrderPopups s).takeWhile (fun q => decide (q ≠ P)) ∧
        (QQuickOverlay.childMouseEventFilter s (.popupItem P) event).1.offered =
          s.offered ++ offeredTo.map (fun q => Offer.mk q event.type s.overlay.mouseGrabberPopup)) ∧
      (∀ behind, QQuickOverlayPrivate.stackingOrderPopups s = P :: behind →
        QQuickOverlay.childMouseEventFilter s (.popupItem P) event = (s, event, false)) ∧
      (s.overlay.modalPopups = 0 ∨ event.type ≠ QEventType.MouseButtonPress →
        QQuickOverlay.childMouseEventFilter s child event = (s, event, false)) := by
  refine ⟨?_, ?_, ?_⟩
  · unfold QQuickOverlay.childMouseEventFilter
    split_ifs
    · exact ⟨[], List.nil_prefix, by simp⟩
    · exact ⟨[], List.nil_prefix, by simp⟩
    · obtain ⟨offeredTo, h1, h2⟩ := OverlayScene.filterInOrder_offered (.popupItem P)
        (s.childItem (.popupItem P)) (QQuickOverlayPrivate.stackingOrderPopups s) s event
      refine ⟨offeredTo, ?_, h2⟩
      have he : (fun q => decide (OverlayChild.popupItem q ≠ OverlayChild.popupItem P)) =
          (fun q => decide (q ≠ P)) := by
        funext q
        simp
      rw [he] at h1
      exact h1
  · intro behind hstack
    unfold QQuickOverlay.childMouseEventFilter
    split_ifs
    · rfl
    · rfl
    · rw [hstack]
      exact OverlayScene.filterInOrder_head s P _ event behind
  · intro h
    unfold QQuickOverlay.childMouseEventFilter
    rcases h with h | h
    · rw [if_pos h]
    · split_ifs
      · rfl
      · rfl

/-- C24 (at an instance): the modal popup 4 is attached in front of the plain
popup 1 and the counter is 1; a press in popup 4, the frontmost popup, is not
filtered and no popup is called. -/
theorem child_filter_stops_at_pressed_popup_witness :
    QQuickOverlayPrivate.stackingOrderPopups (Scene.overlayScene.runAll [.attach 1, .attach 4]) =
        4 :: [1] ∧
      (Scene.overlayScene.runAll [.attach 1, .attach 4]).overlay.modalPopups = 1 ∧
      (QQuickOverlay.childMouseEventFilter (Scene.overlayScene.runAll [.attach 1, .attach 4])
        (.popupItem 4) Scene.pressBesidePopup).2.2 = false ∧
      (QQuickOverlay.childMouseEventFilter (Scene.overlayScene.runAll [.attach 1, .attach 4])
        (.popupItem 4) Scene.pressBesidePopup).1.offered = [] := by
  have h := (child_filter_stops_at_pressed_popup (Scene.overlayScene.runAll [.attach 1, .attach 4]) 4
    (.popupItem 4) Scene.pressBesidePopup).2.1 [1] (by decide!)
  refine ⟨by decide!, by decide!, ?_, ?_⟩
  · rw [h]
  · rw [h]
    decide!

/-! ## Overlay: the dimmer that is created -/

theorem QQuickOverlayPrivate.createDimmer_popup_eq (s : OverlayScene) (c : Option QQmlComponent)
    (p q : Nat) : (QQuickOverlayPrivate.createDimmer s c p).1.popup q = s.popup q := by
  rw [QQuickOverlayPrivate.createDimmer_popup]

theorem QQuickOverlayPrivate.createDimmer_overlay_size (s : OverlayScene) (c : Option QQmlComponent)
    (p : Nat) :
    (QQuickOverlayPrivate.createDimmer s c p).1.overlay.width = s.overlay.width ∧
      (QQuickOverlayPrivate.createDimmer s c p).1.overlay.height = s.overlay.height :=
  ⟨(QQuickOverlayPrivate.createDimmer_same s c p).width,
    (QQuickOverlayPrivate.createDimmer_same s c p).height⟩

/-- The item `createDimmer` returns, before it is resized. -/
theorem QQuickOverlayPrivate.createDimmer_item (s : OverlayScene) (p : Nat) :
    (QQuickOverlayPrivate.createDimmer s
        (if (s.popup p).d.modal then s.overlay.modal else s.overlay.modeless) p).2 =
      (s.dimmerFor p).map fun dimmer => { dimmer with width := 0, height := 0 } := by
  unfold QQuickOverlayPrivate.createDimmer OverlayScene.dimmerFor
  cases hm : (s.popup p).d.modal <;> cases hd : (s.popup p).drawer
  · rcases hc : s.overlay.modeless with _ | c
    · simp [QQuickOverlayPrivate.childItemsChanged, hm, hd]
    · cases hi : c.createsItem <;> simp [hi, QQuickOverlayPrivate.childItemsChanged, hm, hd]
  · rcases hc : s.overlay.modeless with _ | c
    · simp [QQuickOverlayPrivate.childItemsChanged, hm, hd]
    · cases hi : c.createsItem <;> simp [hi, QQuickOverlayPrivate.childItemsChanged, hm, hd]
  · rcases hc : s.overlay.modal with _ | c
    · simp [QQuickOverlayPrivate.childItemsChanged, hm, hd]
    · cases hi : c.createsItem <;> simp [hi, QQuickOverlayPrivate.childItemsChanged, hm, hd]
  · rcases hc : s.overlay.modal with _ | c
    · simp [QQuickOverlayPrivate.childItemsChanged, hm, hd]
    · cases hi : c.createsItem <;> simp [hi, QQuickOverlayPrivate.childItemsChanged, hm, hd]

/-- The dimmer `createOverlay` gives a popup that has none. -/
theorem QQuickOverlayPrivate.createOverlay_dimmer (s : OverlayScene) (p : Nat)
    (h : (s.popup p).dimmer = none) :
    ((QQuickOverlayPrivate.createOverlay s p).popup p).dimmer = s.dimmerFor p := by
  unfold QQuickOverlayPrivate.createOverlay
  simp only [h]
  unfold QQuickOverlayPrivate.resizeOverlay
  simp only [OverlayScene.setPopup_popup_self, OverlayScene.setPopup_overlay,
    QQuickOverlayPrivate.createDimmer_item,
    (QQuickOverlayPrivate.createDimmer_overlay_size s _ p).1,
    (QQuickOverlayPrivate.createDimmer_overlay_size s _ p).2]
  rcases hd : s.dimmerFor p with _ | dimmer
  · simp
  · simp only [Option.map_some', OverlayScene.setPopup_popup_self]
    have hwh : dimmer.width = s.overlay.width ∧ dimmer.height = s.overlay.height := by
      unfold OverlayScene.dimmerFor at hd
      simp only at hd
      split at hd
      · split_ifs at hd <;> simp only [Option.some.injEq, reduceCtorEq] at hd <;> subst hd <;>
          exact ⟨rfl, rfl⟩
      · split_ifs at hd <;> simp only [Option.some.injEq, reduceCtorEq] at hd <;> subst hd <;>
          exact ⟨rfl, rfl⟩
    obtain ⟨dc, dop, dz, dw, dh, da⟩ := dimmer
    simp only at hwh
    simp [hwh.1, hwh.2]

theorem OverlayScene.dimmerFor_congr (s t : OverlayScene) (p : Nat) (hd : (t.popup p).d = (s.popup p).d)
    (hdrawer : (t.popup p).drawer = (s.popup p).drawer) (hm : t.overlay.modal = s.overlay.modal)
    (hl : t.overlay.modeless = s.overlay.modeless) (hw : t.overlay.width = s.overlay.width)
    (hh : t.overlay.height = s.overlay.height) : t.dimmerFor p = s.dimmerFor p := by
  unfold OverlayScene.dimmerFor
  rw [hd, hdrawer, hm, hl, hw, hh]

theorem OverlayScene.SameButDimmers.dimmerFor {s t : OverlayScene} (h : s.SameButDimmers t) (p : Nat) :
    t.dimmerFor p = s.dimmerFor p :=
  OverlayScene.dimmerFor_congr s t p (h.d p) (h.drawer p) h.modal h.modeless h.width h.height

theorem OverlayScene.dimmerFor_isSome (s : OverlayScene) (p : Nat) :
    (s.dimmerFor p).isSome = s.dimmerAvailable p := by
  unfold OverlayScene.dimmerFor OverlayScene.dimmerAvailable
  simp only
  cases hm : (s.popup p).d.modal
  · rcases hc : s.overlay.modeless with _ | c
    · simp
    · cases hi : c.createsItem <;> simp [hi]
  · rcases hc : s.overlay.modal with _ | c
    · simp
    · cases hi : c.createsItem <;> simp [hi]

/-- The dimmer of `p` after the slot `toggleOverlay` ran for it. -/
theorem QQuickOverlayPrivate.toggleOverlay_dimmer (s : OverlayScene) (p : Nat) :
    ((QQuickOverlayPrivate.toggleOverlay s (some p)).popup p).dimmer =
      if (s.popup p).dim then s.dimmerFor p else none := by
  unfold QQuickOverlayPrivate.toggleOverlay
  simp only
  have hs := QQuickOverlayPrivate.destroyOverlay_same s p
  have hn : ((QQuickOverlayPrivate.destroyOverlay s p).popup p).dimmer = none := by
    rw [QQuickOverlayPrivate.destroyOverlay_dimmer, if_pos rfl]
  rw [hs.dim p]
  by_cases hd : (s.popup p).dim = true
  · rw [if_pos hd, if_pos hd, QQuickOverlayPrivate.createOverlay_dimmer _ p hn, hs.dimmerFor]
  · rw [if_neg hd, if_neg hd, hn]

/-- Where `stackBefore` puts a new last child: right before the sibling. -/
theorem stackBefore_append (l : List OverlayChild) (me sibling : OverlayChild) (hne : sibling ≠ me)
    (hme : me ∉ l) (hs : sibling ∈ l) :
    ∃ front behind, l = front ++ sibling :: behind ∧
      stackBefore (l ++ [me]) me sibling = front ++ me :: sibling :: behind := by
  have hdrop : ∀ l : List OverlayChild, sibling ∈ l →
      ∃ behind, l.dropWhile (fun c => decide (c ≠ sibling)) = sibling :: behind := by
    intro l
    induction l with
    | nil => intro h; simp at h
    | cons a l ih =>
      intro h
      by_cases ha : a = sibling
      · subst ha
        exact ⟨l, by simp⟩
      · have hl : sibling ∈ l := by
          rcases List.mem_cons.1 h with h1 | h1
          · exact absurd h1.symm ha
          · exact h1
        obtain ⟨behind, hb⟩ := ih hl
        exact ⟨behind, by rw [List.dropWhile_cons_of_pos (by simpa using ha), hb]⟩
  obtain ⟨behind, hb⟩ := hdrop l hs
  refine ⟨l.takeWhile (fun c => decide (c ≠ sibling)), behind, ?_, ?_⟩
  · rw [← hb, List.takeWhile_append_dropWhile]
  · unfold stackBefore
    rw [if_neg (by
      rintro (h | h | h)
      · exact hne h
      · exact h (by simp)
      · exact h (List.mem_append_left _ hs))]
    have he : (l ++ [me]).erase me = l := by
      rw [List.erase_append_right _ hme]
      simp
    rw [he, hb]

/-- C26 (as stated, refuted): popup 3 is not modal; the template of the overlay for
dimmers of popups that are not modal yields an item that accepts hover events.
The dimmer created when popup 3 is attached accepts hover events, although the
popup is not modal. -/
theorem dimmer_of_modeless_popup_accepts_hover :
    ((Scene.hoverScene.runAll [.attach 3]).popup 3).d.modal = false ∧
      ((Scene.hoverScene.runAll [.attach 3]).popup 3).dimmer =
        some ⟨some Scene.hoverTemplate, 0, 0, 400, 400, true⟩ := by
  decide!

/-- C26 (amended): the dimmer `createOverlay` makes for a popup without dimmer whose
popup item is a child of the overlay has opacity 1 if the popup is visible and 0
otherwise, the z value of the popup, and the width and height of the overlay; it
is a child of the overlay, placed right before the popup item; and it accepts
hover events exactly when the popup is modal and no drawer or the item its
template yields accepts them (a plain item accepts them exactly when the popup is
modal and no drawer). -/
theorem dimmer_creation_postconditions (s : OverlayScene) (p : Nat) (dimmer : Dimmer)
    (hnone : (s.popup p).dimmer = none)
    (hchild : OverlayChild.popupItem p ∈ s.overlay.childItems)
    (hnot : OverlayChild.dimmer p ∉ s.overlay.childItems)
    (hmade : ((QQuickOverlayPrivate.createOverlay s p).popup p).dimmer = some dimmer) :
    dimmer.opacity = (if QQuickPopup.isVisible (s.popup p).d then 1 else 0) ∧
      dimmer.z = (s.popup p).d.popupItem.z ∧
      dimmer.width = (QQuickOverlayPrivate.createOverlay s p).overlay.width ∧
      dimmer.height = (QQuickOverlayPrivate.createOverlay s p).overlay.height ∧
      (∃ front behind, s.overlay.childItems = front ++ .popupItem p :: behind ∧
        (QQuickOverlayPrivate.createOverlay s p).overlay.childItems =
          front ++ .dimmer p :: .popupItem p :: behind) ∧
      dimmer.acceptHoverEvents =
        ((match dimmer.component with
          | some c => c.acceptHoverEvents
          | none => false) || ((s.popup p).d.modal && !(s.popup p).drawer)) := by
  have hs := QQuickOverlayPrivate.createOverlay_same s p
  have hfor : s.dimmerFor p = some dimmer := by
    rw [← QQuickOverlayPrivate.createOverlay_dimmer s p hnone]
    exact hmade
  have hav : s.dimmerAvailable p = true := by
    rw [← OverlayScene.dimmerFor_isSome, hfor]
    rfl
  have hlist : (QQuickOverlayPrivate.createOverlay s p).overlay.childItems =
      stackBefore (s.overlay.childItems ++ [.dimmer p]) (.dimmer p) (.popupItem p) := by
    rw [QQuickOverlayPrivate.createOverlay_childItems, hnone, hav]
    rfl
  have hfields : dimmer.opacity = (if QQuickPopup.isVisible (s.popup p).d then 1 else 0) ∧
      dimmer.z = (s.popup p).d.popupItem.z ∧ dimmer.width = s.overlay.width ∧
      dimmer.height = s.overlay.height ∧
      dimmer.acceptHoverEvents =
        ((match dimmer.component with
          | some c => c.acceptHoverEvents
          | none => false) || ((s.popup p).d.modal && !(s.popup p).drawer)) := by
    unfold OverlayScene.dimmerFor at hfor
    simp only at hfor
    split at hfor
    · split_ifs at hfor <;> simp only [Option.some.injEq, reduceCtorEq] at hfor <;> subst hfor <;>
        simp [*]
    · split_ifs at hfor <;> simp only [Option.some.injEq, reduceCtorEq] at hfor <;> subst hfor <;>
        simp [*]
  obtain ⟨front, behind, h1, h2⟩ := stackBefore_append s.overlay.childItems (.dimmer p)
    (.popupItem p) (by intro e; cases e) hnot hchild
  refine ⟨hfields.1, hfields.2.1, ?_, ?_, ⟨front, behind, h1, ?_⟩, hfields.2.2.2.2⟩
  · rw [hs.width]
    exact hfields.2.2.1
  · rw [hs.height]
    exact hfields.2.2.2.1
  · rw [hlist, h2]

/-- C26 (amended, at an instance): the modal popup 4 is attached with `dim` cleared
and has no dimmer; the overlay has templates. The dimmer made for it comes from
the modal template, has opacity 0 (the popup is not visible), z 0, size
400 x 400, and accepts hover events. -/
theorem dimmer_creation_postconditions_witness :
    ((QQuickOverlayPrivate.createOverlay
          (Scene.templatedScene.runAll [.setDim 4 false, .attach 1, .attach 4]) 4).popup 4).dimmer =
        some ⟨some Scene.modalTemplate, 0, 0, 400, 400, true⟩ ∧
      (QQuickOverlayPrivate.createOverlay
          (Scene.templatedScene.runAll [.setDim 4 false, .attach 1, .attach 4]) 4).overlay.childItems =
        [.popupItem 1, .dimmer 4, .popupItem 4] ∧
      (⟨some Scene.modalTemplate, 0, 0, 400, 400, true⟩ : Dimmer).acceptHoverEvents =
        ((match (⟨some Scene.modalTemplate, 0, 0, 400, 400, true⟩ : Dimmer).component with
          | some c => c.acceptHoverEvents
          | none => false) ||
          (((Scene.templatedScene.runAll [.setDim 4 false, .attach 1, .attach 4]).popup 4).d.modal &&
            !((Scene.templatedScene.runAll [.setDim 4 false, .attach 1, .attach 4]).popup 4).drawer)) :=
  ⟨by decide!, by decide!,
    (dimmer_creation_postconditions
      (Scene.templatedScene.runAll [.setDim 4 false, .attach 1, .attach 4]) 4
      ⟨some Scene.modalTemplate, 0, 0, 400, 400, true⟩ (by decide!) (by decide!) (by decide!)
      (by decide!)).2.2.2.2.2⟩

/-- C25 (as stated, refuted): the overlay has no templates. The modal popup 4 with
`dim` set is attached and has the plain item as dimmer; after `setModal(false)`
it is still attached with `dim` set, the dimmer is destroyed, and no new one is
created. -/
theorem modal_toggle_without_template_leaves_no_dimmer :
    ((Scene.overlayScene.runAll [.attach 4]).popup 4).dimmer.isSome = true ∧
      OverlayChild.popupItem 4 ∈
        (Scene.overlayScene.runAll [.attach 4, .setModal 4 false]).overlay.childItems ∧
      ((Scene.overlayScene.runAll [.attach 4, .setModal 4 false]).popup 4).dim = true ∧
      ((Scene.overlayScene.runAll [.attach 4, .setModal 4 false]).popup 4).dimmer = none ∧
      OverlayChild.dimmer 4 ∉
        (Scene.overlayScene.runAll [.attach 4, .setModal 4 false]).overlay.childItems := by
  decide!

/-- C25 (amended): in a state reached from a new overlay by attaching and detaching
popups and setting their flags, for an attached popup with `dim` set, changing
its modal flag leaves it with the dimmer that is made anew for the new flag
(`dimmerFor`): an item from the template for the new flag if that yields an
item, a plain item if not and the popup is now modal, and no dimmer if not and
the popup is now not modal. So after the change a popup that is now modal has a
dimmer; and the dimmer is a child of the overlay once if there is one and not at
all otherwise, so the dimmer it had is gone. -/
theorem modal_toggle_recreates_dimmer (popup : Nat → QQuickPopup) (width height : ℚ)
    (modal modeless : Option QQmlComponent) (ops : List OverlayOp) (p : Nat) (m : Bool)
    (hattached : OverlayChild.popupItem p ∈
      ((OverlayScene.initial popup width height modal modeless).runAll ops).overlay.childItems)
    (hdim : (((OverlayScene.initial popup width height modal modeless).runAll ops).popup p).dim = true)
    (hm : (((OverlayScene.initial popup width height modal modeless).runAll ops).popup p).d.modal ≠ m) :
    ((((OverlayScene.initial popup width height modal modeless).runAll ops).setModal p m).popup
          p).dimmer =
        (((OverlayScene.initial popup width height modal modeless).runAll ops).setModal p m).dimmerFor
          p ∧
      ((((OverlayScene.initial popup width height modal modeless).runAll ops).setModal p m).popup
          p).d.modal = m ∧
      (m = true →
        ((((OverlayScene.initial popup width height modal modeless).runAll ops).setModal p m).popup
          p).dimmer.isSome = true) ∧
      (∀ c, (if m then modal else modeless) = some c → c.createsItem = true →
        ((((OverlayScene.initial popup width height modal modeless).runAll ops).setModal p m).popup
          p).dimmer.map Dimmer.component = some (some c)) ∧
      (((OverlayScene.initial popup width height modal modeless).runAll ops).setModal p
          m).overlay.childItems.count (.dimmer p) =
        if ((((OverlayScene.initial popup width height modal modeless).runAll ops).setModal p m).popup
          p).dimmer.isSome then 1 else 0 := by
  have htemplates : ∀ ops : List OverlayOp,
      ((OverlayScene.initial popup width height modal modeless).runAll ops).overlay.modal = modal ∧
      ((OverlayScene.initial popup width height modal modeless).runAll ops).overlay.modeless =
        modeless := by
    intro ops
    generalize hs0 : OverlayScene.initial popup width height modal modeless = s0
    have h0 : s0.overlay.modal = modal ∧ s0.overlay.modeless = modeless := by
      rw [← hs0]
      exact ⟨rfl, rfl⟩
    clear hs0
    induction ops generalizing s0 with
    | nil => exact h0
    | cons op ops ih =>
      apply ih (s0.run op)
      cases op with
      | attach q =>
        simp only [OverlayScene.run, OverlayScene.attach]
        split_ifs
        · exact h0
        · exact ⟨(QQuickOverlay.addChild_same s0 q).modal.trans h0.1,
            (QQuickOverlay.addChild_same s0 q).modeless.trans h0.2⟩
      | detach q =>
        simp only [OverlayScene.run, OverlayScene.detach]
        split_ifs
        · exact ⟨(QQuickOverlay.removeChild_same s0 q).modal.trans h0.1,
            (QQuickOverlay.removeChild_same s0 q).modeless.trans h0.2⟩
        · exact h0
      | setModal q b =>
        exact ⟨(OverlayScene.setModal_same s0 q b).modal.trans h0.1,
          (OverlayScene.setModal_same s0 q b).modeless.trans h0.2⟩
      | setDim q b =>
        by_cases h : (s0.popup q).dim = b
        · simp only [OverlayScene.run, OverlayScene.setDim]
          rw [if_pos h]
          exact h0
        · exact ⟨(OverlayScene.setDim_same s0 q b h).modal.trans h0.1,
            (OverlayScene.setDim_same s0 q b h).modeless.trans h0.2⟩
  have ht := htemplates ops
  have hcons : ((OverlayScene.initial popup width height modal modeless).runAll
      ops).dimmersConsistent :=
    OverlayScene.runAll_dimmersConsistent ops _
      (OverlayScene.initial_dimmersConsistent popup width height modal modeless)
  generalize (OverlayScene.initial popup width height modal modeless).runAll ops = s at *
  have hpop : p ∈ s.overlay.popups := (hcons.mem_popups p).2 ((mem_popupsOf _ p).2 hattached)
  have hsame := OverlayScene.setModal_same s p m
  have hmodal : ((s.setModal p m).popup p).d.modal = m := by
    rw [hsame.d p, OverlayScene.setPopup_popup_self]
    exact QQuickPopup.setModal_modal _ m
  have hdimmer : ((s.setModal p m).popup p).dimmer = (s.setModal p m).dimmerFor p := by
    rw [hsame.dimmerFor p]
    unfold OverlayScene.setModal
    rw [if_neg hm]
    simp only [OverlayScene.setPopup_overlay]
    rw [if_pos hpop, QQuickOverlayPrivate.toggleOverlay_dimmer, OverlayScene.setPopup_popup_self]
    simp only [hdim, if_true]
  have hsome : (s.setModal p m).dimmerAvailable p =
      ((match (if m then modal else modeless) with
        | some c => c.createsItem
        | none => false) || m) := by
    unfold OverlayScene.dimmerAvailable
    rw [hmodal, hsame.modal, hsame.modeless]
    simp only [OverlayScene.setPopup_overlay, ht.1, ht.2]
  refine ⟨hdimmer, hmodal, ?_, ?_, ?_⟩
  · intro hmt
    rw [hdimmer, OverlayScene.dimmerFor_isSome, hsome, hmt]
    simp
  · intro c hc hi
    rw [hdimmer]
    unfold OverlayScene.dimmerFor
    rw [hmodal, hsame.modal, hsame.modeless]
    simp only [OverlayScene.setPopup_overlay, ht.1, ht.2, hc, hi, if_true, Option.map_some']
  · exact (OverlayScene.setModal_dimmersConsistent s p m hcons p).2.2.1

/-- C25 (amended, at an instance): the overlay has a modal and a modeless template;
the modal popup 4 with `dim` set is attached and made not modal. Its dimmer then
comes from the modeless template and accepts no hover events. -/
theorem modal_toggle_recreates_dimmer_witness :
    ((Scene.templatedScene.runAll [.attach 4]).popup 4).dimmer =
        some ⟨some Scene.modalTemplate, 0, 0, 400, 400, true⟩ ∧
      ((((OverlayScene.initial Scene.popups 400 400 (some Scene.modalTemplate)
          (some Scene.modelessTemplate)).runAll [.attach 4]).setModal 4 false).popup 4).dimmer.map
          Dimmer.component = some (some Scene.modelessTemplate) :=
  ⟨by decide!,
    (modal_toggle_recreates_dimmer Scene.popups 400 400 (some Scene.modalTemplate)
      (some Scene.modelessTemplate) [.attach 4] 4 false (by decide!) (by decide!)
      (by decide!)).2.2.2.1 Scene.modelessTemplate rfl rfl⟩
